import Mathlib

/-!
Verification of the knight's-tour solver in `src/main.py`.

The search state, move generation and the backtracking engine are embedded
from the source (`Board.__init__`, `Board._is_valid`, `Board._solve_knight_tour`,
`Board.solve`, `Knight.__init__`); the Python recursion is modelled with an
explicit fuel argument, and a fuel-sufficiency theorem shows the fuel used by
`runSolve` never runs out.
-/

namespace KnightsTour

/-- The 8 knight move offsets, in the order fixed by `Knight.__init__`. -/
def offsets : List (Int × Int) :=
  [(2, 1), (1, 2), (-1, 2), (-2, 1), (-2, -1), (-1, -2), (1, -2), (2, -1)]

/-- The mutable search state of `Board`: the `solution` grid (move index per
square, `-1` = unvisited), the `visits` set (modelled as a duplicate-free list,
most recently added first), and `Knight.position`. -/
structure SearchState where
  solution : List (List Int)
  visits : List (Int × Int)
  knightPos : Int × Int
deriving DecidableEq, Repr

/-- Read `solution[r][c]`.  The source only reads in bounds (the bounds test
in `_is_valid` short-circuits), so the out-of-bounds default is irrelevant. -/
def gridGet (g : List (List Int)) (r c : Int) : Int :=
  (g.getD r.toNat []).getD c.toNat (-1)

/-- Write `solution[r][c] = v` (no-op out of bounds; the source only writes
in bounds). -/
def gridSet (g : List (List Int)) (r c : Int) (v : Int) : List (List Int) :=
  g.set r.toNat ((g.getD r.toNat []).set c.toNat v)

/-- `Board._is_valid`: `0 <= row < n and 0 <= col < n and solution[row][col] == -1`. -/
def isValid (n : Nat) (g : List (List Int)) (r c : Int) : Bool :=
  decide (0 ≤ r) && decide (r < (n : Int)) && decide (0 ≤ c) && decide (c < (n : Int))
    && decide (gridGet g r c = -1)

/-- The marking step of `_solve_knight_tour`:
`solution[nr][nc] = move_count; knight.position = (nr, nc); visits.add((nr, nc))`. -/
def markState (s : SearchState) (r c : Int) (mc : Nat) : SearchState :=
  { solution := gridSet s.solution r c (mc : Int)
    visits := s.visits.insert (r, c)
    knightPos := (r, c) }

/-- The backtracking step of `_solve_knight_tour`:
`solution[nr][nc] = -1; visits.remove((nr, nc))` — `knight.position` is left alone. -/
def unmarkState (s : SearchState) (r c : Int) : SearchState :=
  { solution := gridSet s.solution r c (-1)
    visits := s.visits.erase (r, c)
    knightPos := s.knightPos }

/-- The `for dx, dy in self.knight.offsets` loop body of `_solve_knight_tour`:
try each offset in order; on a valid candidate mark it and recurse (`rsolve`),
propagate success, otherwise unmark and continue with the remaining offsets. -/
def tryMoves (n : Nat) (rsolve : Int → Int → Nat → SearchState → Option (Bool × SearchState))
    (row col : Int) (mc : Nat) : List (Int × Int) → SearchState → Option (Bool × SearchState)
  | [], s => some (false, s)
  | (dr, dc) :: rest, s =>
    let nr := row + dr
    let nc := col + dc
    if isValid n s.solution nr nc then
      match rsolve nr nc (mc + 1) (markState s nr nc mc) with
      | none => none
      | some (true, s') => some (true, s')
      | some (false, s') => tryMoves n rsolve row col mc rest (unmarkState s' nr nc)
    else
      tryMoves n rsolve row col mc rest s

/-- `Board._solve_knight_tour(row, col, move_count)`, with a fuel argument
bounding the recursion depth (`none` = fuel ran out; `solveFuelSufficient`
shows the fuel supplied by `runSolve` never does). -/
def solveKnightTour (n : Nat) : Nat → Int → Int → Nat → SearchState → Option (Bool × SearchState)
  | 0, _, _, _, _ => none
  | fuel + 1, row, col, mc, s =>
    if mc = n * n then some (true, s)
    else tryMoves n (solveKnightTour n fuel) row col mc offsets s

/-- The all-`-1` grid allocated by `Board.__init__`. -/
def emptyGrid (n : Nat) : List (List Int) :=
  List.replicate n (List.replicate n (-1))

/-- The state built by `Board.__init__` for n ≥ 1: all squares unvisited except
`solution[0][0] = 0`, `visits = {(0, 0)}`, `knight.position = (0, 0)`. -/
def initState (n : Nat) : SearchState :=
  { solution := gridSet (emptyGrid n) 0 0 0
    visits := [(0, 0)]
    knightPos := (0, 0) }

/-- The exception `Board.__init__` can raise: for n < 1 the grid is empty and
the assignment `self.solution[0][0] = 0` raises `IndexError`. -/
inductive InitError
  | indexError
deriving DecidableEq, Repr

/-- `Board.__init__(knight, n)`.  The caller's knight may carry any position
`knightStart`, but `__init__` unconditionally overwrites it with
`self.knight.position = (0, 0)`, so `knightStart` does not influence the
resulting state.  For n < 1 the write `solution[0][0] = 0` raises `IndexError`. -/
def mkBoard (n : Nat) (_knightStart : Int × Int) : Except InitError SearchState :=
  if 1 ≤ n then .ok (initState n) else .error .indexError

/-- `Board.solve`: runs `_solve_knight_tour(0, 0, 1)` and returns its boolean,
together with the final state.  Fuel `n*n + 1` bounds the recursion depth and
never runs out (`solveFuelSufficient`). -/
def runSolve (n : Nat) : Option (Bool × SearchState) :=
  solveKnightTour n (n * n + 1) 0 0 1 (initState n)

/-- Observable outcome of constructing a `Board` and calling `solve` on it. -/
inductive CallResult
  /-- `solve` returned (`found` = its boolean), leaving `final` as the board state. -/
  | ok (found : Bool) (final : SearchState)
  /-- `Board.__init__` raised `IndexError`. -/
  | indexError
  /-- Modelled from the spec: the `InvalidArgument` caller error of the spec's
  error taxonomy (§7).  No code in the source raises or returns any such value;
  the constructor exists so the spec's claim about it can be stated. -/
  | invalidArgument
deriving DecidableEq, Repr

/-- Construct a `Board` (with the knight initially at `start`) and call
`solve`, as `__main__` does; `none` would mean the fuel ran out. -/
def callSolve (n : Nat) (start : Int × Int) : Option CallResult :=
  match mkBoard n start with
  | .error _ => some .indexError
  | .ok s => (solveKnightTour n (n * n + 1) 0 0 1 s).map fun r => .ok r.1 r.2

/-- All squares of the n×n board, row-major. -/
def allSquares (n : Nat) : List (Int × Int) :=
  (List.range n).flatMap fun r => (List.range n).map fun c => (Int.ofNat r, Int.ofNat c)

/-- Modelled from the spec: §4.5 Tour Recorder, absent from the source (the
source's `move_path` is never appended to).  The square holding move index `i`
in the final grid, found by scanning the board. -/
def sqAt (n : Nat) (g : List (List Int)) (i : Nat) : Int × Int :=
  (((allSquares n).find? fun p => gridGet g p.1 p.2 == (i : Int)).getD (0, 0))

/-- Modelled from the spec: §4.5 Tour Recorder, absent from the source (the
source's `move_path` is never appended to).  "Walks the final Board State and
produces the ordered Tour Path (square at each move index 0..n²−1) by
inverting the index-to-square mapping." -/
def tourPath (n : Nat) (g : List (List Int)) : List (Int × Int) :=
  (List.range (n * n)).map (sqAt n g)

/-- The in-bounds unvisited candidate squares reachable from `(row, col)`,
in the order the `for dx, dy in self.knight.offsets` loop of
`_solve_knight_tour` encounters them. -/
def candidateList (n : Nat) (g : List (List Int)) (row col : Int) : List (Int × Int) :=
  (offsets.map fun d => (row + d.1, col + d.2)).filter fun p => isValid n g p.1 p.2

/-- Modelled from the spec: §4.3 Heuristic Evaluator, absent from the source
(no degree is ever computed by `_solve_knight_tour`).  "degree(square) equals
the count of candidates(square) as evaluated against the current Board State". -/
def degree (n : Nat) (g : List (List Int)) (p : Int × Int) : Nat :=
  (candidateList n g p.1 p.2).length

/-- The square `p` lies on the n×n board (the bounds test of `_is_valid`). -/
def inB (n : Nat) (p : Int × Int) : Prop :=
  0 ≤ p.1 ∧ p.1 < (n : Int) ∧ 0 ≤ p.2 ∧ p.2 < (n : Int)

instance (n : Nat) (p : Int × Int) : Decidable (inB n p) := by
  unfold inB
  exact inferInstance

/-- The `solution` grid is a well-formed n×n list of lists. -/
def GridShape (n : Nat) (g : List (List Int)) : Prop :=
  g.length = n ∧ ∀ r ∈ g, r.length = n

/-! ### Small-step characterization of the engine

One lemma per control-flow edge of `_solve_knight_tour`, used both to prove
general theorems about the search and to replay concrete runs. -/

/-- Unfolding: with fuel left and the tour incomplete, the engine scans the
offsets in their fixed order. -/
theorem solve_succ (n fuel : Nat) (row col : Int) (mc : Nat) (s : SearchState)
    (h : ¬ mc = n * n) :
    solveKnightTour n (fuel + 1) row col mc s
      = tryMoves n (solveKnightTour n fuel) row col mc offsets s := by
  simp [solveKnightTour, h]

/-- Unfolding: `move_count == n*n` succeeds immediately, state untouched. -/
theorem solve_done (n fuel : Nat) (row col : Int) (mc : Nat) (s : SearchState)
    (h : mc = n * n) :
    solveKnightTour n (fuel + 1) row col mc s = some (true, s) := by
  simp [solveKnightTour, h]

/-- Unfolding: an exhausted offset list reports failure with the state as is. -/
theorem tm_nil (n : Nat) (rsolve : Int → Int → Nat → SearchState → Option (Bool × SearchState))
    (row col : Int) (mc : Nat) (s : SearchState) :
    tryMoves n rsolve row col mc [] s = some (false, s) := rfl

/-- Unfolding: an offset landing on an invalid square is skipped. -/
theorem tm_skip (n : Nat) (rsolve : Int → Int → Nat → SearchState → Option (Bool × SearchState))
    (row col dr dc nr nc : Int) (mc : Nat) (rest : List (Int × Int)) (s : SearchState)
    (hr : row + dr = nr) (hc : col + dc = nc)
    (h1 : isValid n s.solution nr nc = false) :
    tryMoves n rsolve row col mc ((dr, dc) :: rest) s
      = tryMoves n rsolve row col mc rest s := by
  subst hr hc
  simp [tryMoves, h1]

/-- Unfolding: a valid candidate whose recursive attempt fails is unmarked and
the scan continues with the remaining offsets. -/
theorem tm_fail (n : Nat) (rsolve : Int → Int → Nat → SearchState → Option (Bool × SearchState))
    (row col dr dc nr nc : Int) (mc : Nat) (rest : List (Int × Int)) (s sm s2 s3 : SearchState)
    (hr : row + dr = nr) (hc : col + dc = nc)
    (h1 : isValid n s.solution nr nc = true)
    (hm : markState s nr nc mc = sm)
    (h2 : rsolve nr nc (mc + 1) sm = some (false, s2))
    (h3 : unmarkState s2 nr nc = s3) :
    tryMoves n rsolve row col mc ((dr, dc) :: rest) s
      = tryMoves n rsolve row col mc rest s3 := by
  subst hr hc hm h3
  simp [tryMoves, h1, h2]

/-- Unfolding: a valid candidate whose recursive attempt succeeds propagates
the success, leaving the deeper state in place. -/
theorem tm_win (n : Nat) (rsolve : Int → Int → Nat → SearchState → Option (Bool × SearchState))
    (row col dr dc nr nc : Int) (mc : Nat) (rest : List (Int × Int)) (s sm s2 : SearchState)
    (hr : row + dr = nr) (hc : col + dc = nc)
    (h1 : isValid n s.solution nr nc = true)
    (hm : markState s nr nc mc = sm)
    (h2 : rsolve nr nc (mc + 1) sm = some (true, s2)) :
    tryMoves n rsolve row col mc ((dr, dc) :: rest) s = some (true, s2) := by
  subst hr hc hm
  simp [tryMoves, h1, h2]

/-- Unfolding: a valid candidate whose recursive attempt runs out of fuel
propagates the fuel exhaustion (never reached from `runSolve`,
see `solveFuelSufficient`). -/
theorem tm_out (n : Nat) (rsolve : Int → Int → Nat → SearchState → Option (Bool × SearchState))
    (row col dr dc nr nc : Int) (mc : Nat) (rest : List (Int × Int)) (s sm : SearchState)
    (hr : row + dr = nr) (hc : col + dc = nc)
    (h1 : isValid n s.solution nr nc = true)
    (hm : markState s nr nc mc = sm)
    (h2 : rsolve nr nc (mc + 1) sm = none) :
    tryMoves n rsolve row col mc ((dr, dc) :: rest) s = none := by
  subst hr hc hm
  simp [tryMoves, h1, h2]

/-! ### List and grid access lemmas -/

theorem listGetD_cons_succ {α : Type} (a : α) (l : List α) (i : Nat) (d : α) :
    (a :: l).getD (i + 1) d = l.getD i d := rfl

theorem listGetD_set_self {α : Type} :
    ∀ (l : List α) (i : Nat) (x d : α), i < l.length → (l.set i x).getD i d = x
  | [], i, _, _, h => absurd h (by simp)
  | _ :: _, 0, _, _, _ => rfl
  | _ :: t, i + 1, x, d, h => by
    simpa [List.set, listGetD_cons_succ] using listGetD_set_self t i x d (by simpa using h)

theorem listGetD_set_ne {α : Type} :
    ∀ (l : List α) (i j : Nat) (x d : α), i ≠ j → (l.set i x).getD j d = l.getD j d
  | [], _, _, _, _, _ => by simp
  | _ :: _, 0, 0, _, _, h => absurd rfl h
  | _ :: _, 0, _ + 1, _, _, _ => rfl
  | _ :: _, _ + 1, 0, _, _, _ => rfl
  | _ :: t, i + 1, j + 1, x, d, h => by
    simpa [List.set, listGetD_cons_succ] using
      listGetD_set_ne t i j x d (fun hij => h (by omega))

theorem listSet_getD_self {α : Type} :
    ∀ (l : List α) (i : Nat) (d : α), l.set i (l.getD i d) = l
  | [], _, _ => rfl
  | _ :: _, 0, _ => rfl
  | a :: t, i + 1, d => by
    simpa [List.set, listGetD_cons_succ] using congrArg (a :: ·) (listSet_getD_self t i d)

theorem gridGet_congr (g : List (List Int)) (r c r' c' : Int)
    (hr : r.toNat = r'.toNat) (hc : c.toNat = c'.toNat) :
    gridGet g r c = gridGet g r' c' := by
  unfold gridGet
  rw [hr, hc]

theorem int_toNat_lt_of (n : Nat) (a : Int) (h0 : 0 ≤ a) (h : a < (n : Int)) : a.toNat < n := by
  omega

theorem int_eq_of_toNat (a b : Int) (h0 : 0 ≤ a) (h1 : 0 ≤ b) (h : a.toNat = b.toNat) :
    a = b := by
  omega

theorem rowLen_of_shape (n : Nat) (g : List (List Int)) (hs : GridShape n g) (i : Nat)
    (hi : i < n) : (g.getD i []).length = n := by
  apply hs.2
  have hlen : i < g.length := by rw [hs.1]; exact hi
  have : g.getD i [] = g[i] := by
    simp [List.getD_eq_getElem?_getD, List.getElem?_eq_getElem hlen]
  rw [this]
  exact g.getElem_mem hlen

theorem gridGet_gridSet_self (n : Nat) (g : List (List Int)) (r c : Int) (v : Int)
    (hs : GridShape n g) (hp : inB n (r, c)) :
    gridGet (gridSet g r c v) r c = v := by
  obtain ⟨h1, h2, h3, h4⟩ := hp
  have hr : r.toNat < g.length := by rw [hs.1]; exact int_toNat_lt_of n r h1 h2
  have hrow : (g.getD r.toNat []).length = n :=
    rowLen_of_shape n g hs r.toNat (by rw [← hs.1]; exact hr)
  have hc : c.toNat < (g.getD r.toNat []).length := by
    rw [hrow]; exact int_toNat_lt_of n c h3 h4
  unfold gridGet gridSet
  rw [listGetD_set_self _ _ _ _ (by simpa using hr)]
  exact listGetD_set_self _ _ _ _ hc

theorem gridGet_gridSet_ne (g : List (List Int)) (r c r' c' : Int) (v : Int)
    (hne : r.toNat ≠ r'.toNat ∨ c.toNat ≠ c'.toNat) :
    gridGet (gridSet g r c v) r' c' = gridGet g r' c' := by
  unfold gridGet gridSet
  rcases hne with hne | hne
  · rw [listGetD_set_ne _ _ _ _ _ hne]
  · rcases eq_or_ne r.toNat r'.toNat with hr | hr
    · rw [← hr]
      by_cases hlen : r.toNat < g.length
      · rw [listGetD_set_self _ _ _ _ hlen, listGetD_set_ne _ _ _ _ _ hne]
      · rw [List.set_eq_of_length_le (by omega)]
    · rw [listGetD_set_ne _ _ _ _ _ hr]

theorem gridShape_gridSet (n : Nat) (g : List (List Int)) (r c : Int) (v : Int)
    (hs : GridShape n g) : GridShape n (gridSet g r c v) := by
  refine ⟨by simpa [gridSet] using hs.1, ?_⟩
  intro row hrow
  by_cases hlen : r.toNat < g.length
  · rcases List.mem_or_eq_of_mem_set hrow with h | h
    · exact hs.2 row h
    · subst h
      rw [List.length_set]
      exact rowLen_of_shape n g hs r.toNat (by rw [← hs.1]; exact hlen)
  · have hid : gridSet g r c v = g := by
      unfold gridSet
      exact List.set_eq_of_length_le (by omega)
    rw [hid] at hrow
    exact hs.2 row hrow

theorem gridSet_unmark_mark (n : Nat) (g : List (List Int)) (r c : Int) (v : Int)
    (hs : GridShape n g) (hp : inB n (r, c)) (hempty : gridGet g r c = -1) :
    gridSet (gridSet g r c v) r c (-1) = g := by
  obtain ⟨h1, h2, h3, h4⟩ := hp
  have hr : r.toNat < g.length := by rw [hs.1]; exact int_toNat_lt_of n r h1 h2
  unfold gridSet
  rw [listGetD_set_self _ _ _ _ (by simpa using hr), List.set_set, List.set_set]
  have : (g.getD r.toNat []).set c.toNat (-1) = g.getD r.toNat [] := by
    have := listSet_getD_self (g.getD r.toNat []) c.toNat (-1)
    rwa [show (g.getD r.toNat []).getD c.toNat (-1) = -1 from hempty] at this
  rw [this]
  exact listSet_getD_self g r.toNat []

/-- `_is_valid` decides exactly: on the board and still unvisited. -/
theorem isValid_iff (n : Nat) (g : List (List Int)) (r c : Int) :
    isValid n g r c = true ↔ inB n (r, c) ∧ gridGet g r c = -1 := by
  simp [isValid, inB, and_assoc]

/-! ### Board enumeration and the count of marked squares -/

theorem mem_allSquares (n : Nat) (p : Int × Int) : p ∈ allSquares n ↔ inB n p := by
  obtain ⟨a, b⟩ := p
  constructor
  · intro hp
    obtain ⟨r, hr, hmem⟩ := List.mem_flatMap.1 hp
    obtain ⟨c, hc, heq⟩ := List.mem_map.1 hmem
    rw [List.mem_range] at hr hc
    cases heq
    refine ⟨?_, ?_, ?_, ?_⟩ <;> simp only [Int.ofNat_eq_coe] <;> omega
  · intro hB
    obtain ⟨h1, h2, h3, h4⟩ := hB
    apply List.mem_flatMap.2
    refine ⟨a.toNat, List.mem_range.2 (by omega), ?_⟩
    apply List.mem_map.2
    refine ⟨b.toNat, List.mem_range.2 (by omega), ?_⟩
    simp only [Prod.mk.injEq, Int.ofNat_eq_coe]
    omega

theorem nodup_allSquares (n : Nat) : (allSquares n).Nodup := by
  unfold allSquares
  refine List.nodup_flatMap.2 ⟨?_, ?_⟩
  · intro r _
    refine List.Nodup.map ?_ (List.nodup_range n)
    intro c c' h
    simpa using congrArg Prod.snd h
  · refine List.Pairwise.imp ?_ (List.nodup_range n)
    intro r r' hne q hq hq'
    obtain ⟨c, _, rfl⟩ := List.mem_map.1 hq
    obtain ⟨c', _, heq⟩ := List.mem_map.1 hq'
    apply hne
    have h1 : Int.ofNat r' = Int.ofNat r := by simpa using congrArg Prod.fst heq
    simp only [Int.ofNat_eq_coe] at h1
    omega

theorem length_map_const {α : Type} : ∀ (l : List α) (k : Nat), (l.map fun _ => k).sum = l.length * k
  | [], _ => by simp
  | _ :: t, k => by
    simp [length_map_const t k, Nat.succ_mul, Nat.add_comm]

theorem length_allSquares (n : Nat) : (allSquares n).length = n * n := by
  have h : allSquares n
      = ((List.range n).map fun r => (List.range n).map fun c => (Int.ofNat r, Int.ofNat c)).flatten :=
    rfl
  rw [h, List.length_flatten, List.map_map]
  have h2 : List.map (List.length ∘ fun r => (List.range n).map fun c => (Int.ofNat r, Int.ofNat c))
      (List.range n) = List.map (fun _ => n) (List.range n) :=
    List.map_congr_left (by intro a _; simp)
  rw [h2, length_map_const, List.length_range]

/-- The number of visited squares recorded in the `solution` grid. -/
def markedCount (n : Nat) (g : List (List Int)) : Nat :=
  ((allSquares n).filter fun p => decide (gridGet g p.1 p.2 ≠ -1)).length

theorem filter_length_flip {α : Type} :
    ∀ (l : List α) (f g : α → Bool) (a : α), l.Nodup → a ∈ l → f a = false → g a = true →
      (∀ x ∈ l, x ≠ a → g x = f x) →
      (l.filter g).length = (l.filter f).length + 1
  | [], _, _, _, _, ha, _, _, _ => absurd ha (by simp)
  | b :: t, f, g, a, hnd, ha, hfa, hga, hpt => by
    have hbt : b ∉ t := (List.nodup_cons.1 hnd).1
    have hndt : t.Nodup := (List.nodup_cons.1 hnd).2
    rcases List.mem_cons.1 ha with rfl | hat
    · have hft : t.filter g = t.filter f := by
        apply List.filter_congr
        intro x hx
        exact hpt x (List.mem_cons_of_mem _ hx) (fun hxa => hbt (hxa ▸ hx))
      simp [List.filter_cons, hfa, hga, hft]
    · have hgb : g b = f b := hpt b (List.mem_cons_self _ _) (fun hba => hbt (hba ▸ hat))
      have IH := filter_length_flip t f g a hndt hat hfa hga
        (fun x hx hxa => hpt x (List.mem_cons_of_mem _ hx) hxa)
      cases hfb : f b <;>
        simp [List.filter_cons, hgb, hfb, IH]

theorem cell_eq_of_inB (n : Nat) (p q : Int × Int) (hp : inB n p) (hq : inB n q)
    (h1 : p.1.toNat = q.1.toNat) (h2 : p.2.toNat = q.2.toNat) : p = q := by
  obtain ⟨a, b⟩ := p
  obtain ⟨c, d⟩ := q
  obtain ⟨_, _, _, _⟩ := hp
  obtain ⟨_, _, _, _⟩ := hq
  simp only [Prod.mk.injEq]
  omega

theorem markedCount_gridSet (n : Nat) (g : List (List Int)) (r c : Int) (v : Int)
    (hs : GridShape n g) (hp : inB n (r, c)) (hempty : gridGet g r c = -1) (hv : v ≠ -1) :
    markedCount n (gridSet g r c v) = markedCount n g + 1 := by
  unfold markedCount
  apply filter_length_flip (allSquares n) _ _ (r, c) (nodup_allSquares n)
    ((mem_allSquares n (r, c)).2 hp)
  · simp [hempty]
  · simp [gridGet_gridSet_self n g r c v hs hp, hv]
  · intro x hx hxne
    have hxB := (mem_allSquares n x).1 hx
    have : r.toNat ≠ x.1.toNat ∨ c.toNat ≠ x.2.toNat := by
      by_contra hcon
      push_neg at hcon
      exact hxne (cell_eq_of_inB n x (r, c) hxB hp hcon.1.symm hcon.2.symm)
    rw [gridGet_gridSet_ne g r c x.1 x.2 v this]

theorem all_marked_of_count (n : Nat) (g : List (List Int))
    (h : markedCount n g = n * n) :
    ∀ p ∈ allSquares n, gridGet g p.1 p.2 ≠ -1 := by
  intro p hp
  have hsub : List.Sublist ((allSquares n).filter fun p => decide (gridGet g p.1 p.2 ≠ -1))
      (allSquares n) :=
    List.filter_sublist (allSquares n)
  have heq := hsub.eq_of_length (by rw [← markedCount]; rw [h, length_allSquares])
  rw [← heq] at hp
  simpa using List.of_mem_filter hp

/-! ### State operations, projections -/

theorem markState_solution (s : SearchState) (r c : Int) (mc : Nat) :
    (markState s r c mc).solution = gridSet s.solution r c (mc : Int) := rfl

theorem markState_visits (s : SearchState) (r c : Int) (mc : Nat) :
    (markState s r c mc).visits = s.visits.insert (r, c) := rfl

theorem unmarkState_solution (s : SearchState) (r c : Int) :
    (unmarkState s r c).solution = gridSet s.solution r c (-1) := rfl

theorem unmarkState_visits (s : SearchState) (r c : Int) :
    (unmarkState s r c).visits = s.visits.erase (r, c) := rfl

/-! ### The search invariant -/

/-- Invariant of `_solve_knight_tour` at a call with current square `(row, col)`
and `move_count = mc`: the grid is well-shaped, holds each index `0..mc-1`
exactly once, consecutive indices are a knight move apart, the start square
holds `0`, `(row, col)` holds the latest index `mc-1`, `visits` is exactly the
set of marked squares, and `mc` squares are marked. -/
structure GInv (n mc : Nat) (row col : Int) (s : SearchState) : Prop where
  hn : 1 ≤ n
  shape : GridShape n s.solution
  mc_lb : 1 ≤ mc
  mc_ub : mc ≤ n * n
  start0 : gridGet s.solution 0 0 = 0
  vals : ∀ p, inB n p → gridGet s.solution p.1 p.2 = -1 ∨
    ∃ i : Nat, i < mc ∧ gridGet s.solution p.1 p.2 = (i : Int)
  uniq : ∀ i : Nat, i < mc → ∀ p q, inB n p → inB n q →
    gridGet s.solution p.1 p.2 = (i : Int) → gridGet s.solution q.1 q.2 = (i : Int) → p = q
  exist : ∀ i : Nat, i < mc → ∃ p, inB n p ∧ gridGet s.solution p.1 p.2 = (i : Int)
  chain : ∀ i : Nat, i + 1 < mc → ∀ p q, inB n p → inB n q →
    gridGet s.solution p.1 p.2 = (i : Int) → gridGet s.solution q.1 q.2 = ((i + 1 : Nat) : Int) →
    (q.1 - p.1, q.2 - p.2) ∈ offsets
  cur_inB : inB n (row, col)
  cur_val : gridGet s.solution row col = ((mc - 1 : Nat) : Int)
  visits_iff : ∀ p, p ∈ s.visits ↔ (inB n p ∧ gridGet s.solution p.1 p.2 ≠ -1)
  count : markedCount n s.solution = mc

/-- `GInv` only reads `solution` and `visits`, never `knightPos`. -/
theorem GInv_transport (n mc : Nat) (row col : Int) (s s' : SearchState)
    (h : GInv n mc row col s) (hsol : s'.solution = s.solution)
    (hvis : s'.visits = s.visits) : GInv n mc row col s' := by
  obtain ⟨h1, h2, h3, h4, h5, h6, h7, h8, h9, h10, h11, h12, h13⟩ := h
  rw [← hsol] at h2 h5 h6 h7 h8 h9 h11 h13
  rw [← hsol, ← hvis] at h12
  exact ⟨h1, h2, h3, h4, h5, h6, h7, h8, h9, h10, h11, h12, h13⟩

theorem gridShape_empty (n : Nat) : GridShape n (emptyGrid n) := by
  refine ⟨by simp [emptyGrid], ?_⟩
  intro row hrow
  rw [List.eq_of_mem_replicate hrow]
  simp

theorem getD_replicate_or {α : Type} :
    ∀ (k i : Nat) (x d : α), (List.replicate k x).getD i d = x ∨ (List.replicate k x).getD i d = d
  | 0, _, _, _ => Or.inr rfl
  | _ + 1, 0, _, _ => Or.inl rfl
  | k + 1, i + 1, x, d => by
    simpa [List.replicate, listGetD_cons_succ] using getD_replicate_or k i x d

theorem gridGet_empty (n : Nat) (r c : Int) : gridGet (emptyGrid n) r c = -1 := by
  unfold gridGet emptyGrid
  rcases getD_replicate_or n r.toNat (List.replicate n (-1 : Int)) [] with h | h <;> rw [h]
  · rcases getD_replicate_or n c.toNat (-1 : Int) (-1) with h2 | h2 <;> rw [h2]
  · rfl

theorem initState_get (n : Nat) (hn : 1 ≤ n) (r c : Int) :
    gridGet (initState n).solution r c
      = if r.toNat = 0 ∧ c.toNat = 0 then 0 else -1 := by
  have h00 : inB n ((0 : Int), (0 : Int)) := ⟨by omega, by omega, by omega, by omega⟩
  by_cases hcell : r.toNat = 0 ∧ c.toNat = 0
  · rw [if_pos hcell]
    have hc := gridGet_congr (initState n).solution r c 0 0 (by simpa using hcell.1)
      (by simpa using hcell.2)
    rw [hc]
    exact gridGet_gridSet_self n (emptyGrid n) 0 0 0 (gridShape_empty n) h00
  · rw [if_neg hcell]
    have hne : (0 : Int).toNat ≠ r.toNat ∨ (0 : Int).toNat ≠ c.toNat := by
      rcases Decidable.not_and_iff_or_not.1 hcell with h | h
      · exact Or.inl (by simpa using Ne.symm h)
      · exact Or.inr (by simpa using Ne.symm h)
    rw [show (initState n).solution = gridSet (emptyGrid n) 0 0 0 from rfl]
    rw [gridGet_gridSet_ne (emptyGrid n) 0 0 r c 0 hne]
    exact gridGet_empty n r c

theorem markedCount_empty (n : Nat) : markedCount n (emptyGrid n) = 0 := by
  unfold markedCount
  have : ((allSquares n).filter fun p => decide (gridGet (emptyGrid n) p.1 p.2 ≠ -1)) = [] := by
    apply List.eq_nil_of_length_eq_zero
    rw [List.length_eq_zero]
    apply List.filter_eq_nil_iff.2
    intro p _
    simp [gridGet_empty]
  rw [this]
  rfl

/-- The state `Board.__init__` builds satisfies the invariant at move count 1. -/
theorem initInv (n : Nat) (hn : 1 ≤ n) : GInv n 1 0 0 (initState n) := by
  have h00 : inB n ((0 : Int), (0 : Int)) := ⟨by omega, by omega, by omega, by omega⟩
  have hget := initState_get n hn
  have hpZero : ∀ p : Int × Int, inB n p → gridGet (initState n).solution p.1 p.2 ≠ -1 →
      p = ((0 : Int), (0 : Int)) := by
    intro p hp hv
    rw [hget p.1 p.2] at hv
    by_cases hcell : p.1.toNat = 0 ∧ p.2.toNat = 0
    · obtain ⟨a, b⟩ := p
      obtain ⟨_, _, _, _⟩ := hp
      simp only [Prod.mk.injEq]
      constructor <;> omega
    · rw [if_neg hcell] at hv
      exact absurd rfl hv
  refine ⟨hn, gridShape_gridSet n (emptyGrid n) 0 0 0 (gridShape_empty n), le_refl 1,
    Nat.one_le_iff_ne_zero.2 (by positivity), ?_, ?_, ?_, ?_, ?_, h00, ?_, ?_, ?_⟩
  · rw [hget 0 0]
    simp
  · intro p hp
    rw [hget p.1 p.2]
    by_cases hcell : p.1.toNat = 0 ∧ p.2.toNat = 0
    · right
      exact ⟨0, Nat.zero_lt_one, by rw [if_pos hcell]; rfl⟩
    · left
      rw [if_neg hcell]
  · intro i _ p q hp hq hvp hvq
    have hpz := hpZero p hp (by rw [hvp]; omega)
    have hqz := hpZero q hq (by rw [hvq]; omega)
    rw [hpz, hqz]
  · intro i hi
    have : i = 0 := by omega
    subst this
    exact ⟨((0 : Int), (0 : Int)), h00, by rw [hget 0 0]; simp⟩
  · intro i hi
    exact absurd hi (by omega)
  · rw [hget 0 0]
    simp
  · intro p
    constructor
    · intro hp
      have hp0 : p = ((0 : Int), (0 : Int)) := by simpa [initState] using hp
      subst hp0
      exact ⟨h00, by rw [hget 0 0]; simp⟩
    · rintro ⟨hp, hv⟩
      have := hpZero p hp hv
      simp [initState, this]
  · show markedCount n (gridSet (emptyGrid n) 0 0 0) = 1
    rw [markedCount_gridSet n (emptyGrid n) 0 0 0 (gridShape_empty n) h00
      (gridGet_empty n 0 0) (by omega), markedCount_empty]

/-- Marking a valid candidate square reachable by a knight offset preserves the
invariant, with the candidate as the new current square. -/
theorem markGInv (n mc : Nat) (row col nr nc : Int) (s : SearchState)
    (hInv : GInv n mc row col s)
    (hoff : (nr - row, nc - col) ∈ offsets)
    (hlt : mc < n * n)
    (hval : isValid n s.solution nr nc = true) :
    GInv n (mc + 1) nr nc (markState s nr nc mc) := by
  obtain ⟨hinB, hempty⟩ := (isValid_iff n s.solution nr nc).1 hval
  have hn1 := hInv.hn
  have hshape := hInv.shape
  have hself : gridGet (gridSet s.solution nr nc (mc : Int)) nr nc = (mc : Int) :=
    gridGet_gridSet_self n s.solution nr nc (mc : Int) hshape hinB
  have hdich : ∀ p, inB n p → p = (nr, nc) ∨ (p ≠ (nr, nc) ∧
      gridGet (gridSet s.solution nr nc (mc : Int)) p.1 p.2 = gridGet s.solution p.1 p.2) := by
    intro p hp
    by_cases hcell : nr.toNat = p.1.toNat ∧ nc.toNat = p.2.toNat
    · exact Or.inl (cell_eq_of_inB n p (nr, nc) hp hinB hcell.1.symm hcell.2.symm)
    · refine Or.inr ⟨fun h => hcell (by rw [h]; exact ⟨rfl, rfl⟩), ?_⟩
      exact gridGet_gridSet_ne s.solution nr nc p.1 p.2 (mc : Int)
        (Decidable.not_and_iff_or_not.1 hcell)
  have hOldNe : ∀ p, inB n p → gridGet s.solution p.1 p.2 ≠ (mc : Int) := by
    intro p hp hv
    rcases hInv.vals p hp with h | ⟨i, hi, h⟩
    · rw [h] at hv; omega
    · rw [h] at hv
      have : i = mc := by omega
      omega
  have hNewOld : ∀ p, inB n p → p ≠ (nr, nc) →
      gridGet (gridSet s.solution nr nc (mc : Int)) p.1 p.2 = gridGet s.solution p.1 p.2 := by
    intro p hp hpne
    rcases hdich p hp with h | h
    · exact absurd h hpne
    · exact h.2
  refine GInv.mk hInv.hn (gridShape_gridSet n s.solution nr nc (mc : Int) hshape)
    (by omega) (by omega) ?_ ?_ ?_ ?_ ?_ hinB ?_ ?_ ?_
  · -- start0
    have h00 : inB n ((0 : Int), (0 : Int)) := ⟨by omega, by omega, by omega, by omega⟩
    have hne : ((0 : Int), (0 : Int)) ≠ (nr, nc) := by
      intro h
      have h1 : nr = 0 := by simpa using (congrArg Prod.fst h).symm
      have h2 : nc = 0 := by simpa using (congrArg Prod.snd h).symm
      rw [h1, h2, hInv.start0] at hempty
      exact absurd hempty (by decide)
    show gridGet (gridSet s.solution nr nc (mc : Int)) 0 0 = 0
    have h : gridGet (gridSet s.solution nr nc (mc : Int)) 0 0 = gridGet s.solution 0 0 :=
      hNewOld ((0 : Int), (0 : Int)) h00 hne
    rw [h]
    exact hInv.start0
  · -- vals
    intro p hp
    simp only [markState_solution]
    rcases hdich p hp with h | ⟨_, h⟩
    · subst h
      refine Or.inr ⟨mc, by omega, ?_⟩
      show gridGet (gridSet s.solution nr nc (mc : Int)) nr nc = (mc : Int)
      exact hself
    · rw [h]
      rcases hInv.vals p hp with h2 | ⟨i, hi, h2⟩
      · exact Or.inl h2
      · exact Or.inr ⟨i, by omega, h2⟩
  · -- uniq
    intro i hi p q hp hq hvp hvq
    simp only [markState_solution] at hvp hvq
    rcases hdich p hp with hP | ⟨hPne, hP⟩ <;> rcases hdich q hq with hQ | ⟨hQne, hQ⟩
    · rw [hP, hQ]
    · subst hP
      have hvp2 : gridGet (gridSet s.solution nr nc (mc : Int)) nr nc = (i : Int) := hvp
      rw [hself] at hvp2
      rw [hQ] at hvq
      have : i = mc := by omega
      subst this
      exact absurd hvq (hOldNe q hq)
    · subst hQ
      have hvq2 : gridGet (gridSet s.solution nr nc (mc : Int)) nr nc = (i : Int) := hvq
      rw [hself] at hvq2
      rw [hP] at hvp
      have : i = mc := by omega
      subst this
      exact absurd hvp (hOldNe p hp)
    · rw [hP] at hvp
      rw [hQ] at hvq
      rcases Nat.lt_or_ge i mc with hilt | hige
      · exact hInv.uniq i hilt p q hp hq hvp hvq
      · have : i = mc := by omega
        subst this
        exact absurd hvp (hOldNe p hp)
  · -- exist
    intro i hi
    simp only [markState_solution]
    rcases Nat.lt_or_ge i mc with hilt | hige
    · obtain ⟨p, hp, hv⟩ := hInv.exist i hilt
      have hpne : p ≠ (nr, nc) := by
        intro h
        subst h
        have hv2 : gridGet s.solution nr nc = (i : Int) := hv
        rw [hempty] at hv2
        omega
      exact ⟨p, hp, by rw [hNewOld p hp hpne]; exact hv⟩
    · have : i = mc := by omega
      subst this
      exact ⟨(nr, nc), hinB, hself⟩
  · -- chain
    intro i hi p q hp hq hvp hvq
    simp only [markState_solution] at hvp hvq
    rcases hdich p hp with hP | ⟨hPne, hP⟩
    · subst hP
      have hvp2 : gridGet (gridSet s.solution nr nc (mc : Int)) nr nc = (i : Int) := hvp
      rw [hself] at hvp2
      have : i = mc := by omega
      omega
    · rw [hP] at hvp
      rcases hdich q hq with hQ | ⟨hQne, hQ⟩
      · subst hQ
        have hvq2 : gridGet (gridSet s.solution nr nc (mc : Int)) nr nc
            = ((i + 1 : Nat) : Int) := hvq
        rw [hself] at hvq2
        have hieq : mc = i + 1 := by omega
        have hpcur : p = (row, col) := by
          apply hInv.uniq i (by omega) p (row, col) hp hInv.cur_inB hvp
          have h2 : ((mc - 1 : Nat) : Int) = (i : Int) := by omega
          rw [← h2]
          exact hInv.cur_val
        rw [hpcur]
        exact hoff
      · rw [hQ] at hvq
        rcases Nat.lt_or_ge (i + 1) mc with hlt2 | hge2
        · exact hInv.chain i hlt2 p q hp hq hvp hvq
        · have hvq2 : gridGet s.solution q.1 q.2 = (mc : Int) := by
            rw [hvq]
            omega
          exact absurd hvq2 (hOldNe q hq)
  · -- cur_val
    show gridGet (gridSet s.solution nr nc (mc : Int)) nr nc = ((mc + 1 - 1 : Nat) : Int)
    rw [hself]
    omega
  · -- visits_iff
    intro p
    simp only [markState_solution, markState_visits]
    rw [List.mem_insert_iff]
    constructor
    · rintro (rfl | hp)
      · refine ⟨hinB, ?_⟩
        show gridGet (gridSet s.solution nr nc (mc : Int)) nr nc ≠ -1
        rw [hself]
        omega
      · obtain ⟨hpB, holdne⟩ := (hInv.visits_iff p).1 hp
        have hpne : p ≠ (nr, nc) := by
          intro h
          subst h
          exact holdne hempty
        exact ⟨hpB, by rw [hNewOld p hpB hpne]; exact holdne⟩
    · rintro ⟨hpB, hnewne⟩
      rcases hdich p hpB with h | ⟨hpne, heq⟩
      · exact Or.inl h
      · rw [heq] at hnewne
        exact Or.inr ((hInv.visits_iff p).2 ⟨hpB, hnewne⟩)
  · -- count
    show markedCount n (gridSet s.solution nr nc (mc : Int)) = mc + 1
    rw [markedCount_gridSet n s.solution nr nc (mc : Int) hshape hinB hempty (by omega)]
    rw [hInv.count]

/-! ### The main induction: backtracking restores the state, success yields a tour -/

/-- What the induction establishes about the engine at any `GInv` state: a
failure returns the `solution` grid and `visits` set exactly as they were
(the knight's position is *not* part of this), and a success returns a state
satisfying the invariant at move count `n*n`. -/
def EngineOk (n : Nat) (F : Int → Int → Nat → SearchState → Option (Bool × SearchState)) : Prop :=
  ∀ (row col : Int) (mc : Nat) (s : SearchState), GInv n mc row col s →
    (∀ s', F row col mc s = some (false, s') →
      s'.solution = s.solution ∧ s'.visits = s.visits) ∧
    (∀ s', F row col mc s = some (true, s') → ∃ r c, GInv n (n * n) r c s')

theorem tryMoves_ok (n : Nat)
    (F : Int → Int → Nat → SearchState → Option (Bool × SearchState)) (hF : EngineOk n F) :
    ∀ (offs : List (Int × Int)), (∀ d ∈ offs, d ∈ offsets) →
    ∀ (row col : Int) (mc : Nat) (s : SearchState), GInv n mc row col s → mc < n * n →
      (∀ s', tryMoves n F row col mc offs s = some (false, s') →
        s'.solution = s.solution ∧ s'.visits = s.visits) ∧
      (∀ s', tryMoves n F row col mc offs s = some (true, s') → ∃ r c, GInv n (n * n) r c s')
  | [], _, row, col, mc, s, _, _ => by
    constructor
    · intro s' h
      rw [tm_nil n F row col mc s] at h
      simp only [Option.some.injEq, Prod.mk.injEq, true_and] at h
      rw [← h]
      exact ⟨rfl, rfl⟩
    · intro s' h
      rw [tm_nil n F row col mc s] at h
      simp at h
  | (dr, dc) :: rest, hsub, row, col, mc, s, hInv, hlt => by
    have hsubrest : ∀ d ∈ rest, d ∈ offsets :=
      fun d hd => hsub d (List.mem_cons_of_mem _ hd)
    by_cases hv : isValid n s.solution (row + dr) (col + dc) = true
    · obtain ⟨hinB, hempty⟩ := (isValid_iff n s.solution (row + dr) (col + dc)).1 hv
      have hoff : ((row + dr) - row, (col + dc) - col) ∈ offsets := by
        simpa using hsub (dr, dc) (List.mem_cons_self _ _)
      have hInv2 : GInv n (mc + 1) (row + dr) (col + dc) (markState s (row + dr) (col + dc) mc) :=
        markGInv n mc row col (row + dr) (col + dc) s hInv hoff hlt hv
      cases hrec : F (row + dr) (col + dc) (mc + 1) (markState s (row + dr) (col + dc) mc) with
      | none =>
        rw [tm_out n F row col dr dc (row + dr) (col + dc) mc rest s
          (markState s (row + dr) (col + dc) mc) rfl rfl hv rfl hrec]
        constructor <;> intro s' h <;> simp at h
      | some bs =>
        obtain ⟨b, s2⟩ := bs
        cases b with
        | true =>
          rw [tm_win n F row col dr dc (row + dr) (col + dc) mc rest s
            (markState s (row + dr) (col + dc) mc) s2 rfl rfl hv rfl hrec]
          constructor
          · intro s' h
            simp at h
          · intro s' h
            simp only [Option.some.injEq, Prod.mk.injEq, true_and] at h
            rw [← h]
            exact (hF (row + dr) (col + dc) (mc + 1) (markState s (row + dr) (col + dc) mc)
              hInv2).2 s2 hrec
        | false =>
          have hrest := (hF (row + dr) (col + dc) (mc + 1) (markState s (row + dr) (col + dc) mc)
            hInv2).1 s2 hrec
          have hsol2 : (unmarkState s2 (row + dr) (col + dc)).solution = s.solution := by
            rw [unmarkState_solution, hrest.1, markState_solution]
            exact gridSet_unmark_mark n s.solution (row + dr) (col + dc) (mc : Int)
              hInv.shape hinB hempty
          have hvis2 : (unmarkState s2 (row + dr) (col + dc)).visits = s.visits := by
            rw [unmarkState_visits, hrest.2, markState_visits]
            have hnotmem : ((row + dr), (col + dc)) ∉ s.visits := by
              intro hmem
              obtain ⟨_, hne'⟩ := (hInv.visits_iff ((row + dr), (col + dc))).1 hmem
              exact hne' hempty
            rw [List.insert_of_not_mem hnotmem, List.erase_cons_head]
          have hInv3 : GInv n mc row col (unmarkState s2 (row + dr) (col + dc)) :=
            GInv_transport n mc row col s (unmarkState s2 (row + dr) (col + dc)) hInv hsol2 hvis2
          rw [tm_fail n F row col dr dc (row + dr) (col + dc) mc rest s
            (markState s (row + dr) (col + dc) mc) s2 (unmarkState s2 (row + dr) (col + dc))
            rfl rfl hv rfl hrec rfl]
          have IH := tryMoves_ok n F hF rest hsubrest row col mc
            (unmarkState s2 (row + dr) (col + dc)) hInv3 hlt
          constructor
          · intro s' h
            obtain ⟨ha, hb⟩ := IH.1 s' h
            exact ⟨ha.trans hsol2, hb.trans hvis2⟩
          · exact IH.2
    · have hv' : isValid n s.solution (row + dr) (col + dc) = false := by
        simpa using hv
      rw [tm_skip n F row col dr dc (row + dr) (col + dc) mc rest s rfl rfl hv']
      exact tryMoves_ok n F hF rest hsubrest row col mc s hInv hlt

/-- The engine satisfies `EngineOk` at every fuel level. -/
theorem solve_ok (n : Nat) : ∀ fuel, EngineOk n (solveKnightTour n fuel)
  | 0 => by
    intro row col mc s _
    constructor <;> intro s' h <;> exact absurd h (by simp [solveKnightTour])
  | fuel + 1 => by
    intro row col mc s hInv
    by_cases hmc : mc = n * n
    · constructor
      · intro s' h
        rw [solve_done n fuel row col mc s hmc] at h
        simp at h
      · intro s' h
        rw [solve_done n fuel row col mc s hmc] at h
        simp only [Option.some.injEq, Prod.mk.injEq, true_and] at h
        rw [← h]
        exact ⟨row, col, hmc ▸ hInv⟩
    · have hlt : mc < n * n := Nat.lt_of_le_of_ne hInv.mc_ub hmc
      have h1 := tryMoves_ok n (solveKnightTour n fuel) (solve_ok n fuel) offsets
        (fun d hd => hd) row col mc s hInv hlt
      constructor
      · intro s' h
        rw [solve_succ n fuel row col mc s hmc] at h
        exact h1.1 s' h
      · intro s' h
        rw [solve_succ n fuel row col mc s hmc] at h
        exact h1.2 s' h

/-- On failure the engine hands back the `solution` grid and the `visits` set
exactly as they were (`knightPos` is deliberately not mentioned: the source
never restores it). -/
theorem solve_restore (n fuel : Nat) (row col : Int) (mc : Nat) (s s' : SearchState)
    (hInv : GInv n mc row col s)
    (h : solveKnightTour n fuel row col mc s = some (false, s')) :
    s'.solution = s.solution ∧ s'.visits = s.visits :=
  (solve_ok n fuel row col mc s hInv).1 s' h

/-- On success the final state satisfies the invariant at move count `n*n`. -/
theorem solve_final (n fuel : Nat) (row col : Int) (mc : Nat) (s s' : SearchState)
    (hInv : GInv n mc row col s)
    (h : solveKnightTour n fuel row col mc s = some (true, s')) :
    ∃ r c, GInv n (n * n) r c s' :=
  (solve_ok n fuel row col mc s hInv).2 s' h

/-! ### Termination: the recursion depth is bounded, so the fuel never runs out -/

theorem solveFuel_aux (n : Nat) :
    ∀ fuel (row col : Int) (mc : Nat) (s : SearchState), mc ≤ n * n →
      n * n + 1 - mc ≤ fuel → solveKnightTour n fuel row col mc s ≠ none
  | 0, _, _, mc, _, hmc, hf => absurd hf (by omega)
  | fuel + 1, row, col, mc, s, hmc, hf => by
    by_cases hmceq : mc = n * n
    · rw [solve_done n fuel row col mc s hmceq]
      simp
    · rw [solve_succ n fuel row col mc s hmceq]
      have hlt : mc < n * n := Nat.lt_of_le_of_ne hmc hmceq
      have inner : ∀ (offs : List (Int × Int)) (s0 : SearchState),
          tryMoves n (solveKnightTour n fuel) row col mc offs s0 ≠ none := by
        intro offs
        induction offs with
        | nil =>
          intro s0
          rw [tm_nil]
          simp
        | cons d rest IH =>
          intro s0
          obtain ⟨dr, dc⟩ := d
          by_cases hv : isValid n s0.solution (row + dr) (col + dc) = true
          · cases hrec : solveKnightTour n fuel (row + dr) (col + dc) (mc + 1)
              (markState s0 (row + dr) (col + dc) mc) with
            | none =>
              exact absurd hrec (solveFuel_aux n fuel (row + dr) (col + dc) (mc + 1)
                (markState s0 (row + dr) (col + dc) mc) (by omega) (by omega))
            | some bs =>
              obtain ⟨b, s2⟩ := bs
              cases b with
              | false =>
                rw [tm_fail n (solveKnightTour n fuel) row col dr dc (row + dr) (col + dc) mc
                  rest s0 (markState s0 (row + dr) (col + dc) mc) s2
                  (unmarkState s2 (row + dr) (col + dc)) rfl rfl hv rfl hrec rfl]
                exact IH (unmarkState s2 (row + dr) (col + dc))
              | true =>
                rw [tm_win n (solveKnightTour n fuel) row col dr dc (row + dr) (col + dc) mc
                  rest s0 (markState s0 (row + dr) (col + dc) mc) s2 rfl rfl hv rfl hrec]
                simp
          · have hv' : isValid n s0.solution (row + dr) (col + dc) = false := by
              simpa using hv
            rw [tm_skip n (solveKnightTour n fuel) row col dr dc (row + dr) (col + dc) mc
              rest s0 rfl rfl hv']
            exact IH s0
      exact inner offsets s

/-- With `move_count ≤ n*n` and fuel at least `n*n + 1 - move_count`, the
engine always returns an answer: the recursion terminates. -/
theorem solveFuelSufficient (n fuel : Nat) (row col : Int) (mc : Nat) (s : SearchState)
    (hmc : mc ≤ n * n) (hf : n * n + 1 - mc ≤ fuel) :
    (solveKnightTour n fuel row col mc s).isSome = true :=
  Option.ne_none_iff_isSome.1 (solveFuel_aux n fuel row col mc s hmc hf)

/-! ### The recorded tour of a successful final state -/

theorem sqAt_spec (n : Nat) (g : List (List Int)) (i : Nat)
    (hex : ∃ p, inB n p ∧ gridGet g p.1 p.2 = (i : Int)) :
    inB n (sqAt n g i) ∧ gridGet g (sqAt n g i).1 (sqAt n g i).2 = (i : Int) := by
  obtain ⟨p, hp, hv⟩ := hex
  have hsome : (((allSquares n).find? fun p => gridGet g p.1 p.2 == (i : Int))).isSome := by
    apply List.find?_isSome.2
    exact ⟨p, (mem_allSquares n p).2 hp, by simpa using hv⟩
  obtain ⟨q, hq⟩ := Option.isSome_iff_exists.1 hsome
  have hmem := List.mem_of_find?_eq_some hq
  have hpred := List.find?_some hq
  have hqv : gridGet g q.1 q.2 = (i : Int) := by simpa using hpred
  have : sqAt n g i = q := by
    unfold sqAt
    rw [hq]
    rfl
  rw [this]
  exact ⟨(mem_allSquares n q).1 hmem, hqv⟩

theorem length_tourPath (n : Nat) (g : List (List Int)) :
    (tourPath n g).length = n * n := by
  unfold tourPath
  rw [List.length_map, List.length_range]

theorem tourPath_getD (n : Nat) (g : List (List Int)) (i : Nat) (d : Int × Int)
    (hi : i < n * n) : (tourPath n g).getD i d = sqAt n g i := by
  unfold tourPath
  have hlen : i < ((List.range (n * n)).map (sqAt n g)).length := by
    rw [List.length_map, List.length_range]
    exact hi
  rw [List.getD_eq_getElem?_getD, List.getElem?_eq_getElem hlen]
  simp

/-- In a final state (`GInv` at move count `n*n`), `sqAt` is the unique square
holding index `i`. -/
theorem sqAt_final (n : Nat) (s' : SearchState) (r c : Int) (hfin : GInv n (n * n) r c s')
    (i : Nat) (hi : i < n * n) :
    inB n (sqAt n s'.solution i) ∧
    gridGet s'.solution (sqAt n s'.solution i).1 (sqAt n s'.solution i).2 = (i : Int) ∧
    ∀ q, inB n q → gridGet s'.solution q.1 q.2 = (i : Int) → q = sqAt n s'.solution i := by
  have hex := hfin.exist i hi
  obtain ⟨hB, hv⟩ := sqAt_spec n s'.solution i hex
  exact ⟨hB, hv, fun q hq hqv => hfin.uniq i hi q (sqAt n s'.solution i) hq hB hqv hv⟩

/-- In a final state every board square is marked. -/
theorem final_all_marked (n : Nat) (s' : SearchState) (r c : Int)
    (hfin : GInv n (n * n) r c s') :
    ∀ p, inB n p → ∃ i : Nat, i < n * n ∧ gridGet s'.solution p.1 p.2 = (i : Int) := by
  intro p hp
  have hne := all_marked_of_count n s'.solution hfin.count p ((mem_allSquares n p).2 hp)
  rcases hfin.vals p hp with h | h
  · exact absurd h hne
  · exact h

/-- The recorded tour of a final state is a permutation of the whole board. -/
theorem tourPath_perm (n : Nat) (s' : SearchState) (r c : Int)
    (hfin : GInv n (n * n) r c s') :
    List.Perm (tourPath n s'.solution) (allSquares n) := by
  have hnd1 : (tourPath n s'.solution).Nodup := by
    unfold tourPath
    refine List.Nodup.map_on ?_ (List.nodup_range (n * n))
    intro i hi j hj hij
    rw [List.mem_range] at hi hj
    have h1 := (sqAt_final n s' r c hfin i hi).2.1
    have h2 := (sqAt_final n s' r c hfin j hj).2.1
    rw [hij] at h1
    rw [h1] at h2
    omega
  have hmem : ∀ p, p ∈ tourPath n s'.solution ↔ p ∈ allSquares n := by
    intro p
    constructor
    · intro hp
      obtain ⟨i, hi, rfl⟩ := List.mem_map.1 hp
      rw [List.mem_range] at hi
      exact (mem_allSquares n _).2 (sqAt_final n s' r c hfin i hi).1
    · intro hp
      have hpB := (mem_allSquares n p).1 hp
      obtain ⟨i, hi, hv⟩ := final_all_marked n s' r c hfin p hpB
      have := (sqAt_final n s' r c hfin i hi).2.2 p hpB hv
      exact List.mem_map.2 ⟨i, List.mem_range.2 hi, this.symm⟩
  exact (List.perm_ext_iff_of_nodup hnd1 (nodup_allSquares n)).2 hmem

/-! ### The order in which the engine attempts candidates -/

/-- Reference loop over an explicit candidate list: attempt each candidate in
list order (mark, recurse, unmark on failure), exactly as the engine's offset
loop does, but with the candidates precomputed. -/
def tryCandidates (n : Nat) (F : Int → Int → Nat → SearchState → Option (Bool × SearchState))
    (mc : Nat) : List (Int × Int) → SearchState → Option (Bool × SearchState)
  | [], s => some (false, s)
  | c :: rest, s =>
    match F c.1 c.2 (mc + 1) (markState s c.1 c.2 mc) with
    | none => none
    | some (true, s') => some (true, s')
    | some (false, s') => tryCandidates n F mc rest (unmarkState s' c.1 c.2)

theorem tc_nil (n : Nat) (F : Int → Int → Nat → SearchState → Option (Bool × SearchState))
    (mc : Nat) (s : SearchState) : tryCandidates n F mc [] s = some (false, s) := rfl

theorem tc_out (n : Nat) (F : Int → Int → Nat → SearchState → Option (Bool × SearchState))
    (mc : Nat) (c : Int × Int) (rest : List (Int × Int)) (s sm : SearchState)
    (hm : markState s c.1 c.2 mc = sm) (h2 : F c.1 c.2 (mc + 1) sm = none) :
    tryCandidates n F mc (c :: rest) s = none := by
  subst hm
  simp [tryCandidates, h2]

theorem tc_win (n : Nat) (F : Int → Int → Nat → SearchState → Option (Bool × SearchState))
    (mc : Nat) (c : Int × Int) (rest : List (Int × Int)) (s sm s2 : SearchState)
    (hm : markState s c.1 c.2 mc = sm) (h2 : F c.1 c.2 (mc + 1) sm = some (true, s2)) :
    tryCandidates n F mc (c :: rest) s = some (true, s2) := by
  subst hm
  simp [tryCandidates, h2]

theorem tc_fail (n : Nat) (F : Int → Int → Nat → SearchState → Option (Bool × SearchState))
    (mc : Nat) (c : Int × Int) (rest : List (Int × Int)) (s sm s2 : SearchState)
    (hm : markState s c.1 c.2 mc = sm) (h2 : F c.1 c.2 (mc + 1) sm = some (false, s2)) :
    tryCandidates n F mc (c :: rest) s = tryCandidates n F mc rest (unmarkState s2 c.1 c.2) := by
  subst hm
  simp [tryCandidates, h2]

theorem tryMoves_eq_tryCandidates (n : Nat)
    (F : Int → Int → Nat → SearchState → Option (Bool × SearchState)) (hF : EngineOk n F) :
    ∀ (offs : List (Int × Int)), (∀ d ∈ offs, d ∈ offsets) →
    ∀ (row col : Int) (mc : Nat) (s : SearchState), GInv n mc row col s → mc < n * n →
      tryMoves n F row col mc offs s
        = tryCandidates n F mc
            ((offs.map fun d => (row + d.1, col + d.2)).filter
              fun p => isValid n s.solution p.1 p.2) s
  | [], _, row, col, mc, s, _, _ => rfl
  | (dr, dc) :: rest, hsub, row, col, mc, s, hInv, hlt => by
    have hsubrest : ∀ d ∈ rest, d ∈ offsets :=
      fun d hd => hsub d (List.mem_cons_of_mem _ hd)
    simp only [List.map_cons, List.filter_cons]
    by_cases hv : isValid n s.solution (row + dr) (col + dc) = true
    · obtain ⟨hinB, hempty⟩ := (isValid_iff n s.solution (row + dr) (col + dc)).1 hv
      have hoff : ((row + dr) - row, (col + dc) - col) ∈ offsets := by
        simpa using hsub (dr, dc) (List.mem_cons_self _ _)
      have hInv2 : GInv n (mc + 1) (row + dr) (col + dc) (markState s (row + dr) (col + dc) mc) :=
        markGInv n mc row col (row + dr) (col + dc) s hInv hoff hlt hv
      rw [if_pos (by simpa using hv)]
      cases hrec : F (row + dr) (col + dc) (mc + 1) (markState s (row + dr) (col + dc) mc) with
      | none =>
        rw [tm_out n F row col dr dc (row + dr) (col + dc) mc rest s
          (markState s (row + dr) (col + dc) mc) rfl rfl hv rfl hrec]
        exact (tc_out n F mc ((row + dr), (col + dc)) _ s
          (markState s (row + dr) (col + dc) mc) rfl hrec).symm
      | some bs =>
        obtain ⟨b, s2⟩ := bs
        cases b with
        | true =>
          rw [tm_win n F row col dr dc (row + dr) (col + dc) mc rest s
            (markState s (row + dr) (col + dc) mc) s2 rfl rfl hv rfl hrec]
          exact (tc_win n F mc ((row + dr), (col + dc)) _ s
            (markState s (row + dr) (col + dc) mc) s2 rfl hrec).symm
        | false =>
          have hrest := (hF (row + dr) (col + dc) (mc + 1)
            (markState s (row + dr) (col + dc) mc) hInv2).1 s2 hrec
          have hsol2 : (unmarkState s2 (row + dr) (col + dc)).solution = s.solution := by
            rw [unmarkState_solution, hrest.1, markState_solution]
            exact gridSet_unmark_mark n s.solution (row + dr) (col + dc) (mc : Int)
              hInv.shape hinB hempty
          have hvis2 : (unmarkState s2 (row + dr) (col + dc)).visits = s.visits := by
            rw [unmarkState_visits, hrest.2, markState_visits]
            have hnotmem : ((row + dr), (col + dc)) ∉ s.visits := by
              intro hmem
              obtain ⟨_, hne'⟩ := (hInv.visits_iff ((row + dr), (col + dc))).1 hmem
              exact hne' hempty
            rw [List.insert_of_not_mem hnotmem, List.erase_cons_head]
          have hInv3 : GInv n mc row col (unmarkState s2 (row + dr) (col + dc)) :=
            GInv_transport n mc row col s (unmarkState s2 (row + dr) (col + dc)) hInv hsol2 hvis2
          rw [tm_fail n F row col dr dc (row + dr) (col + dc) mc rest s
            (markState s (row + dr) (col + dc) mc) s2 (unmarkState s2 (row + dr) (col + dc))
            rfl rfl hv rfl hrec rfl]
          have IH := tryMoves_eq_tryCandidates n F hF rest hsubrest row col mc
            (unmarkState s2 (row + dr) (col + dc)) hInv3 hlt
          rw [IH, hsol2]
          exact (tc_fail n F mc ((row + dr), (col + dc)) _ s
            (markState s (row + dr) (col + dc) mc) s2 rfl hrec).symm
    · rw [if_neg (by simpa using hv)]
      rw [tm_skip n F row col dr dc (row + dr) (col + dc) mc rest s rfl rfl (by simpa using hv)]
      exact tryMoves_eq_tryCandidates n F hF rest hsubrest row col mc s hInv hlt

/-- The engine processes exactly the in-bounds unvisited candidates, in the
fixed offset order, oblivious to any degree ranking. -/
theorem engine_candidate_order (n fuel : Nat) (row col : Int) (mc : Nat) (s : SearchState)
    (hInv : GInv n mc row col s) (hlt : mc < n * n) :
    solveKnightTour n (fuel + 1) row col mc s
      = tryCandidates n (solveKnightTour n fuel) mc
          (candidateList n s.solution row col) s := by
  rw [solve_succ n fuel row col mc s (by omega)]
  exact tryMoves_eq_tryCandidates n (solveKnightTour n fuel) (solve_ok n fuel) offsets
    (fun d hd => hd) row col mc s hInv hlt

/-! ### States the search can reach -/

/-- The states `_solve_knight_tour` can be in: the initial board, plus any
state obtained by marking a valid candidate one knight offset away from the
current square while the tour is incomplete.  (States reached after an unmark
coincide with earlier reached states by `solve_restore`.) -/
inductive Reach (n : Nat) : SearchState → Nat → Int → Int → Prop where
  | init (hn : 1 ≤ n) : Reach n (initState n) 1 0 0
  | mark (s : SearchState) (mc : Nat) (row col dr dc : Int)
      (hre : Reach n s mc row col) (hoff : (dr, dc) ∈ offsets) (hmc : mc < n * n)
      (hv : isValid n s.solution (row + dr) (col + dc) = true) :
      Reach n (markState s (row + dr) (col + dc) mc) (mc + 1) (row + dr) (col + dc)

/-- Every reachable search state satisfies the invariant. -/
theorem reach_inv (n : Nat) (s : SearchState) (mc : Nat) (row col : Int)
    (h : Reach n s mc row col) : GInv n mc row col s := by
  induction h with
  | init hn => exact initInv n hn
  | mark s mc row col dr dc _ hoff hmc hv IH =>
    exact markGInv n mc row col (row + dr) (col + dc) s IH (by simpa using hoff) hmc hv

/-! ### The call boundary -/

/-- No execution path of `Board.__init__`/`Board.solve` produces the spec's
`InvalidArgument`: the only outcomes are `ok` and (for n < 1) `indexError`. -/
theorem callSolve_no_invalidArgument (n : Nat) (start : Int × Int) :
    callSolve n start ≠ some CallResult.invalidArgument := by
  unfold callSolve mkBoard
  by_cases h : 1 ≤ n
  · rw [if_pos h]
    cases solveKnightTour n (n * n + 1) 0 0 1 (initState n) with
    | none => simp
    | some r => simp
  · rw [if_neg h]
    simp

/-- `Board.__init__` ignores the knight's prior position: it overwrites it
with `(0, 0)`, so the observable behavior cannot depend on `start`. -/
theorem callSolve_start_irrelevant (n : Nat) (start start' : Int × Int) :
    callSolve n start = callSolve n start' := rfl

/-! ### The concrete n = 5 run, replayed bottom-up

The search tree of `runSolve 5` (8840 engine calls) is evaluated in bounded
chunks: each `run5_node_*` lemma states the exact result of one engine call of
the actual run on its entry state; large subtrees are proved by kernel
evaluation, and the remaining calls are stitched together with the small-step
lemmas above.  Numbering is pre-order: `run5_node_001` is the root call. -/

theorem run5_node_010 :
    solveKnightTour 5 17 0 3 10 (⟨[[0, 5, -1, 9, -1], [-1, -1, -1, 4, -1], [-1, 1, 6, -1, 8], [-1, -1, -1, -1, 3], [-1, -1, 2, 7, -1]], [(0, 3), (2, 4), (4, 3), (2, 2), (0, 1), (1, 3), (3, 4), (4, 2), (2, 1), (0, 0)], (0, 3)⟩ : SearchState) = some (false, (⟨[[0, 5, -1, 9, -1], [-1, -1, -1, 4, -1], [-1, 1, 6, -1, 8], [-1, -1, -1, -1, 3], [-1, -1, 2, 7, -1]], [(0, 3), (2, 4), (4, 3), (2, 2), (0, 1), (1, 3), (3, 4), (4, 2), (2, 1), (0, 0)], (3, 0)⟩ : SearchState)) := by decide!

theorem run5_node_011 :
    solveKnightTour 5 17 1 2 10 (⟨[[0, 5, -1, -1, -1], [-1, -1, 9, 4, -1], [-1, 1, 6, -1, 8], [-1, -1, -1, -1, 3], [-1, -1, 2, 7, -1]], [(1, 2), (2, 4), (4, 3), (2, 2), (0, 1), (1, 3), (3, 4), (4, 2), (2, 1), (0, 0)], (1, 2)⟩ : SearchState) = some (false, (⟨[[0, 5, -1, -1, -1], [-1, -1, 9, 4, -1], [-1, 1, 6, -1, 8], [-1, -1, -1, -1, 3], [-1, -1, 2, 7, -1]], [(1, 2), (2, 4), (4, 3), (2, 2), (0, 1), (1, 3), (3, 4), (4, 2), (2, 1), (0, 0)], (4, 0)⟩ : SearchState)) := by decide!

theorem run5_node_012 :
    solveKnightTour 5 17 3 2 10 (⟨[[0, 5, -1, -1, -1], [-1, -1, -1, 4, -1], [-1, 1, 6, -1, 8], [-1, -1, 9, -1, 3], [-1, -1, 2, 7, -1]], [(3, 2), (2, 4), (4, 3), (2, 2), (0, 1), (1, 3), (3, 4), (4, 2), (2, 1), (0, 0)], (3, 2)⟩ : SearchState) = some (false, (⟨[[0, 5, -1, -1, -1], [-1, -1, -1, 4, -1], [-1, 1, 6, -1, 8], [-1, -1, 9, -1, 3], [-1, -1, 2, 7, -1]], [(3, 2), (2, 4), (4, 3), (2, 2), (0, 1), (1, 3), (3, 4), (4, 2), (2, 1), (0, 0)], (4, 0)⟩ : SearchState)) := by decide!

theorem run5_node_009 :
    solveKnightTour 5 18 2 4 9 (⟨[[0, 5, -1, -1, -1], [-1, -1, -1, 4, -1], [-1, 1, 6, -1, 8], [-1, -1, -1, -1, 3], [-1, -1, 2, 7, -1]], [(2, 4), (4, 3), (2, 2), (0, 1), (1, 3), (3, 4), (4, 2), (2, 1), (0, 0)], (2, 4)⟩ : SearchState) = some (false, (⟨[[0, 5, -1, -1, -1], [-1, -1, -1, 4, -1], [-1, 1, 6, -1, 8], [-1, -1, -1, -1, 3], [-1, -1, 2, 7, -1]], [(2, 4), (4, 3), (2, 2), (0, 1), (1, 3), (3, 4), (4, 2), (2, 1), (0, 0)], (4, 0)⟩ : SearchState)) :=
((((((((((solve_succ 5 17 2 4 9 (⟨[[0, 5, -1, -1, -1], [-1, -1, -1, 4, -1], [-1, 1, 6, -1, 8], [-1, -1, -1, -1, 3], [-1, -1, 2, 7, -1]], [(2, 4), (4, 3), (2, 2), (0, 1), (1, 3), (3, 4), (4, 2), (2, 1), (0, 0)], (2, 4)⟩ : SearchState) (by decide)).trans
(tm_skip 5 (solveKnightTour 5 17) 2 4 2 1 4 5 9 [(1, 2), (-1, 2), (-2, 1), (-2, -1), (-1, -2), (1, -2), (2, -1)]
  (⟨[[0, 5, -1, -1, -1], [-1, -1, -1, 4, -1], [-1, 1, 6, -1, 8], [-1, -1, -1, -1, 3], [-1, -1, 2, 7, -1]], [(2, 4), (4, 3), (2, 2), (0, 1), (1, 3), (3, 4), (4, 2), (2, 1), (0, 0)], (2, 4)⟩ : SearchState) (by decide) (by decide) (by decide))).trans
(tm_skip 5 (solveKnightTour 5 17) 2 4 1 2 3 6 9 [(-1, 2), (-2, 1), (-2, -1), (-1, -2), (1, -2), (2, -1)]
  (⟨[[0, 5, -1, -1, -1], [-1, -1, -1, 4, -1], [-1, 1, 6, -1, 8], [-1, -1, -1, -1, 3], [-1, -1, 2, 7, -1]], [(2, 4), (4, 3), (2, 2), (0, 1), (1, 3), (3, 4), (4, 2), (2, 1), (0, 0)], (2, 4)⟩ : SearchState) (by decide) (by decide) (by decide))).trans
(tm_skip 5 (solveKnightTour 5 17) 2 4 (-1) 2 1 6 9 [(-2, 1), (-2, -1), (-1, -2), (1, -2), (2, -1)]
  (⟨[[0, 5, -1, -1, -1], [-1, -1, -1, 4, -1], [-1, 1, 6, -1, 8], [-1, -1, -1, -1, 3], [-1, -1, 2, 7, -1]], [(2, 4), (4, 3), (2, 2), (0, 1), (1, 3), (3, 4), (4, 2), (2, 1), (0, 0)], (2, 4)⟩ : SearchState) (by decide) (by decide) (by decide))).trans
(tm_skip 5 (solveKnightTour 5 17) 2 4 (-2) 1 0 5 9 [(-2, -1), (-1, -2), (1, -2), (2, -1)]
  (⟨[[0, 5, -1, -1, -1], [-1, -1, -1, 4, -1], [-1, 1, 6, -1, 8], [-1, -1, -1, -1, 3], [-1, -1, 2, 7, -1]], [(2, 4), (4, 3), (2, 2), (0, 1), (1, 3), (3, 4), (4, 2), (2, 1), (0, 0)], (2, 4)⟩ : SearchState) (by decide) (by decide) (by decide))).trans
(tm_fail 5 (solveKnightTour 5 17) 2 4 (-2) (-1) 0 3 9 [(-1, -2), (1, -2), (2, -1)]
  (⟨[[0, 5, -1, -1, -1], [-1, -1, -1, 4, -1], [-1, 1, 6, -1, 8], [-1, -1, -1, -1, 3], [-1, -1, 2, 7, -1]], [(2, 4), (4, 3), (2, 2), (0, 1), (1, 3), (3, 4), (4, 2), (2, 1), (0, 0)], (2, 4)⟩ : SearchState) (⟨[[0, 5, -1, 9, -1], [-1, -1, -1, 4, -1], [-1, 1, 6, -1, 8], [-1, -1, -1, -1, 3], [-1, -1, 2, 7, -1]], [(0, 3), (2, 4), (4, 3), (2, 2), (0, 1), (1, 3), (3, 4), (4, 2), (2, 1), (0, 0)], (0, 3)⟩ : SearchState) (⟨[[0, 5, -1, 9, -1], [-1, -1, -1, 4, -1], [-1, 1, 6, -1, 8], [-1, -1, -1, -1, 3], [-1, -1, 2, 7, -1]], [(0, 3), (2, 4), (4, 3), (2, 2), (0, 1), (1, 3), (3, 4), (4, 2), (2, 1), (0, 0)], (3, 0)⟩ : SearchState) (⟨[[0, 5, -1, -1, -1], [-1, -1, -1, 4, -1], [-1, 1, 6, -1, 8], [-1, -1, -1, -1, 3], [-1, -1, 2, 7, -1]], [(2, 4), (4, 3), (2, 2), (0, 1), (1, 3), (3, 4), (4, 2), (2, 1), (0, 0)], (3, 0)⟩ : SearchState)
  (by decide) (by decide) (by decide) (by decide) run5_node_010 (by decide))).trans
(tm_fail 5 (solveKnightTour 5 17) 2 4 (-1) (-2) 1 2 9 [(1, -2), (2, -1)]
  (⟨[[0, 5, -1, -1, -1], [-1, -1, -1, 4, -1], [-1, 1, 6, -1, 8], [-1, -1, -1, -1, 3], [-1, -1, 2, 7, -1]], [(2, 4), (4, 3), (2, 2), (0, 1), (1, 3), (3, 4), (4, 2), (2, 1), (0, 0)], (3, 0)⟩ : SearchState) (⟨[[0, 5, -1, -1, -1], [-1, -1, 9, 4, -1], [-1, 1, 6, -1, 8], [-1, -1, -1, -1, 3], [-1, -1, 2, 7, -1]], [(1, 2), (2, 4), (4, 3), (2, 2), (0, 1), (1, 3), (3, 4), (4, 2), (2, 1), (0, 0)], (1, 2)⟩ : SearchState) (⟨[[0, 5, -1, -1, -1], [-1, -1, 9, 4, -1], [-1, 1, 6, -1, 8], [-1, -1, -1, -1, 3], [-1, -1, 2, 7, -1]], [(1, 2), (2, 4), (4, 3), (2, 2), (0, 1), (1, 3), (3, 4), (4, 2), (2, 1), (0, 0)], (4, 0)⟩ : SearchState) (⟨[[0, 5, -1, -1, -1], [-1, -1, -1, 4, -1], [-1, 1, 6, -1, 8], [-1, -1, -1, -1, 3], [-1, -1, 2, 7, -1]], [(2, 4), (4, 3), (2, 2), (0, 1), (1, 3), (3, 4), (4, 2), (2, 1), (0, 0)], (4, 0)⟩ : SearchState)
  (by decide) (by decide) (by decide) (by decide) run5_node_011 (by decide))).trans
(tm_fail 5 (solveKnightTour 5 17) 2 4 1 (-2) 3 2 9 [(2, -1)]
  (⟨[[0, 5, -1, -1, -1], [-1, -1, -1, 4, -1], [-1, 1, 6, -1, 8], [-1, -1, -1, -1, 3], [-1, -1, 2, 7, -1]], [(2, 4), (4, 3), (2, 2), (0, 1), (1, 3), (3, 4), (4, 2), (2, 1), (0, 0)], (4, 0)⟩ : SearchState) (⟨[[0, 5, -1, -1, -1], [-1, -1, -1, 4, -1], [-1, 1, 6, -1, 8], [-1, -1, 9, -1, 3], [-1, -1, 2, 7, -1]], [(3, 2), (2, 4), (4, 3), (2, 2), (0, 1), (1, 3), (3, 4), (4, 2), (2, 1), (0, 0)], (3, 2)⟩ : SearchState) (⟨[[0, 5, -1, -1, -1], [-1, -1, -1, 4, -1], [-1, 1, 6, -1, 8], [-1, -1, 9, -1, 3], [-1, -1, 2, 7, -1]], [(3, 2), (2, 4), (4, 3), (2, 2), (0, 1), (1, 3), (3, 4), (4, 2), (2, 1), (0, 0)], (4, 0)⟩ : SearchState) (⟨[[0, 5, -1, -1, -1], [-1, -1, -1, 4, -1], [-1, 1, 6, -1, 8], [-1, -1, -1, -1, 3], [-1, -1, 2, 7, -1]], [(2, 4), (4, 3), (2, 2), (0, 1), (1, 3), (3, 4), (4, 2), (2, 1), (0, 0)], (4, 0)⟩ : SearchState)
  (by decide) (by decide) (by decide) (by decide) run5_node_012 (by decide))).trans
(tm_skip 5 (solveKnightTour 5 17) 2 4 2 (-1) 4 3 9 []
  (⟨[[0, 5, -1, -1, -1], [-1, -1, -1, 4, -1], [-1, 1, 6, -1, 8], [-1, -1, -1, -1, 3], [-1, -1, 2, 7, -1]], [(2, 4), (4, 3), (2, 2), (0, 1), (1, 3), (3, 4), (4, 2), (2, 1), (0, 0)], (4, 0)⟩ : SearchState) (by decide) (by decide) (by decide))).trans
(tm_nil 5 (solveKnightTour 5 17) 2 4 9 (⟨[[0, 5, -1, -1, -1], [-1, -1, -1, 4, -1], [-1, 1, 6, -1, 8], [-1, -1, -1, -1, 3], [-1, -1, 2, 7, -1]], [(2, 4), (4, 3), (2, 2), (0, 1), (1, 3), (3, 4), (4, 2), (2, 1), (0, 0)], (4, 0)⟩ : SearchState)))

theorem run5_node_014 :
    solveKnightTour 5 17 2 3 10 (⟨[[0, 5, -1, -1, -1], [-1, -1, -1, 4, -1], [-1, 1, 6, 9, -1], [-1, 8, -1, -1, 3], [-1, -1, 2, 7, -1]], [(2, 3), (3, 1), (4, 3), (2, 2), (0, 1), (1, 3), (3, 4), (4, 2), (2, 1), (0, 0)], (2, 3)⟩ : SearchState) = some (false, (⟨[[0, 5, -1, -1, -1], [-1, -1, -1, 4, -1], [-1, 1, 6, 9, -1], [-1, 8, -1, -1, 3], [-1, -1, 2, 7, -1]], [(2, 3), (3, 1), (4, 3), (2, 2), (0, 1), (1, 3), (3, 4), (4, 2), (2, 1), (0, 0)], (3, 0)⟩ : SearchState)) := by decide!

theorem run5_node_015 :
    solveKnightTour 5 17 1 2 10 (⟨[[0, 5, -1, -1, -1], [-1, -1, 9, 4, -1], [-1, 1, 6, -1, -1], [-1, 8, -1, -1, 3], [-1, -1, 2, 7, -1]], [(1, 2), (3, 1), (4, 3), (2, 2), (0, 1), (1, 3), (3, 4), (4, 2), (2, 1), (0, 0)], (1, 2)⟩ : SearchState) = some (false, (⟨[[0, 5, -1, -1, -1], [-1, -1, 9, 4, -1], [-1, 1, 6, -1, -1], [-1, 8, -1, -1, 3], [-1, -1, 2, 7, -1]], [(1, 2), (3, 1), (4, 3), (2, 2), (0, 1), (1, 3), (3, 4), (4, 2), (2, 1), (0, 0)], (4, 0)⟩ : SearchState)) := by decide!

theorem run5_node_016 :
    solveKnightTour 5 17 1 0 10 (⟨[[0, 5, -1, -1, -1], [9, -1, -1, 4, -1], [-1, 1, 6, -1, -1], [-1, 8, -1, -1, 3], [-1, -1, 2, 7, -1]], [(1, 0), (3, 1), (4, 3), (2, 2), (0, 1), (1, 3), (3, 4), (4, 2), (2, 1), (0, 0)], (1, 0)⟩ : SearchState) = some (false, (⟨[[0, 5, -1, -1, -1], [9, -1, -1, 4, -1], [-1, 1, 6, -1, -1], [-1, 8, -1, -1, 3], [-1, -1, 2, 7, -1]], [(1, 0), (3, 1), (4, 3), (2, 2), (0, 1), (1, 3), (3, 4), (4, 2), (2, 1), (0, 0)], (3, 0)⟩ : SearchState)) := by decide!

theorem run5_node_013 :
    solveKnightTour 5 18 3 1 9 (⟨[[0, 5, -1, -1, -1], [-1, -1, -1, 4, -1], [-1, 1, 6, -1, -1], [-1, 8, -1, -1, 3], [-1, -1, 2, 7, -1]], [(3, 1), (4, 3), (2, 2), (0, 1), (1, 3), (3, 4), (4, 2), (2, 1), (0, 0)], (3, 1)⟩ : SearchState) = some (false, (⟨[[0, 5, -1, -1, -1], [-1, -1, -1, 4, -1], [-1, 1, 6, -1, -1], [-1, 8, -1, -1, 3], [-1, -1, 2, 7, -1]], [(3, 1), (4, 3), (2, 2), (0, 1), (1, 3), (3, 4), (4, 2), (2, 1), (0, 0)], (3, 0)⟩ : SearchState)) :=
((((((((((solve_succ 5 17 3 1 9 (⟨[[0, 5, -1, -1, -1], [-1, -1, -1, 4, -1], [-1, 1, 6, -1, -1], [-1, 8, -1, -1, 3], [-1, -1, 2, 7, -1]], [(3, 1), (4, 3), (2, 2), (0, 1), (1, 3), (3, 4), (4, 2), (2, 1), (0, 0)], (3, 1)⟩ : SearchState) (by decide)).trans
(tm_skip 5 (solveKnightTour 5 17) 3 1 2 1 5 2 9 [(1, 2), (-1, 2), (-2, 1), (-2, -1), (-1, -2), (1, -2), (2, -1)]
  (⟨[[0, 5, -1, -1, -1], [-1, -1, -1, 4, -1], [-1, 1, 6, -1, -1], [-1, 8, -1, -1, 3], [-1, -1, 2, 7, -1]], [(3, 1), (4, 3), (2, 2), (0, 1), (1, 3), (3, 4), (4, 2), (2, 1), (0, 0)], (3, 1)⟩ : SearchState) (by decide) (by decide) (by decide))).trans
(tm_skip 5 (solveKnightTour 5 17) 3 1 1 2 4 3 9 [(-1, 2), (-2, 1), (-2, -1), (-1, -2), (1, -2), (2, -1)]
  (⟨[[0, 5, -1, -1, -1], [-1, -1, -1, 4, -1], [-1, 1, 6, -1, -1], [-1, 8, -1, -1, 3], [-1, -1, 2, 7, -1]], [(3, 1), (4, 3), (2, 2), (0, 1), (1, 3), (3, 4), (4, 2), (2, 1), (0, 0)], (3, 1)⟩ : SearchState) (by decide) (by decide) (by decide))).trans
(tm_fail 5 (solveKnightTour 5 17) 3 1 (-1) 2 2 3 9 [(-2, 1), (-2, -1), (-1, -2), (1, -2), (2, -1)]
  (⟨[[0, 5, -1, -1, -1], [-1, -1, -1, 4, -1], [-1, 1, 6, -1, -1], [-1, 8, -1, -1, 3], [-1, -1, 2, 7, -1]], [(3, 1), (4, 3), (2, 2), (0, 1), (1, 3), (3, 4), (4, 2), (2, 1), (0, 0)], (3, 1)⟩ : SearchState) (⟨[[0, 5, -1, -1, -1], [-1, -1, -1, 4, -1], [-1, 1, 6, 9, -1], [-1, 8, -1, -1, 3], [-1, -1, 2, 7, -1]], [(2, 3), (3, 1), (4, 3), (2, 2), (0, 1), (1, 3), (3, 4), (4, 2), (2, 1), (0, 0)], (2, 3)⟩ : SearchState) (⟨[[0, 5, -1, -1, -1], [-1, -1, -1, 4, -1], [-1, 1, 6, 9, -1], [-1, 8, -1, -1, 3], [-1, -1, 2, 7, -1]], [(2, 3), (3, 1), (4, 3), (2, 2), (0, 1), (1, 3), (3, 4), (4, 2), (2, 1), (0, 0)], (3, 0)⟩ : SearchState) (⟨[[0, 5, -1, -1, -1], [-1, -1, -1, 4, -1], [-1, 1, 6, -1, -1], [-1, 8, -1, -1, 3], [-1, -1, 2, 7, -1]], [(3, 1), (4, 3), (2, 2), (0, 1), (1, 3), (3, 4), (4, 2), (2, 1), (0, 0)], (3, 0)⟩ : SearchState)
  (by decide) (by decide) (by decide) (by decide) run5_node_014 (by decide))).trans
(tm_fail 5 (solveKnightTour 5 17) 3 1 (-2) 1 1 2 9 [(-2, -1), (-1, -2), (1, -2), (2, -1)]
  (⟨[[0, 5, -1, -1, -1], [-1, -1, -1, 4, -1], [-1, 1, 6, -1, -1], [-1, 8, -1, -1, 3], [-1, -1, 2, 7, -1]], [(3, 1), (4, 3), (2, 2), (0, 1), (1, 3), (3, 4), (4, 2), (2, 1), (0, 0)], (3, 0)⟩ : SearchState) (⟨[[0, 5, -1, -1, -1], [-1, -1, 9, 4, -1], [-1, 1, 6, -1, -1], [-1, 8, -1, -1, 3], [-1, -1, 2, 7, -1]], [(1, 2), (3, 1), (4, 3), (2, 2), (0, 1), (1, 3), (3, 4), (4, 2), (2, 1), (0, 0)], (1, 2)⟩ : SearchState) (⟨[[0, 5, -1, -1, -1], [-1, -1, 9, 4, -1], [-1, 1, 6, -1, -1], [-1, 8, -1, -1, 3], [-1, -1, 2, 7, -1]], [(1, 2), (3, 1), (4, 3), (2, 2), (0, 1), (1, 3), (3, 4), (4, 2), (2, 1), (0, 0)], (4, 0)⟩ : SearchState) (⟨[[0, 5, -1, -1, -1], [-1, -1, -1, 4, -1], [-1, 1, 6, -1, -1], [-1, 8, -1, -1, 3], [-1, -1, 2, 7, -1]], [(3, 1), (4, 3), (2, 2), (0, 1), (1, 3), (3, 4), (4, 2), (2, 1), (0, 0)], (4, 0)⟩ : SearchState)
  (by decide) (by decide) (by decide) (by decide) run5_node_015 (by decide))).trans
(tm_fail 5 (solveKnightTour 5 17) 3 1 (-2) (-1) 1 0 9 [(-1, -2), (1, -2), (2, -1)]
  (⟨[[0, 5, -1, -1, -1], [-1, -1, -1, 4, -1], [-1, 1, 6, -1, -1], [-1, 8, -1, -1, 3], [-1, -1, 2, 7, -1]], [(3, 1), (4, 3), (2, 2), (0, 1), (1, 3), (3, 4), (4, 2), (2, 1), (0, 0)], (4, 0)⟩ : SearchState) (⟨[[0, 5, -1, -1, -1], [9, -1, -1, 4, -1], [-1, 1, 6, -1, -1], [-1, 8, -1, -1, 3], [-1, -1, 2, 7, -1]], [(1, 0), (3, 1), (4, 3), (2, 2), (0, 1), (1, 3), (3, 4), (4, 2), (2, 1), (0, 0)], (1, 0)⟩ : SearchState) (⟨[[0, 5, -1, -1, -1], [9, -1, -1, 4, -1], [-1, 1, 6, -1, -1], [-1, 8, -1, -1, 3], [-1, -1, 2, 7, -1]], [(1, 0), (3, 1), (4, 3), (2, 2), (0, 1), (1, 3), (3, 4), (4, 2), (2, 1), (0, 0)], (3, 0)⟩ : SearchState) (⟨[[0, 5, -1, -1, -1], [-1, -1, -1, 4, -1], [-1, 1, 6, -1, -1], [-1, 8, -1, -1, 3], [-1, -1, 2, 7, -1]], [(3, 1), (4, 3), (2, 2), (0, 1), (1, 3), (3, 4), (4, 2), (2, 1), (0, 0)], (3, 0)⟩ : SearchState)
  (by decide) (by decide) (by decide) (by decide) run5_node_016 (by decide))).trans
(tm_skip 5 (solveKnightTour 5 17) 3 1 (-1) (-2) 2 (-1) 9 [(1, -2), (2, -1)]
  (⟨[[0, 5, -1, -1, -1], [-1, -1, -1, 4, -1], [-1, 1, 6, -1, -1], [-1, 8, -1, -1, 3], [-1, -1, 2, 7, -1]], [(3, 1), (4, 3), (2, 2), (0, 1), (1, 3), (3, 4), (4, 2), (2, 1), (0, 0)], (3, 0)⟩ : SearchState) (by decide) (by decide) (by decide))).trans
(tm_skip 5 (solveKnightTour 5 17) 3 1 1 (-2) 4 (-1) 9 [(2, -1)]
  (⟨[[0, 5, -1, -1, -1], [-1, -1, -1, 4, -1], [-1, 1, 6, -1, -1], [-1, 8, -1, -1, 3], [-1, -1, 2, 7, -1]], [(3, 1), (4, 3), (2, 2), (0, 1), (1, 3), (3, 4), (4, 2), (2, 1), (0, 0)], (3, 0)⟩ : SearchState) (by decide) (by decide) (by decide))).trans
(tm_skip 5 (solveKnightTour 5 17) 3 1 2 (-1) 5 0 9 []
  (⟨[[0, 5, -1, -1, -1], [-1, -1, -1, 4, -1], [-1, 1, 6, -1, -1], [-1, 8, -1, -1, 3], [-1, -1, 2, 7, -1]], [(3, 1), (4, 3), (2, 2), (0, 1), (1, 3), (3, 4), (4, 2), (2, 1), (0, 0)], (3, 0)⟩ : SearchState) (by decide) (by decide) (by decide))).trans
(tm_nil 5 (solveKnightTour 5 17) 3 1 9 (⟨[[0, 5, -1, -1, -1], [-1, -1, -1, 4, -1], [-1, 1, 6, -1, -1], [-1, 8, -1, -1, 3], [-1, -1, 2, 7, -1]], [(3, 1), (4, 3), (2, 2), (0, 1), (1, 3), (3, 4), (4, 2), (2, 1), (0, 0)], (3, 0)⟩ : SearchState)))

theorem run5_node_008 :
    solveKnightTour 5 19 4 3 8 (⟨[[0, 5, -1, -1, -1], [-1, -1, -1, 4, -1], [-1, 1, 6, -1, -1], [-1, -1, -1, -1, 3], [-1, -1, 2, 7, -1]], [(4, 3), (2, 2), (0, 1), (1, 3), (3, 4), (4, 2), (2, 1), (0, 0)], (4, 3)⟩ : SearchState) = some (false, (⟨[[0, 5, -1, -1, -1], [-1, -1, -1, 4, -1], [-1, 1, 6, -1, -1], [-1, -1, -1, -1, 3], [-1, -1, 2, 7, -1]], [(4, 3), (2, 2), (0, 1), (1, 3), (3, 4), (4, 2), (2, 1), (0, 0)], (3, 0)⟩ : SearchState)) :=
((((((((((solve_succ 5 18 4 3 8 (⟨[[0, 5, -1, -1, -1], [-1, -1, -1, 4, -1], [-1, 1, 6, -1, -1], [-1, -1, -1, -1, 3], [-1, -1, 2, 7, -1]], [(4, 3), (2, 2), (0, 1), (1, 3), (3, 4), (4, 2), (2, 1), (0, 0)], (4, 3)⟩ : SearchState) (by decide)).trans
(tm_skip 5 (solveKnightTour 5 18) 4 3 2 1 6 4 8 [(1, 2), (-1, 2), (-2, 1), (-2, -1), (-1, -2), (1, -2), (2, -1)]
  (⟨[[0, 5, -1, -1, -1], [-1, -1, -1, 4, -1], [-1, 1, 6, -1, -1], [-1, -1, -1, -1, 3], [-1, -1, 2, 7, -1]], [(4, 3), (2, 2), (0, 1), (1, 3), (3, 4), (4, 2), (2, 1), (0, 0)], (4, 3)⟩ : SearchState) (by decide) (by decide) (by decide))).trans
(tm_skip 5 (solveKnightTour 5 18) 4 3 1 2 5 5 8 [(-1, 2), (-2, 1), (-2, -1), (-1, -2), (1, -2), (2, -1)]
  (⟨[[0, 5, -1, -1, -1], [-1, -1, -1, 4, -1], [-1, 1, 6, -1, -1], [-1, -1, -1, -1, 3], [-1, -1, 2, 7, -1]], [(4, 3), (2, 2), (0, 1), (1, 3), (3, 4), (4, 2), (2, 1), (0, 0)], (4, 3)⟩ : SearchState) (by decide) (by decide) (by decide))).trans
(tm_skip 5 (solveKnightTour 5 18) 4 3 (-1) 2 3 5 8 [(-2, 1), (-2, -1), (-1, -2), (1, -2), (2, -1)]
  (⟨[[0, 5, -1, -1, -1], [-1, -1, -1, 4, -1], [-1, 1, 6, -1, -1], [-1, -1, -1, -1, 3], [-1, -1, 2, 7, -1]], [(4, 3), (2, 2), (0, 1), (1, 3), (3, 4), (4, 2), (2, 1), (0, 0)], (4, 3)⟩ : SearchState) (by decide) (by decide) (by decide))).trans
(tm_fail 5 (solveKnightTour 5 18) 4 3 (-2) 1 2 4 8 [(-2, -1), (-1, -2), (1, -2), (2, -1)]
  (⟨[[0, 5, -1, -1, -1], [-1, -1, -1, 4, -1], [-1, 1, 6, -1, -1], [-1, -1, -1, -1, 3], [-1, -1, 2, 7, -1]], [(4, 3), (2, 2), (0, 1), (1, 3), (3, 4), (4, 2), (2, 1), (0, 0)], (4, 3)⟩ : SearchState) (⟨[[0, 5, -1, -1, -1], [-1, -1, -1, 4, -1], [-1, 1, 6, -1, 8], [-1, -1, -1, -1, 3], [-1, -1, 2, 7, -1]], [(2, 4), (4, 3), (2, 2), (0, 1), (1, 3), (3, 4), (4, 2), (2, 1), (0, 0)], (2, 4)⟩ : SearchState) (⟨[[0, 5, -1, -1, -1], [-1, -1, -1, 4, -1], [-1, 1, 6, -1, 8], [-1, -1, -1, -1, 3], [-1, -1, 2, 7, -1]], [(2, 4), (4, 3), (2, 2), (0, 1), (1, 3), (3, 4), (4, 2), (2, 1), (0, 0)], (4, 0)⟩ : SearchState) (⟨[[0, 5, -1, -1, -1], [-1, -1, -1, 4, -1], [-1, 1, 6, -1, -1], [-1, -1, -1, -1, 3], [-1, -1, 2, 7, -1]], [(4, 3), (2, 2), (0, 1), (1, 3), (3, 4), (4, 2), (2, 1), (0, 0)], (4, 0)⟩ : SearchState)
  (by decide) (by decide) (by decide) (by decide) run5_node_009 (by decide))).trans
(tm_skip 5 (solveKnightTour 5 18) 4 3 (-2) (-1) 2 2 8 [(-1, -2), (1, -2), (2, -1)]
  (⟨[[0, 5, -1, -1, -1], [-1, -1, -1, 4, -1], [-1, 1, 6, -1, -1], [-1, -1, -1, -1, 3], [-1, -1, 2, 7, -1]], [(4, 3), (2, 2), (0, 1), (1, 3), (3, 4), (4, 2), (2, 1), (0, 0)], (4, 0)⟩ : SearchState) (by decide) (by decide) (by decide))).trans
(tm_fail 5 (solveKnightTour 5 18) 4 3 (-1) (-2) 3 1 8 [(1, -2), (2, -1)]
  (⟨[[0, 5, -1, -1, -1], [-1, -1, -1, 4, -1], [-1, 1, 6, -1, -1], [-1, -1, -1, -1, 3], [-1, -1, 2, 7, -1]], [(4, 3), (2, 2), (0, 1), (1, 3), (3, 4), (4, 2), (2, 1), (0, 0)], (4, 0)⟩ : SearchState) (⟨[[0, 5, -1, -1, -1], [-1, -1, -1, 4, -1], [-1, 1, 6, -1, -1], [-1, 8, -1, -1, 3], [-1, -1, 2, 7, -1]], [(3, 1), (4, 3), (2, 2), (0, 1), (1, 3), (3, 4), (4, 2), (2, 1), (0, 0)], (3, 1)⟩ : SearchState) (⟨[[0, 5, -1, -1, -1], [-1, -1, -1, 4, -1], [-1, 1, 6, -1, -1], [-1, 8, -1, -1, 3], [-1, -1, 2, 7, -1]], [(3, 1), (4, 3), (2, 2), (0, 1), (1, 3), (3, 4), (4, 2), (2, 1), (0, 0)], (3, 0)⟩ : SearchState) (⟨[[0, 5, -1, -1, -1], [-1, -1, -1, 4, -1], [-1, 1, 6, -1, -1], [-1, -1, -1, -1, 3], [-1, -1, 2, 7, -1]], [(4, 3), (2, 2), (0, 1), (1, 3), (3, 4), (4, 2), (2, 1), (0, 0)], (3, 0)⟩ : SearchState)
  (by decide) (by decide) (by decide) (by decide) run5_node_013 (by decide))).trans
(tm_skip 5 (solveKnightTour 5 18) 4 3 1 (-2) 5 1 8 [(2, -1)]
  (⟨[[0, 5, -1, -1, -1], [-1, -1, -1, 4, -1], [-1, 1, 6, -1, -1], [-1, -1, -1, -1, 3], [-1, -1, 2, 7, -1]], [(4, 3), (2, 2), (0, 1), (1, 3), (3, 4), (4, 2), (2, 1), (0, 0)], (3, 0)⟩ : SearchState) (by decide) (by decide) (by decide))).trans
(tm_skip 5 (solveKnightTour 5 18) 4 3 2 (-1) 6 2 8 []
  (⟨[[0, 5, -1, -1, -1], [-1, -1, -1, 4, -1], [-1, 1, 6, -1, -1], [-1, -1, -1, -1, 3], [-1, -1, 2, 7, -1]], [(4, 3), (2, 2), (0, 1), (1, 3), (3, 4), (4, 2), (2, 1), (0, 0)], (3, 0)⟩ : SearchState) (by decide) (by decide) (by decide))).trans
(tm_nil 5 (solveKnightTour 5 18) 4 3 8 (⟨[[0, 5, -1, -1, -1], [-1, -1, -1, 4, -1], [-1, 1, 6, -1, -1], [-1, -1, -1, -1, 3], [-1, -1, 2, 7, -1]], [(4, 3), (2, 2), (0, 1), (1, 3), (3, 4), (4, 2), (2, 1), (0, 0)], (3, 0)⟩ : SearchState)))

theorem run5_node_018 :
    solveKnightTour 5 18 0 2 9 (⟨[[0, 5, 8, -1, -1], [-1, -1, -1, 4, 7], [-1, 1, 6, -1, -1], [-1, -1, -1, -1, 3], [-1, -1, 2, -1, -1]], [(0, 2), (1, 4), (2, 2), (0, 1), (1, 3), (3, 4), (4, 2), (2, 1), (0, 0)], (0, 2)⟩ : SearchState) = some (false, (⟨[[0, 5, 8, -1, -1], [-1, -1, -1, 4, 7], [-1, 1, 6, -1, -1], [-1, -1, -1, -1, 3], [-1, -1, 2, -1, -1]], [(0, 2), (1, 4), (2, 2), (0, 1), (1, 3), (3, 4), (4, 2), (2, 1), (0, 0)], (4, 0)⟩ : SearchState)) := by decide!

theorem run5_node_020 :
    solveKnightTour 5 17 1 2 10 (⟨[[0, 5, -1, -1, -1], [-1, -1, 9, 4, 7], [-1, 1, 6, -1, -1], [-1, -1, -1, 8, 3], [-1, -1, 2, -1, -1]], [(1, 2), (3, 3), (1, 4), (2, 2), (0, 1), (1, 3), (3, 4), (4, 2), (2, 1), (0, 0)], (1, 2)⟩ : SearchState) = some (false, (⟨[[0, 5, -1, -1, -1], [-1, -1, 9, 4, 7], [-1, 1, 6, -1, -1], [-1, -1, -1, 8, 3], [-1, -1, 2, -1, -1]], [(1, 2), (3, 3), (1, 4), (2, 2), (0, 1), (1, 3), (3, 4), (4, 2), (2, 1), (0, 0)], (3, 0)⟩ : SearchState)) := by decide!

theorem run5_node_021 :
    solveKnightTour 5 17 4 1 10 (⟨[[0, 5, -1, -1, -1], [-1, -1, -1, 4, 7], [-1, 1, 6, -1, -1], [-1, -1, -1, 8, 3], [-1, 9, 2, -1, -1]], [(4, 1), (3, 3), (1, 4), (2, 2), (0, 1), (1, 3), (3, 4), (4, 2), (2, 1), (0, 0)], (4, 1)⟩ : SearchState) = some (false, (⟨[[0, 5, -1, -1, -1], [-1, -1, -1, 4, 7], [-1, 1, 6, -1, -1], [-1, -1, -1, 8, 3], [-1, 9, 2, -1, -1]], [(4, 1), (3, 3), (1, 4), (2, 2), (0, 1), (1, 3), (3, 4), (4, 2), (2, 1), (0, 0)], (3, 0)⟩ : SearchState)) := by decide!

theorem run5_node_019 :
    solveKnightTour 5 18 3 3 9 (⟨[[0, 5, -1, -1, -1], [-1, -1, -1, 4, 7], [-1, 1, 6, -1, -1], [-1, -1, -1, 8, 3], [-1, -1, 2, -1, -1]], [(3, 3), (1, 4), (2, 2), (0, 1), (1, 3), (3, 4), (4, 2), (2, 1), (0, 0)], (3, 3)⟩ : SearchState) = some (false, (⟨[[0, 5, -1, -1, -1], [-1, -1, -1, 4, 7], [-1, 1, 6, -1, -1], [-1, -1, -1, 8, 3], [-1, -1, 2, -1, -1]], [(3, 3), (1, 4), (2, 2), (0, 1), (1, 3), (3, 4), (4, 2), (2, 1), (0, 0)], (3, 0)⟩ : SearchState)) :=
((((((((((solve_succ 5 17 3 3 9 (⟨[[0, 5, -1, -1, -1], [-1, -1, -1, 4, 7], [-1, 1, 6, -1, -1], [-1, -1, -1, 8, 3], [-1, -1, 2, -1, -1]], [(3, 3), (1, 4), (2, 2), (0, 1), (1, 3), (3, 4), (4, 2), (2, 1), (0, 0)], (3, 3)⟩ : SearchState) (by decide)).trans
(tm_skip 5 (solveKnightTour 5 17) 3 3 2 1 5 4 9 [(1, 2), (-1, 2), (-2, 1), (-2, -1), (-1, -2), (1, -2), (2, -1)]
  (⟨[[0, 5, -1, -1, -1], [-1, -1, -1, 4, 7], [-1, 1, 6, -1, -1], [-1, -1, -1, 8, 3], [-1, -1, 2, -1, -1]], [(3, 3), (1, 4), (2, 2), (0, 1), (1, 3), (3, 4), (4, 2), (2, 1), (0, 0)], (3, 3)⟩ : SearchState) (by decide) (by decide) (by decide))).trans
(tm_skip 5 (solveKnightTour 5 17) 3 3 1 2 4 5 9 [(-1, 2), (-2, 1), (-2, -1), (-1, -2), (1, -2), (2, -1)]
  (⟨[[0, 5, -1, -1, -1], [-1, -1, -1, 4, 7], [-1, 1, 6, -1, -1], [-1, -1, -1, 8, 3], [-1, -1, 2, -1, -1]], [(3, 3), (1, 4), (2, 2), (0, 1), (1, 3), (3, 4), (4, 2), (2, 1), (0, 0)], (3, 3)⟩ : SearchState) (by decide) (by decide) (by decide))).trans
(tm_skip 5 (solveKnightTour 5 17) 3 3 (-1) 2 2 5 9 [(-2, 1), (-2, -1), (-1, -2), (1, -2), (2, -1)]
  (⟨[[0, 5, -1, -1, -1], [-1, -1, -1, 4, 7], [-1, 1, 6, -1, -1], [-1, -1, -1, 8, 3], [-1, -1, 2, -1, -1]], [(3, 3), (1, 4), (2, 2), (0, 1), (1, 3), (3, 4), (4, 2), (2, 1), (0, 0)], (3, 3)⟩ : SearchState) (by decide) (by decide) (by decide))).trans
(tm_skip 5 (solveKnightTour 5 17) 3 3 (-2) 1 1 4 9 [(-2, -1), (-1, -2), (1, -2), (2, -1)]
  (⟨[[0, 5, -1, -1, -1], [-1, -1, -1, 4, 7], [-1, 1, 6, -1, -1], [-1, -1, -1, 8, 3], [-1, -1, 2, -1, -1]], [(3, 3), (1, 4), (2, 2), (0, 1), (1, 3), (3, 4), (4, 2), (2, 1), (0, 0)], (3, 3)⟩ : SearchState) (by decide) (by decide) (by decide))).trans
(tm_fail 5 (solveKnightTour 5 17) 3 3 (-2) (-1) 1 2 9 [(-1, -2), (1, -2), (2, -1)]
  (⟨[[0, 5, -1, -1, -1], [-1, -1, -1, 4, 7], [-1, 1, 6, -1, -1], [-1, -1, -1, 8, 3], [-1, -1, 2, -1, -1]], [(3, 3), (1, 4), (2, 2), (0, 1), (1, 3), (3, 4), (4, 2), (2, 1), (0, 0)], (3, 3)⟩ : SearchState) (⟨[[0, 5, -1, -1, -1], [-1, -1, 9, 4, 7], [-1, 1, 6, -1, -1], [-1, -1, -1, 8, 3], [-1, -1, 2, -1, -1]], [(1, 2), (3, 3), (1, 4), (2, 2), (0, 1), (1, 3), (3, 4), (4, 2), (2, 1), (0, 0)], (1, 2)⟩ : SearchState) (⟨[[0, 5, -1, -1, -1], [-1, -1, 9, 4, 7], [-1, 1, 6, -1, -1], [-1, -1, -1, 8, 3], [-1, -1, 2, -1, -1]], [(1, 2), (3, 3), (1, 4), (2, 2), (0, 1), (1, 3), (3, 4), (4, 2), (2, 1), (0, 0)], (3, 0)⟩ : SearchState) (⟨[[0, 5, -1, -1, -1], [-1, -1, -1, 4, 7], [-1, 1, 6, -1, -1], [-1, -1, -1, 8, 3], [-1, -1, 2, -1, -1]], [(3, 3), (1, 4), (2, 2), (0, 1), (1, 3), (3, 4), (4, 2), (2, 1), (0, 0)], (3, 0)⟩ : SearchState)
  (by decide) (by decide) (by decide) (by decide) run5_node_020 (by decide))).trans
(tm_skip 5 (solveKnightTour 5 17) 3 3 (-1) (-2) 2 1 9 [(1, -2), (2, -1)]
  (⟨[[0, 5, -1, -1, -1], [-1, -1, -1, 4, 7], [-1, 1, 6, -1, -1], [-1, -1, -1, 8, 3], [-1, -1, 2, -1, -1]], [(3, 3), (1, 4), (2, 2), (0, 1), (1, 3), (3, 4), (4, 2), (2, 1), (0, 0)], (3, 0)⟩ : SearchState) (by decide) (by decide) (by decide))).trans
(tm_fail 5 (solveKnightTour 5 17) 3 3 1 (-2) 4 1 9 [(2, -1)]
  (⟨[[0, 5, -1, -1, -1], [-1, -1, -1, 4, 7], [-1, 1, 6, -1, -1], [-1, -1, -1, 8, 3], [-1, -1, 2, -1, -1]], [(3, 3), (1, 4), (2, 2), (0, 1), (1, 3), (3, 4), (4, 2), (2, 1), (0, 0)], (3, 0)⟩ : SearchState) (⟨[[0, 5, -1, -1, -1], [-1, -1, -1, 4, 7], [-1, 1, 6, -1, -1], [-1, -1, -1, 8, 3], [-1, 9, 2, -1, -1]], [(4, 1), (3, 3), (1, 4), (2, 2), (0, 1), (1, 3), (3, 4), (4, 2), (2, 1), (0, 0)], (4, 1)⟩ : SearchState) (⟨[[0, 5, -1, -1, -1], [-1, -1, -1, 4, 7], [-1, 1, 6, -1, -1], [-1, -1, -1, 8, 3], [-1, 9, 2, -1, -1]], [(4, 1), (3, 3), (1, 4), (2, 2), (0, 1), (1, 3), (3, 4), (4, 2), (2, 1), (0, 0)], (3, 0)⟩ : SearchState) (⟨[[0, 5, -1, -1, -1], [-1, -1, -1, 4, 7], [-1, 1, 6, -1, -1], [-1, -1, -1, 8, 3], [-1, -1, 2, -1, -1]], [(3, 3), (1, 4), (2, 2), (0, 1), (1, 3), (3, 4), (4, 2), (2, 1), (0, 0)], (3, 0)⟩ : SearchState)
  (by decide) (by decide) (by decide) (by decide) run5_node_021 (by decide))).trans
(tm_skip 5 (solveKnightTour 5 17) 3 3 2 (-1) 5 2 9 []
  (⟨[[0, 5, -1, -1, -1], [-1, -1, -1, 4, 7], [-1, 1, 6, -1, -1], [-1, -1, -1, 8, 3], [-1, -1, 2, -1, -1]], [(3, 3), (1, 4), (2, 2), (0, 1), (1, 3), (3, 4), (4, 2), (2, 1), (0, 0)], (3, 0)⟩ : SearchState) (by decide) (by decide) (by decide))).trans
(tm_nil 5 (solveKnightTour 5 17) 3 3 9 (⟨[[0, 5, -1, -1, -1], [-1, -1, -1, 4, 7], [-1, 1, 6, -1, -1], [-1, -1, -1, 8, 3], [-1, -1, 2, -1, -1]], [(3, 3), (1, 4), (2, 2), (0, 1), (1, 3), (3, 4), (4, 2), (2, 1), (0, 0)], (3, 0)⟩ : SearchState)))

theorem run5_node_017 :
    solveKnightTour 5 19 1 4 8 (⟨[[0, 5, -1, -1, -1], [-1, -1, -1, 4, 7], [-1, 1, 6, -1, -1], [-1, -1, -1, -1, 3], [-1, -1, 2, -1, -1]], [(1, 4), (2, 2), (0, 1), (1, 3), (3, 4), (4, 2), (2, 1), (0, 0)], (1, 4)⟩ : SearchState) = some (false, (⟨[[0, 5, -1, -1, -1], [-1, -1, -1, 4, 7], [-1, 1, 6, -1, -1], [-1, -1, -1, -1, 3], [-1, -1, 2, -1, -1]], [(1, 4), (2, 2), (0, 1), (1, 3), (3, 4), (4, 2), (2, 1), (0, 0)], (3, 0)⟩ : SearchState)) :=
((((((((((solve_succ 5 18 1 4 8 (⟨[[0, 5, -1, -1, -1], [-1, -1, -1, 4, 7], [-1, 1, 6, -1, -1], [-1, -1, -1, -1, 3], [-1, -1, 2, -1, -1]], [(1, 4), (2, 2), (0, 1), (1, 3), (3, 4), (4, 2), (2, 1), (0, 0)], (1, 4)⟩ : SearchState) (by decide)).trans
(tm_skip 5 (solveKnightTour 5 18) 1 4 2 1 3 5 8 [(1, 2), (-1, 2), (-2, 1), (-2, -1), (-1, -2), (1, -2), (2, -1)]
  (⟨[[0, 5, -1, -1, -1], [-1, -1, -1, 4, 7], [-1, 1, 6, -1, -1], [-1, -1, -1, -1, 3], [-1, -1, 2, -1, -1]], [(1, 4), (2, 2), (0, 1), (1, 3), (3, 4), (4, 2), (2, 1), (0, 0)], (1, 4)⟩ : SearchState) (by decide) (by decide) (by decide))).trans
(tm_skip 5 (solveKnightTour 5 18) 1 4 1 2 2 6 8 [(-1, 2), (-2, 1), (-2, -1), (-1, -2), (1, -2), (2, -1)]
  (⟨[[0, 5, -1, -1, -1], [-1, -1, -1, 4, 7], [-1, 1, 6, -1, -1], [-1, -1, -1, -1, 3], [-1, -1, 2, -1, -1]], [(1, 4), (2, 2), (0, 1), (1, 3), (3, 4), (4, 2), (2, 1), (0, 0)], (1, 4)⟩ : SearchState) (by decide) (by decide) (by decide))).trans
(tm_skip 5 (solveKnightTour 5 18) 1 4 (-1) 2 0 6 8 [(-2, 1), (-2, -1), (-1, -2), (1, -2), (2, -1)]
  (⟨[[0, 5, -1, -1, -1], [-1, -1, -1, 4, 7], [-1, 1, 6, -1, -1], [-1, -1, -1, -1, 3], [-1, -1, 2, -1, -1]], [(1, 4), (2, 2), (0, 1), (1, 3), (3, 4), (4, 2), (2, 1), (0, 0)], (1, 4)⟩ : SearchState) (by decide) (by decide) (by decide))).trans
(tm_skip 5 (solveKnightTour 5 18) 1 4 (-2) 1 (-1) 5 8 [(-2, -1), (-1, -2), (1, -2), (2, -1)]
  (⟨[[0, 5, -1, -1, -1], [-1, -1, -1, 4, 7], [-1, 1, 6, -1, -1], [-1, -1, -1, -1, 3], [-1, -1, 2, -1, -1]], [(1, 4), (2, 2), (0, 1), (1, 3), (3, 4), (4, 2), (2, 1), (0, 0)], (1, 4)⟩ : SearchState) (by decide) (by decide) (by decide))).trans
(tm_skip 5 (solveKnightTour 5 18) 1 4 (-2) (-1) (-1) 3 8 [(-1, -2), (1, -2), (2, -1)]
  (⟨[[0, 5, -1, -1, -1], [-1, -1, -1, 4, 7], [-1, 1, 6, -1, -1], [-1, -1, -1, -1, 3], [-1, -1, 2, -1, -1]], [(1, 4), (2, 2), (0, 1), (1, 3), (3, 4), (4, 2), (2, 1), (0, 0)], (1, 4)⟩ : SearchState) (by decide) (by decide) (by decide))).trans
(tm_fail 5 (solveKnightTour 5 18) 1 4 (-1) (-2) 0 2 8 [(1, -2), (2, -1)]
  (⟨[[0, 5, -1, -1, -1], [-1, -1, -1, 4, 7], [-1, 1, 6, -1, -1], [-1, -1, -1, -1, 3], [-1, -1, 2, -1, -1]], [(1, 4), (2, 2), (0, 1), (1, 3), (3, 4), (4, 2), (2, 1), (0, 0)], (1, 4)⟩ : SearchState) (⟨[[0, 5, 8, -1, -1], [-1, -1, -1, 4, 7], [-1, 1, 6, -1, -1], [-1, -1, -1, -1, 3], [-1, -1, 2, -1, -1]], [(0, 2), (1, 4), (2, 2), (0, 1), (1, 3), (3, 4), (4, 2), (2, 1), (0, 0)], (0, 2)⟩ : SearchState) (⟨[[0, 5, 8, -1, -1], [-1, -1, -1, 4, 7], [-1, 1, 6, -1, -1], [-1, -1, -1, -1, 3], [-1, -1, 2, -1, -1]], [(0, 2), (1, 4), (2, 2), (0, 1), (1, 3), (3, 4), (4, 2), (2, 1), (0, 0)], (4, 0)⟩ : SearchState) (⟨[[0, 5, -1, -1, -1], [-1, -1, -1, 4, 7], [-1, 1, 6, -1, -1], [-1, -1, -1, -1, 3], [-1, -1, 2, -1, -1]], [(1, 4), (2, 2), (0, 1), (1, 3), (3, 4), (4, 2), (2, 1), (0, 0)], (4, 0)⟩ : SearchState)
  (by decide) (by decide) (by decide) (by decide) run5_node_018 (by decide))).trans
(tm_skip 5 (solveKnightTour 5 18) 1 4 1 (-2) 2 2 8 [(2, -1)]
  (⟨[[0, 5, -1, -1, -1], [-1, -1, -1, 4, 7], [-1, 1, 6, -1, -1], [-1, -1, -1, -1, 3], [-1, -1, 2, -1, -1]], [(1, 4), (2, 2), (0, 1), (1, 3), (3, 4), (4, 2), (2, 1), (0, 0)], (4, 0)⟩ : SearchState) (by decide) (by decide) (by decide))).trans
(tm_fail 5 (solveKnightTour 5 18) 1 4 2 (-1) 3 3 8 []
  (⟨[[0, 5, -1, -1, -1], [-1, -1, -1, 4, 7], [-1, 1, 6, -1, -1], [-1, -1, -1, -1, 3], [-1, -1, 2, -1, -1]], [(1, 4), (2, 2), (0, 1), (1, 3), (3, 4), (4, 2), (2, 1), (0, 0)], (4, 0)⟩ : SearchState) (⟨[[0, 5, -1, -1, -1], [-1, -1, -1, 4, 7], [-1, 1, 6, -1, -1], [-1, -1, -1, 8, 3], [-1, -1, 2, -1, -1]], [(3, 3), (1, 4), (2, 2), (0, 1), (1, 3), (3, 4), (4, 2), (2, 1), (0, 0)], (3, 3)⟩ : SearchState) (⟨[[0, 5, -1, -1, -1], [-1, -1, -1, 4, 7], [-1, 1, 6, -1, -1], [-1, -1, -1, 8, 3], [-1, -1, 2, -1, -1]], [(3, 3), (1, 4), (2, 2), (0, 1), (1, 3), (3, 4), (4, 2), (2, 1), (0, 0)], (3, 0)⟩ : SearchState) (⟨[[0, 5, -1, -1, -1], [-1, -1, -1, 4, 7], [-1, 1, 6, -1, -1], [-1, -1, -1, -1, 3], [-1, -1, 2, -1, -1]], [(1, 4), (2, 2), (0, 1), (1, 3), (3, 4), (4, 2), (2, 1), (0, 0)], (3, 0)⟩ : SearchState)
  (by decide) (by decide) (by decide) (by decide) run5_node_019 (by decide))).trans
(tm_nil 5 (solveKnightTour 5 18) 1 4 8 (⟨[[0, 5, -1, -1, -1], [-1, -1, -1, 4, 7], [-1, 1, 6, -1, -1], [-1, -1, -1, -1, 3], [-1, -1, 2, -1, -1]], [(1, 4), (2, 2), (0, 1), (1, 3), (3, 4), (4, 2), (2, 1), (0, 0)], (3, 0)⟩ : SearchState)))

theorem run5_node_024 :
    solveKnightTour 5 17 1 2 10 (⟨[[0, 5, -1, 7, -1], [-1, -1, 9, 4, -1], [-1, 1, 6, -1, 8], [-1, -1, -1, -1, 3], [-1, -1, 2, -1, -1]], [(1, 2), (2, 4), (0, 3), (2, 2), (0, 1), (1, 3), (3, 4), (4, 2), (2, 1), (0, 0)], (1, 2)⟩ : SearchState) = some (false, (⟨[[0, 5, -1, 7, -1], [-1, -1, 9, 4, -1], [-1, 1, 6, -1, 8], [-1, -1, -1, -1, 3], [-1, -1, 2, -1, -1]], [(1, 2), (2, 4), (0, 3), (2, 2), (0, 1), (1, 3), (3, 4), (4, 2), (2, 1), (0, 0)], (4, 0)⟩ : SearchState)) := by decide!

theorem run5_node_025 :
    solveKnightTour 5 17 3 2 10 (⟨[[0, 5, -1, 7, -1], [-1, -1, -1, 4, -1], [-1, 1, 6, -1, 8], [-1, -1, 9, -1, 3], [-1, -1, 2, -1, -1]], [(3, 2), (2, 4), (0, 3), (2, 2), (0, 1), (1, 3), (3, 4), (4, 2), (2, 1), (0, 0)], (3, 2)⟩ : SearchState) = some (false, (⟨[[0, 5, -1, 7, -1], [-1, -1, -1, 4, -1], [-1, 1, 6, -1, 8], [-1, -1, 9, -1, 3], [-1, -1, 2, -1, -1]], [(3, 2), (2, 4), (0, 3), (2, 2), (0, 1), (1, 3), (3, 4), (4, 2), (2, 1), (0, 0)], (4, 0)⟩ : SearchState)) := by decide!

theorem run5_node_026 :
    solveKnightTour 5 17 4 3 10 (⟨[[0, 5, -1, 7, -1], [-1, -1, -1, 4, -1], [-1, 1, 6, -1, 8], [-1, -1, -1, -1, 3], [-1, -1, 2, 9, -1]], [(4, 3), (2, 4), (0, 3), (2, 2), (0, 1), (1, 3), (3, 4), (4, 2), (2, 1), (0, 0)], (4, 3)⟩ : SearchState) = some (false, (⟨[[0, 5, -1, 7, -1], [-1, -1, -1, 4, -1], [-1, 1, 6, -1, 8], [-1, -1, -1, -1, 3], [-1, -1, 2, 9, -1]], [(4, 3), (2, 4), (0, 3), (2, 2), (0, 1), (1, 3), (3, 4), (4, 2), (2, 1), (0, 0)], (3, 0)⟩ : SearchState)) := by decide!

theorem run5_node_023 :
    solveKnightTour 5 18 2 4 9 (⟨[[0, 5, -1, 7, -1], [-1, -1, -1, 4, -1], [-1, 1, 6, -1, 8], [-1, -1, -1, -1, 3], [-1, -1, 2, -1, -1]], [(2, 4), (0, 3), (2, 2), (0, 1), (1, 3), (3, 4), (4, 2), (2, 1), (0, 0)], (2, 4)⟩ : SearchState) = some (false, (⟨[[0, 5, -1, 7, -1], [-1, -1, -1, 4, -1], [-1, 1, 6, -1, 8], [-1, -1, -1, -1, 3], [-1, -1, 2, -1, -1]], [(2, 4), (0, 3), (2, 2), (0, 1), (1, 3), (3, 4), (4, 2), (2, 1), (0, 0)], (3, 0)⟩ : SearchState)) :=
((((((((((solve_succ 5 17 2 4 9 (⟨[[0, 5, -1, 7, -1], [-1, -1, -1, 4, -1], [-1, 1, 6, -1, 8], [-1, -1, -1, -1, 3], [-1, -1, 2, -1, -1]], [(2, 4), (0, 3), (2, 2), (0, 1), (1, 3), (3, 4), (4, 2), (2, 1), (0, 0)], (2, 4)⟩ : SearchState) (by decide)).trans
(tm_skip 5 (solveKnightTour 5 17) 2 4 2 1 4 5 9 [(1, 2), (-1, 2), (-2, 1), (-2, -1), (-1, -2), (1, -2), (2, -1)]
  (⟨[[0, 5, -1, 7, -1], [-1, -1, -1, 4, -1], [-1, 1, 6, -1, 8], [-1, -1, -1, -1, 3], [-1, -1, 2, -1, -1]], [(2, 4), (0, 3), (2, 2), (0, 1), (1, 3), (3, 4), (4, 2), (2, 1), (0, 0)], (2, 4)⟩ : SearchState) (by decide) (by decide) (by decide))).trans
(tm_skip 5 (solveKnightTour 5 17) 2 4 1 2 3 6 9 [(-1, 2), (-2, 1), (-2, -1), (-1, -2), (1, -2), (2, -1)]
  (⟨[[0, 5, -1, 7, -1], [-1, -1, -1, 4, -1], [-1, 1, 6, -1, 8], [-1, -1, -1, -1, 3], [-1, -1, 2, -1, -1]], [(2, 4), (0, 3), (2, 2), (0, 1), (1, 3), (3, 4), (4, 2), (2, 1), (0, 0)], (2, 4)⟩ : SearchState) (by decide) (by decide) (by decide))).trans
(tm_skip 5 (solveKnightTour 5 17) 2 4 (-1) 2 1 6 9 [(-2, 1), (-2, -1), (-1, -2), (1, -2), (2, -1)]
  (⟨[[0, 5, -1, 7, -1], [-1, -1, -1, 4, -1], [-1, 1, 6, -1, 8], [-1, -1, -1, -1, 3], [-1, -1, 2, -1, -1]], [(2, 4), (0, 3), (2, 2), (0, 1), (1, 3), (3, 4), (4, 2), (2, 1), (0, 0)], (2, 4)⟩ : SearchState) (by decide) (by decide) (by decide))).trans
(tm_skip 5 (solveKnightTour 5 17) 2 4 (-2) 1 0 5 9 [(-2, -1), (-1, -2), (1, -2), (2, -1)]
  (⟨[[0, 5, -1, 7, -1], [-1, -1, -1, 4, -1], [-1, 1, 6, -1, 8], [-1, -1, -1, -1, 3], [-1, -1, 2, -1, -1]], [(2, 4), (0, 3), (2, 2), (0, 1), (1, 3), (3, 4), (4, 2), (2, 1), (0, 0)], (2, 4)⟩ : SearchState) (by decide) (by decide) (by decide))).trans
(tm_skip 5 (solveKnightTour 5 17) 2 4 (-2) (-1) 0 3 9 [(-1, -2), (1, -2), (2, -1)]
  (⟨[[0, 5, -1, 7, -1], [-1, -1, -1, 4, -1], [-1, 1, 6, -1, 8], [-1, -1, -1, -1, 3], [-1, -1, 2, -1, -1]], [(2, 4), (0, 3), (2, 2), (0, 1), (1, 3), (3, 4), (4, 2), (2, 1), (0, 0)], (2, 4)⟩ : SearchState) (by decide) (by decide) (by decide))).trans
(tm_fail 5 (solveKnightTour 5 17) 2 4 (-1) (-2) 1 2 9 [(1, -2), (2, -1)]
  (⟨[[0, 5, -1, 7, -1], [-1, -1, -1, 4, -1], [-1, 1, 6, -1, 8], [-1, -1, -1, -1, 3], [-1, -1, 2, -1, -1]], [(2, 4), (0, 3), (2, 2), (0, 1), (1, 3), (3, 4), (4, 2), (2, 1), (0, 0)], (2, 4)⟩ : SearchState) (⟨[[0, 5, -1, 7, -1], [-1, -1, 9, 4, -1], [-1, 1, 6, -1, 8], [-1, -1, -1, -1, 3], [-1, -1, 2, -1, -1]], [(1, 2), (2, 4), (0, 3), (2, 2), (0, 1), (1, 3), (3, 4), (4, 2), (2, 1), (0, 0)], (1, 2)⟩ : SearchState) (⟨[[0, 5, -1, 7, -1], [-1, -1, 9, 4, -1], [-1, 1, 6, -1, 8], [-1, -1, -1, -1, 3], [-1, -1, 2, -1, -1]], [(1, 2), (2, 4), (0, 3), (2, 2), (0, 1), (1, 3), (3, 4), (4, 2), (2, 1), (0, 0)], (4, 0)⟩ : SearchState) (⟨[[0, 5, -1, 7, -1], [-1, -1, -1, 4, -1], [-1, 1, 6, -1, 8], [-1, -1, -1, -1, 3], [-1, -1, 2, -1, -1]], [(2, 4), (0, 3), (2, 2), (0, 1), (1, 3), (3, 4), (4, 2), (2, 1), (0, 0)], (4, 0)⟩ : SearchState)
  (by decide) (by decide) (by decide) (by decide) run5_node_024 (by decide))).trans
(tm_fail 5 (solveKnightTour 5 17) 2 4 1 (-2) 3 2 9 [(2, -1)]
  (⟨[[0, 5, -1, 7, -1], [-1, -1, -1, 4, -1], [-1, 1, 6, -1, 8], [-1, -1, -1, -1, 3], [-1, -1, 2, -1, -1]], [(2, 4), (0, 3), (2, 2), (0, 1), (1, 3), (3, 4), (4, 2), (2, 1), (0, 0)], (4, 0)⟩ : SearchState) (⟨[[0, 5, -1, 7, -1], [-1, -1, -1, 4, -1], [-1, 1, 6, -1, 8], [-1, -1, 9, -1, 3], [-1, -1, 2, -1, -1]], [(3, 2), (2, 4), (0, 3), (2, 2), (0, 1), (1, 3), (3, 4), (4, 2), (2, 1), (0, 0)], (3, 2)⟩ : SearchState) (⟨[[0, 5, -1, 7, -1], [-1, -1, -1, 4, -1], [-1, 1, 6, -1, 8], [-1, -1, 9, -1, 3], [-1, -1, 2, -1, -1]], [(3, 2), (2, 4), (0, 3), (2, 2), (0, 1), (1, 3), (3, 4), (4, 2), (2, 1), (0, 0)], (4, 0)⟩ : SearchState) (⟨[[0, 5, -1, 7, -1], [-1, -1, -1, 4, -1], [-1, 1, 6, -1, 8], [-1, -1, -1, -1, 3], [-1, -1, 2, -1, -1]], [(2, 4), (0, 3), (2, 2), (0, 1), (1, 3), (3, 4), (4, 2), (2, 1), (0, 0)], (4, 0)⟩ : SearchState)
  (by decide) (by decide) (by decide) (by decide) run5_node_025 (by decide))).trans
(tm_fail 5 (solveKnightTour 5 17) 2 4 2 (-1) 4 3 9 []
  (⟨[[0, 5, -1, 7, -1], [-1, -1, -1, 4, -1], [-1, 1, 6, -1, 8], [-1, -1, -1, -1, 3], [-1, -1, 2, -1, -1]], [(2, 4), (0, 3), (2, 2), (0, 1), (1, 3), (3, 4), (4, 2), (2, 1), (0, 0)], (4, 0)⟩ : SearchState) (⟨[[0, 5, -1, 7, -1], [-1, -1, -1, 4, -1], [-1, 1, 6, -1, 8], [-1, -1, -1, -1, 3], [-1, -1, 2, 9, -1]], [(4, 3), (2, 4), (0, 3), (2, 2), (0, 1), (1, 3), (3, 4), (4, 2), (2, 1), (0, 0)], (4, 3)⟩ : SearchState) (⟨[[0, 5, -1, 7, -1], [-1, -1, -1, 4, -1], [-1, 1, 6, -1, 8], [-1, -1, -1, -1, 3], [-1, -1, 2, 9, -1]], [(4, 3), (2, 4), (0, 3), (2, 2), (0, 1), (1, 3), (3, 4), (4, 2), (2, 1), (0, 0)], (3, 0)⟩ : SearchState) (⟨[[0, 5, -1, 7, -1], [-1, -1, -1, 4, -1], [-1, 1, 6, -1, 8], [-1, -1, -1, -1, 3], [-1, -1, 2, -1, -1]], [(2, 4), (0, 3), (2, 2), (0, 1), (1, 3), (3, 4), (4, 2), (2, 1), (0, 0)], (3, 0)⟩ : SearchState)
  (by decide) (by decide) (by decide) (by decide) run5_node_026 (by decide))).trans
(tm_nil 5 (solveKnightTour 5 17) 2 4 9 (⟨[[0, 5, -1, 7, -1], [-1, -1, -1, 4, -1], [-1, 1, 6, -1, 8], [-1, -1, -1, -1, 3], [-1, -1, 2, -1, -1]], [(2, 4), (0, 3), (2, 2), (0, 1), (1, 3), (3, 4), (4, 2), (2, 1), (0, 0)], (3, 0)⟩ : SearchState)))

theorem run5_node_028 :
    solveKnightTour 5 17 3 2 10 (⟨[[0, 5, -1, 7, -1], [-1, 8, -1, 4, -1], [-1, 1, 6, -1, -1], [-1, -1, 9, -1, 3], [-1, -1, 2, -1, -1]], [(3, 2), (1, 1), (0, 3), (2, 2), (0, 1), (1, 3), (3, 4), (4, 2), (2, 1), (0, 0)], (3, 2)⟩ : SearchState) = some (false, (⟨[[0, 5, -1, 7, -1], [-1, 8, -1, 4, -1], [-1, 1, 6, -1, -1], [-1, -1, 9, -1, 3], [-1, -1, 2, -1, -1]], [(3, 2), (1, 1), (0, 3), (2, 2), (0, 1), (1, 3), (3, 4), (4, 2), (2, 1), (0, 0)], (4, 0)⟩ : SearchState)) := by decide!

theorem run5_node_029 :
    solveKnightTour 5 17 2 3 10 (⟨[[0, 5, -1, 7, -1], [-1, 8, -1, 4, -1], [-1, 1, 6, 9, -1], [-1, -1, -1, -1, 3], [-1, -1, 2, -1, -1]], [(2, 3), (1, 1), (0, 3), (2, 2), (0, 1), (1, 3), (3, 4), (4, 2), (2, 1), (0, 0)], (2, 3)⟩ : SearchState) = some (false, (⟨[[0, 5, -1, 7, -1], [-1, 8, -1, 4, -1], [-1, 1, 6, 9, -1], [-1, -1, -1, -1, 3], [-1, -1, 2, -1, -1]], [(2, 3), (1, 1), (0, 3), (2, 2), (0, 1), (1, 3), (3, 4), (4, 2), (2, 1), (0, 0)], (0, 4)⟩ : SearchState)) := by decide!

theorem run5_node_030 :
    solveKnightTour 5 17 3 0 10 (⟨[[0, 5, -1, 7, -1], [-1, 8, -1, 4, -1], [-1, 1, 6, -1, -1], [9, -1, -1, -1, 3], [-1, -1, 2, -1, -1]], [(3, 0), (1, 1), (0, 3), (2, 2), (0, 1), (1, 3), (3, 4), (4, 2), (2, 1), (0, 0)], (3, 0)⟩ : SearchState) = some (false, (⟨[[0, 5, -1, 7, -1], [-1, 8, -1, 4, -1], [-1, 1, 6, -1, -1], [9, -1, -1, -1, 3], [-1, -1, 2, -1, -1]], [(3, 0), (1, 1), (0, 3), (2, 2), (0, 1), (1, 3), (3, 4), (4, 2), (2, 1), (0, 0)], (3, 0)⟩ : SearchState)) := by decide!

theorem run5_node_027 :
    solveKnightTour 5 18 1 1 9 (⟨[[0, 5, -1, 7, -1], [-1, 8, -1, 4, -1], [-1, 1, 6, -1, -1], [-1, -1, -1, -1, 3], [-1, -1, 2, -1, -1]], [(1, 1), (0, 3), (2, 2), (0, 1), (1, 3), (3, 4), (4, 2), (2, 1), (0, 0)], (1, 1)⟩ : SearchState) = some (false, (⟨[[0, 5, -1, 7, -1], [-1, 8, -1, 4, -1], [-1, 1, 6, -1, -1], [-1, -1, -1, -1, 3], [-1, -1, 2, -1, -1]], [(1, 1), (0, 3), (2, 2), (0, 1), (1, 3), (3, 4), (4, 2), (2, 1), (0, 0)], (3, 0)⟩ : SearchState)) :=
((((((((((solve_succ 5 17 1 1 9 (⟨[[0, 5, -1, 7, -1], [-1, 8, -1, 4, -1], [-1, 1, 6, -1, -1], [-1, -1, -1, -1, 3], [-1, -1, 2, -1, -1]], [(1, 1), (0, 3), (2, 2), (0, 1), (1, 3), (3, 4), (4, 2), (2, 1), (0, 0)], (1, 1)⟩ : SearchState) (by decide)).trans
(tm_fail 5 (solveKnightTour 5 17) 1 1 2 1 3 2 9 [(1, 2), (-1, 2), (-2, 1), (-2, -1), (-1, -2), (1, -2), (2, -1)]
  (⟨[[0, 5, -1, 7, -1], [-1, 8, -1, 4, -1], [-1, 1, 6, -1, -1], [-1, -1, -1, -1, 3], [-1, -1, 2, -1, -1]], [(1, 1), (0, 3), (2, 2), (0, 1), (1, 3), (3, 4), (4, 2), (2, 1), (0, 0)], (1, 1)⟩ : SearchState) (⟨[[0, 5, -1, 7, -1], [-1, 8, -1, 4, -1], [-1, 1, 6, -1, -1], [-1, -1, 9, -1, 3], [-1, -1, 2, -1, -1]], [(3, 2), (1, 1), (0, 3), (2, 2), (0, 1), (1, 3), (3, 4), (4, 2), (2, 1), (0, 0)], (3, 2)⟩ : SearchState) (⟨[[0, 5, -1, 7, -1], [-1, 8, -1, 4, -1], [-1, 1, 6, -1, -1], [-1, -1, 9, -1, 3], [-1, -1, 2, -1, -1]], [(3, 2), (1, 1), (0, 3), (2, 2), (0, 1), (1, 3), (3, 4), (4, 2), (2, 1), (0, 0)], (4, 0)⟩ : SearchState) (⟨[[0, 5, -1, 7, -1], [-1, 8, -1, 4, -1], [-1, 1, 6, -1, -1], [-1, -1, -1, -1, 3], [-1, -1, 2, -1, -1]], [(1, 1), (0, 3), (2, 2), (0, 1), (1, 3), (3, 4), (4, 2), (2, 1), (0, 0)], (4, 0)⟩ : SearchState)
  (by decide) (by decide) (by decide) (by decide) run5_node_028 (by decide))).trans
(tm_fail 5 (solveKnightTour 5 17) 1 1 1 2 2 3 9 [(-1, 2), (-2, 1), (-2, -1), (-1, -2), (1, -2), (2, -1)]
  (⟨[[0, 5, -1, 7, -1], [-1, 8, -1, 4, -1], [-1, 1, 6, -1, -1], [-1, -1, -1, -1, 3], [-1, -1, 2, -1, -1]], [(1, 1), (0, 3), (2, 2), (0, 1), (1, 3), (3, 4), (4, 2), (2, 1), (0, 0)], (4, 0)⟩ : SearchState) (⟨[[0, 5, -1, 7, -1], [-1, 8, -1, 4, -1], [-1, 1, 6, 9, -1], [-1, -1, -1, -1, 3], [-1, -1, 2, -1, -1]], [(2, 3), (1, 1), (0, 3), (2, 2), (0, 1), (1, 3), (3, 4), (4, 2), (2, 1), (0, 0)], (2, 3)⟩ : SearchState) (⟨[[0, 5, -1, 7, -1], [-1, 8, -1, 4, -1], [-1, 1, 6, 9, -1], [-1, -1, -1, -1, 3], [-1, -1, 2, -1, -1]], [(2, 3), (1, 1), (0, 3), (2, 2), (0, 1), (1, 3), (3, 4), (4, 2), (2, 1), (0, 0)], (0, 4)⟩ : SearchState) (⟨[[0, 5, -1, 7, -1], [-1, 8, -1, 4, -1], [-1, 1, 6, -1, -1], [-1, -1, -1, -1, 3], [-1, -1, 2, -1, -1]], [(1, 1), (0, 3), (2, 2), (0, 1), (1, 3), (3, 4), (4, 2), (2, 1), (0, 0)], (0, 4)⟩ : SearchState)
  (by decide) (by decide) (by decide) (by decide) run5_node_029 (by decide))).trans
(tm_skip 5 (solveKnightTour 5 17) 1 1 (-1) 2 0 3 9 [(-2, 1), (-2, -1), (-1, -2), (1, -2), (2, -1)]
  (⟨[[0, 5, -1, 7, -1], [-1, 8, -1, 4, -1], [-1, 1, 6, -1, -1], [-1, -1, -1, -1, 3], [-1, -1, 2, -1, -1]], [(1, 1), (0, 3), (2, 2), (0, 1), (1, 3), (3, 4), (4, 2), (2, 1), (0, 0)], (0, 4)⟩ : SearchState) (by decide) (by decide) (by decide))).trans
(tm_skip 5 (solveKnightTour 5 17) 1 1 (-2) 1 (-1) 2 9 [(-2, -1), (-1, -2), (1, -2), (2, -1)]
  (⟨[[0, 5, -1, 7, -1], [-1, 8, -1, 4, -1], [-1, 1, 6, -1, -1], [-1, -1, -1, -1, 3], [-1, -1, 2, -1, -1]], [(1, 1), (0, 3), (2, 2), (0, 1), (1, 3), (3, 4), (4, 2), (2, 1), (0, 0)], (0, 4)⟩ : SearchState) (by decide) (by decide) (by decide))).trans
(tm_skip 5 (solveKnightTour 5 17) 1 1 (-2) (-1) (-1) 0 9 [(-1, -2), (1, -2), (2, -1)]
  (⟨[[0, 5, -1, 7, -1], [-1, 8, -1, 4, -1], [-1, 1, 6, -1, -1], [-1, -1, -1, -1, 3], [-1, -1, 2, -1, -1]], [(1, 1), (0, 3), (2, 2), (0, 1), (1, 3), (3, 4), (4, 2), (2, 1), (0, 0)], (0, 4)⟩ : SearchState) (by decide) (by decide) (by decide))).trans
(tm_skip 5 (solveKnightTour 5 17) 1 1 (-1) (-2) 0 (-1) 9 [(1, -2), (2, -1)]
  (⟨[[0, 5, -1, 7, -1], [-1, 8, -1, 4, -1], [-1, 1, 6, -1, -1], [-1, -1, -1, -1, 3], [-1, -1, 2, -1, -1]], [(1, 1), (0, 3), (2, 2), (0, 1), (1, 3), (3, 4), (4, 2), (2, 1), (0, 0)], (0, 4)⟩ : SearchState) (by decide) (by decide) (by decide))).trans
(tm_skip 5 (solveKnightTour 5 17) 1 1 1 (-2) 2 (-1) 9 [(2, -1)]
  (⟨[[0, 5, -1, 7, -1], [-1, 8, -1, 4, -1], [-1, 1, 6, -1, -1], [-1, -1, -1, -1, 3], [-1, -1, 2, -1, -1]], [(1, 1), (0, 3), (2, 2), (0, 1), (1, 3), (3, 4), (4, 2), (2, 1), (0, 0)], (0, 4)⟩ : SearchState) (by decide) (by decide) (by decide))).trans
(tm_fail 5 (solveKnightTour 5 17) 1 1 2 (-1) 3 0 9 []
  (⟨[[0, 5, -1, 7, -1], [-1, 8, -1, 4, -1], [-1, 1, 6, -1, -1], [-1, -1, -1, -1, 3], [-1, -1, 2, -1, -1]], [(1, 1), (0, 3), (2, 2), (0, 1), (1, 3), (3, 4), (4, 2), (2, 1), (0, 0)], (0, 4)⟩ : SearchState) (⟨[[0, 5, -1, 7, -1], [-1, 8, -1, 4, -1], [-1, 1, 6, -1, -1], [9, -1, -1, -1, 3], [-1, -1, 2, -1, -1]], [(3, 0), (1, 1), (0, 3), (2, 2), (0, 1), (1, 3), (3, 4), (4, 2), (2, 1), (0, 0)], (3, 0)⟩ : SearchState) (⟨[[0, 5, -1, 7, -1], [-1, 8, -1, 4, -1], [-1, 1, 6, -1, -1], [9, -1, -1, -1, 3], [-1, -1, 2, -1, -1]], [(3, 0), (1, 1), (0, 3), (2, 2), (0, 1), (1, 3), (3, 4), (4, 2), (2, 1), (0, 0)], (3, 0)⟩ : SearchState) (⟨[[0, 5, -1, 7, -1], [-1, 8, -1, 4, -1], [-1, 1, 6, -1, -1], [-1, -1, -1, -1, 3], [-1, -1, 2, -1, -1]], [(1, 1), (0, 3), (2, 2), (0, 1), (1, 3), (3, 4), (4, 2), (2, 1), (0, 0)], (3, 0)⟩ : SearchState)
  (by decide) (by decide) (by decide) (by decide) run5_node_030 (by decide))).trans
(tm_nil 5 (solveKnightTour 5 17) 1 1 9 (⟨[[0, 5, -1, 7, -1], [-1, 8, -1, 4, -1], [-1, 1, 6, -1, -1], [-1, -1, -1, -1, 3], [-1, -1, 2, -1, -1]], [(1, 1), (0, 3), (2, 2), (0, 1), (1, 3), (3, 4), (4, 2), (2, 1), (0, 0)], (3, 0)⟩ : SearchState)))

theorem run5_node_022 :
    solveKnightTour 5 19 0 3 8 (⟨[[0, 5, -1, 7, -1], [-1, -1, -1, 4, -1], [-1, 1, 6, -1, -1], [-1, -1, -1, -1, 3], [-1, -1, 2, -1, -1]], [(0, 3), (2, 2), (0, 1), (1, 3), (3, 4), (4, 2), (2, 1), (0, 0)], (0, 3)⟩ : SearchState) = some (false, (⟨[[0, 5, -1, 7, -1], [-1, -1, -1, 4, -1], [-1, 1, 6, -1, -1], [-1, -1, -1, -1, 3], [-1, -1, 2, -1, -1]], [(0, 3), (2, 2), (0, 1), (1, 3), (3, 4), (4, 2), (2, 1), (0, 0)], (3, 0)⟩ : SearchState)) :=
((((((((((solve_succ 5 18 0 3 8 (⟨[[0, 5, -1, 7, -1], [-1, -1, -1, 4, -1], [-1, 1, 6, -1, -1], [-1, -1, -1, -1, 3], [-1, -1, 2, -1, -1]], [(0, 3), (2, 2), (0, 1), (1, 3), (3, 4), (4, 2), (2, 1), (0, 0)], (0, 3)⟩ : SearchState) (by decide)).trans
(tm_fail 5 (solveKnightTour 5 18) 0 3 2 1 2 4 8 [(1, 2), (-1, 2), (-2, 1), (-2, -1), (-1, -2), (1, -2), (2, -1)]
  (⟨[[0, 5, -1, 7, -1], [-1, -1, -1, 4, -1], [-1, 1, 6, -1, -1], [-1, -1, -1, -1, 3], [-1, -1, 2, -1, -1]], [(0, 3), (2, 2), (0, 1), (1, 3), (3, 4), (4, 2), (2, 1), (0, 0)], (0, 3)⟩ : SearchState) (⟨[[0, 5, -1, 7, -1], [-1, -1, -1, 4, -1], [-1, 1, 6, -1, 8], [-1, -1, -1, -1, 3], [-1, -1, 2, -1, -1]], [(2, 4), (0, 3), (2, 2), (0, 1), (1, 3), (3, 4), (4, 2), (2, 1), (0, 0)], (2, 4)⟩ : SearchState) (⟨[[0, 5, -1, 7, -1], [-1, -1, -1, 4, -1], [-1, 1, 6, -1, 8], [-1, -1, -1, -1, 3], [-1, -1, 2, -1, -1]], [(2, 4), (0, 3), (2, 2), (0, 1), (1, 3), (3, 4), (4, 2), (2, 1), (0, 0)], (3, 0)⟩ : SearchState) (⟨[[0, 5, -1, 7, -1], [-1, -1, -1, 4, -1], [-1, 1, 6, -1, -1], [-1, -1, -1, -1, 3], [-1, -1, 2, -1, -1]], [(0, 3), (2, 2), (0, 1), (1, 3), (3, 4), (4, 2), (2, 1), (0, 0)], (3, 0)⟩ : SearchState)
  (by decide) (by decide) (by decide) (by decide) run5_node_023 (by decide))).trans
(tm_skip 5 (solveKnightTour 5 18) 0 3 1 2 1 5 8 [(-1, 2), (-2, 1), (-2, -1), (-1, -2), (1, -2), (2, -1)]
  (⟨[[0, 5, -1, 7, -1], [-1, -1, -1, 4, -1], [-1, 1, 6, -1, -1], [-1, -1, -1, -1, 3], [-1, -1, 2, -1, -1]], [(0, 3), (2, 2), (0, 1), (1, 3), (3, 4), (4, 2), (2, 1), (0, 0)], (3, 0)⟩ : SearchState) (by decide) (by decide) (by decide))).trans
(tm_skip 5 (solveKnightTour 5 18) 0 3 (-1) 2 (-1) 5 8 [(-2, 1), (-2, -1), (-1, -2), (1, -2), (2, -1)]
  (⟨[[0, 5, -1, 7, -1], [-1, -1, -1, 4, -1], [-1, 1, 6, -1, -1], [-1, -1, -1, -1, 3], [-1, -1, 2, -1, -1]], [(0, 3), (2, 2), (0, 1), (1, 3), (3, 4), (4, 2), (2, 1), (0, 0)], (3, 0)⟩ : SearchState) (by decide) (by decide) (by decide))).trans
(tm_skip 5 (solveKnightTour 5 18) 0 3 (-2) 1 (-2) 4 8 [(-2, -1), (-1, -2), (1, -2), (2, -1)]
  (⟨[[0, 5, -1, 7, -1], [-1, -1, -1, 4, -1], [-1, 1, 6, -1, -1], [-1, -1, -1, -1, 3], [-1, -1, 2, -1, -1]], [(0, 3), (2, 2), (0, 1), (1, 3), (3, 4), (4, 2), (2, 1), (0, 0)], (3, 0)⟩ : SearchState) (by decide) (by decide) (by decide))).trans
(tm_skip 5 (solveKnightTour 5 18) 0 3 (-2) (-1) (-2) 2 8 [(-1, -2), (1, -2), (2, -1)]
  (⟨[[0, 5, -1, 7, -1], [-1, -1, -1, 4, -1], [-1, 1, 6, -1, -1], [-1, -1, -1, -1, 3], [-1, -1, 2, -1, -1]], [(0, 3), (2, 2), (0, 1), (1, 3), (3, 4), (4, 2), (2, 1), (0, 0)], (3, 0)⟩ : SearchState) (by decide) (by decide) (by decide))).trans
(tm_skip 5 (solveKnightTour 5 18) 0 3 (-1) (-2) (-1) 1 8 [(1, -2), (2, -1)]
  (⟨[[0, 5, -1, 7, -1], [-1, -1, -1, 4, -1], [-1, 1, 6, -1, -1], [-1, -1, -1, -1, 3], [-1, -1, 2, -1, -1]], [(0, 3), (2, 2), (0, 1), (1, 3), (3, 4), (4, 2), (2, 1), (0, 0)], (3, 0)⟩ : SearchState) (by decide) (by decide) (by decide))).trans
(tm_fail 5 (solveKnightTour 5 18) 0 3 1 (-2) 1 1 8 [(2, -1)]
  (⟨[[0, 5, -1, 7, -1], [-1, -1, -1, 4, -1], [-1, 1, 6, -1, -1], [-1, -1, -1, -1, 3], [-1, -1, 2, -1, -1]], [(0, 3), (2, 2), (0, 1), (1, 3), (3, 4), (4, 2), (2, 1), (0, 0)], (3, 0)⟩ : SearchState) (⟨[[0, 5, -1, 7, -1], [-1, 8, -1, 4, -1], [-1, 1, 6, -1, -1], [-1, -1, -1, -1, 3], [-1, -1, 2, -1, -1]], [(1, 1), (0, 3), (2, 2), (0, 1), (1, 3), (3, 4), (4, 2), (2, 1), (0, 0)], (1, 1)⟩ : SearchState) (⟨[[0, 5, -1, 7, -1], [-1, 8, -1, 4, -1], [-1, 1, 6, -1, -1], [-1, -1, -1, -1, 3], [-1, -1, 2, -1, -1]], [(1, 1), (0, 3), (2, 2), (0, 1), (1, 3), (3, 4), (4, 2), (2, 1), (0, 0)], (3, 0)⟩ : SearchState) (⟨[[0, 5, -1, 7, -1], [-1, -1, -1, 4, -1], [-1, 1, 6, -1, -1], [-1, -1, -1, -1, 3], [-1, -1, 2, -1, -1]], [(0, 3), (2, 2), (0, 1), (1, 3), (3, 4), (4, 2), (2, 1), (0, 0)], (3, 0)⟩ : SearchState)
  (by decide) (by decide) (by decide) (by decide) run5_node_027 (by decide))).trans
(tm_skip 5 (solveKnightTour 5 18) 0 3 2 (-1) 2 2 8 []
  (⟨[[0, 5, -1, 7, -1], [-1, -1, -1, 4, -1], [-1, 1, 6, -1, -1], [-1, -1, -1, -1, 3], [-1, -1, 2, -1, -1]], [(0, 3), (2, 2), (0, 1), (1, 3), (3, 4), (4, 2), (2, 1), (0, 0)], (3, 0)⟩ : SearchState) (by decide) (by decide) (by decide))).trans
(tm_nil 5 (solveKnightTour 5 18) 0 3 8 (⟨[[0, 5, -1, 7, -1], [-1, -1, -1, 4, -1], [-1, 1, 6, -1, -1], [-1, -1, -1, -1, 3], [-1, -1, 2, -1, -1]], [(0, 3), (2, 2), (0, 1), (1, 3), (3, 4), (4, 2), (2, 1), (0, 0)], (3, 0)⟩ : SearchState)))

theorem run5_node_032 :
    solveKnightTour 5 18 3 1 9 (⟨[[0, 5, -1, -1, -1], [7, -1, -1, 4, -1], [-1, 1, 6, -1, -1], [-1, 8, -1, -1, 3], [-1, -1, 2, -1, -1]], [(3, 1), (1, 0), (2, 2), (0, 1), (1, 3), (3, 4), (4, 2), (2, 1), (0, 0)], (3, 1)⟩ : SearchState) = some (false, (⟨[[0, 5, -1, -1, -1], [7, -1, -1, 4, -1], [-1, 1, 6, -1, -1], [-1, 8, -1, -1, 3], [-1, -1, 2, -1, -1]], [(3, 1), (1, 0), (2, 2), (0, 1), (1, 3), (3, 4), (4, 2), (2, 1), (0, 0)], (4, 0)⟩ : SearchState)) := by decide!

theorem run5_node_034 :
    solveKnightTour 5 17 2 3 10 (⟨[[0, 5, 8, -1, -1], [7, -1, -1, 4, -1], [-1, 1, 6, 9, -1], [-1, -1, -1, -1, 3], [-1, -1, 2, -1, -1]], [(2, 3), (0, 2), (1, 0), (2, 2), (0, 1), (1, 3), (3, 4), (4, 2), (2, 1), (0, 0)], (2, 3)⟩ : SearchState) = some (false, (⟨[[0, 5, 8, -1, -1], [7, -1, -1, 4, -1], [-1, 1, 6, 9, -1], [-1, -1, -1, -1, 3], [-1, -1, 2, -1, -1]], [(2, 3), (0, 2), (1, 0), (2, 2), (0, 1), (1, 3), (3, 4), (4, 2), (2, 1), (0, 0)], (4, 0)⟩ : SearchState)) := by decide!

theorem run5_node_035 :
    solveKnightTour 5 17 1 4 10 (⟨[[0, 5, 8, -1, -1], [7, -1, -1, 4, 9], [-1, 1, 6, -1, -1], [-1, -1, -1, -1, 3], [-1, -1, 2, -1, -1]], [(1, 4), (0, 2), (1, 0), (2, 2), (0, 1), (1, 3), (3, 4), (4, 2), (2, 1), (0, 0)], (1, 4)⟩ : SearchState) = some (false, (⟨[[0, 5, 8, -1, -1], [7, -1, -1, 4, 9], [-1, 1, 6, -1, -1], [-1, -1, -1, -1, 3], [-1, -1, 2, -1, -1]], [(1, 4), (0, 2), (1, 0), (2, 2), (0, 1), (1, 3), (3, 4), (4, 2), (2, 1), (0, 0)], (3, 0)⟩ : SearchState)) := by decide!

theorem run5_node_033 :
    solveKnightTour 5 18 0 2 9 (⟨[[0, 5, 8, -1, -1], [7, -1, -1, 4, -1], [-1, 1, 6, -1, -1], [-1, -1, -1, -1, 3], [-1, -1, 2, -1, -1]], [(0, 2), (1, 0), (2, 2), (0, 1), (1, 3), (3, 4), (4, 2), (2, 1), (0, 0)], (0, 2)⟩ : SearchState) = some (false, (⟨[[0, 5, 8, -1, -1], [7, -1, -1, 4, -1], [-1, 1, 6, -1, -1], [-1, -1, -1, -1, 3], [-1, -1, 2, -1, -1]], [(0, 2), (1, 0), (2, 2), (0, 1), (1, 3), (3, 4), (4, 2), (2, 1), (0, 0)], (3, 0)⟩ : SearchState)) :=
((((((((((solve_succ 5 17 0 2 9 (⟨[[0, 5, 8, -1, -1], [7, -1, -1, 4, -1], [-1, 1, 6, -1, -1], [-1, -1, -1, -1, 3], [-1, -1, 2, -1, -1]], [(0, 2), (1, 0), (2, 2), (0, 1), (1, 3), (3, 4), (4, 2), (2, 1), (0, 0)], (0, 2)⟩ : SearchState) (by decide)).trans
(tm_fail 5 (solveKnightTour 5 17) 0 2 2 1 2 3 9 [(1, 2), (-1, 2), (-2, 1), (-2, -1), (-1, -2), (1, -2), (2, -1)]
  (⟨[[0, 5, 8, -1, -1], [7, -1, -1, 4, -1], [-1, 1, 6, -1, -1], [-1, -1, -1, -1, 3], [-1, -1, 2, -1, -1]], [(0, 2), (1, 0), (2, 2), (0, 1), (1, 3), (3, 4), (4, 2), (2, 1), (0, 0)], (0, 2)⟩ : SearchState) (⟨[[0, 5, 8, -1, -1], [7, -1, -1, 4, -1], [-1, 1, 6, 9, -1], [-1, -1, -1, -1, 3], [-1, -1, 2, -1, -1]], [(2, 3), (0, 2), (1, 0), (2, 2), (0, 1), (1, 3), (3, 4), (4, 2), (2, 1), (0, 0)], (2, 3)⟩ : SearchState) (⟨[[0, 5, 8, -1, -1], [7, -1, -1, 4, -1], [-1, 1, 6, 9, -1], [-1, -1, -1, -1, 3], [-1, -1, 2, -1, -1]], [(2, 3), (0, 2), (1, 0), (2, 2), (0, 1), (1, 3), (3, 4), (4, 2), (2, 1), (0, 0)], (4, 0)⟩ : SearchState) (⟨[[0, 5, 8, -1, -1], [7, -1, -1, 4, -1], [-1, 1, 6, -1, -1], [-1, -1, -1, -1, 3], [-1, -1, 2, -1, -1]], [(0, 2), (1, 0), (2, 2), (0, 1), (1, 3), (3, 4), (4, 2), (2, 1), (0, 0)], (4, 0)⟩ : SearchState)
  (by decide) (by decide) (by decide) (by decide) run5_node_034 (by decide))).trans
(tm_fail 5 (solveKnightTour 5 17) 0 2 1 2 1 4 9 [(-1, 2), (-2, 1), (-2, -1), (-1, -2), (1, -2), (2, -1)]
  (⟨[[0, 5, 8, -1, -1], [7, -1, -1, 4, -1], [-1, 1, 6, -1, -1], [-1, -1, -1, -1, 3], [-1, -1, 2, -1, -1]], [(0, 2), (1, 0), (2, 2), (0, 1), (1, 3), (3, 4), (4, 2), (2, 1), (0, 0)], (4, 0)⟩ : SearchState) (⟨[[0, 5, 8, -1, -1], [7, -1, -1, 4, 9], [-1, 1, 6, -1, -1], [-1, -1, -1, -1, 3], [-1, -1, 2, -1, -1]], [(1, 4), (0, 2), (1, 0), (2, 2), (0, 1), (1, 3), (3, 4), (4, 2), (2, 1), (0, 0)], (1, 4)⟩ : SearchState) (⟨[[0, 5, 8, -1, -1], [7, -1, -1, 4, 9], [-1, 1, 6, -1, -1], [-1, -1, -1, -1, 3], [-1, -1, 2, -1, -1]], [(1, 4), (0, 2), (1, 0), (2, 2), (0, 1), (1, 3), (3, 4), (4, 2), (2, 1), (0, 0)], (3, 0)⟩ : SearchState) (⟨[[0, 5, 8, -1, -1], [7, -1, -1, 4, -1], [-1, 1, 6, -1, -1], [-1, -1, -1, -1, 3], [-1, -1, 2, -1, -1]], [(0, 2), (1, 0), (2, 2), (0, 1), (1, 3), (3, 4), (4, 2), (2, 1), (0, 0)], (3, 0)⟩ : SearchState)
  (by decide) (by decide) (by decide) (by decide) run5_node_035 (by decide))).trans
(tm_skip 5 (solveKnightTour 5 17) 0 2 (-1) 2 (-1) 4 9 [(-2, 1), (-2, -1), (-1, -2), (1, -2), (2, -1)]
  (⟨[[0, 5, 8, -1, -1], [7, -1, -1, 4, -1], [-1, 1, 6, -1, -1], [-1, -1, -1, -1, 3], [-1, -1, 2, -1, -1]], [(0, 2), (1, 0), (2, 2), (0, 1), (1, 3), (3, 4), (4, 2), (2, 1), (0, 0)], (3, 0)⟩ : SearchState) (by decide) (by decide) (by decide))).trans
(tm_skip 5 (solveKnightTour 5 17) 0 2 (-2) 1 (-2) 3 9 [(-2, -1), (-1, -2), (1, -2), (2, -1)]
  (⟨[[0, 5, 8, -1, -1], [7, -1, -1, 4, -1], [-1, 1, 6, -1, -1], [-1, -1, -1, -1, 3], [-1, -1, 2, -1, -1]], [(0, 2), (1, 0), (2, 2), (0, 1), (1, 3), (3, 4), (4, 2), (2, 1), (0, 0)], (3, 0)⟩ : SearchState) (by decide) (by decide) (by decide))).trans
(tm_skip 5 (solveKnightTour 5 17) 0 2 (-2) (-1) (-2) 1 9 [(-1, -2), (1, -2), (2, -1)]
  (⟨[[0, 5, 8, -1, -1], [7, -1, -1, 4, -1], [-1, 1, 6, -1, -1], [-1, -1, -1, -1, 3], [-1, -1, 2, -1, -1]], [(0, 2), (1, 0), (2, 2), (0, 1), (1, 3), (3, 4), (4, 2), (2, 1), (0, 0)], (3, 0)⟩ : SearchState) (by decide) (by decide) (by decide))).trans
(tm_skip 5 (solveKnightTour 5 17) 0 2 (-1) (-2) (-1) 0 9 [(1, -2), (2, -1)]
  (⟨[[0, 5, 8, -1, -1], [7, -1, -1, 4, -1], [-1, 1, 6, -1, -1], [-1, -1, -1, -1, 3], [-1, -1, 2, -1, -1]], [(0, 2), (1, 0), (2, 2), (0, 1), (1, 3), (3, 4), (4, 2), (2, 1), (0, 0)], (3, 0)⟩ : SearchState) (by decide) (by decide) (by decide))).trans
(tm_skip 5 (solveKnightTour 5 17) 0 2 1 (-2) 1 0 9 [(2, -1)]
  (⟨[[0, 5, 8, -1, -1], [7, -1, -1, 4, -1], [-1, 1, 6, -1, -1], [-1, -1, -1, -1, 3], [-1, -1, 2, -1, -1]], [(0, 2), (1, 0), (2, 2), (0, 1), (1, 3), (3, 4), (4, 2), (2, 1), (0, 0)], (3, 0)⟩ : SearchState) (by decide) (by decide) (by decide))).trans
(tm_skip 5 (solveKnightTour 5 17) 0 2 2 (-1) 2 1 9 []
  (⟨[[0, 5, 8, -1, -1], [7, -1, -1, 4, -1], [-1, 1, 6, -1, -1], [-1, -1, -1, -1, 3], [-1, -1, 2, -1, -1]], [(0, 2), (1, 0), (2, 2), (0, 1), (1, 3), (3, 4), (4, 2), (2, 1), (0, 0)], (3, 0)⟩ : SearchState) (by decide) (by decide) (by decide))).trans
(tm_nil 5 (solveKnightTour 5 17) 0 2 9 (⟨[[0, 5, 8, -1, -1], [7, -1, -1, 4, -1], [-1, 1, 6, -1, -1], [-1, -1, -1, -1, 3], [-1, -1, 2, -1, -1]], [(0, 2), (1, 0), (2, 2), (0, 1), (1, 3), (3, 4), (4, 2), (2, 1), (0, 0)], (3, 0)⟩ : SearchState)))

theorem run5_node_031 :
    solveKnightTour 5 19 1 0 8 (⟨[[0, 5, -1, -1, -1], [7, -1, -1, 4, -1], [-1, 1, 6, -1, -1], [-1, -1, -1, -1, 3], [-1, -1, 2, -1, -1]], [(1, 0), (2, 2), (0, 1), (1, 3), (3, 4), (4, 2), (2, 1), (0, 0)], (1, 0)⟩ : SearchState) = some (false, (⟨[[0, 5, -1, -1, -1], [7, -1, -1, 4, -1], [-1, 1, 6, -1, -1], [-1, -1, -1, -1, 3], [-1, -1, 2, -1, -1]], [(1, 0), (2, 2), (0, 1), (1, 3), (3, 4), (4, 2), (2, 1), (0, 0)], (3, 0)⟩ : SearchState)) :=
((((((((((solve_succ 5 18 1 0 8 (⟨[[0, 5, -1, -1, -1], [7, -1, -1, 4, -1], [-1, 1, 6, -1, -1], [-1, -1, -1, -1, 3], [-1, -1, 2, -1, -1]], [(1, 0), (2, 2), (0, 1), (1, 3), (3, 4), (4, 2), (2, 1), (0, 0)], (1, 0)⟩ : SearchState) (by decide)).trans
(tm_fail 5 (solveKnightTour 5 18) 1 0 2 1 3 1 8 [(1, 2), (-1, 2), (-2, 1), (-2, -1), (-1, -2), (1, -2), (2, -1)]
  (⟨[[0, 5, -1, -1, -1], [7, -1, -1, 4, -1], [-1, 1, 6, -1, -1], [-1, -1, -1, -1, 3], [-1, -1, 2, -1, -1]], [(1, 0), (2, 2), (0, 1), (1, 3), (3, 4), (4, 2), (2, 1), (0, 0)], (1, 0)⟩ : SearchState) (⟨[[0, 5, -1, -1, -1], [7, -1, -1, 4, -1], [-1, 1, 6, -1, -1], [-1, 8, -1, -1, 3], [-1, -1, 2, -1, -1]], [(3, 1), (1, 0), (2, 2), (0, 1), (1, 3), (3, 4), (4, 2), (2, 1), (0, 0)], (3, 1)⟩ : SearchState) (⟨[[0, 5, -1, -1, -1], [7, -1, -1, 4, -1], [-1, 1, 6, -1, -1], [-1, 8, -1, -1, 3], [-1, -1, 2, -1, -1]], [(3, 1), (1, 0), (2, 2), (0, 1), (1, 3), (3, 4), (4, 2), (2, 1), (0, 0)], (4, 0)⟩ : SearchState) (⟨[[0, 5, -1, -1, -1], [7, -1, -1, 4, -1], [-1, 1, 6, -1, -1], [-1, -1, -1, -1, 3], [-1, -1, 2, -1, -1]], [(1, 0), (2, 2), (0, 1), (1, 3), (3, 4), (4, 2), (2, 1), (0, 0)], (4, 0)⟩ : SearchState)
  (by decide) (by decide) (by decide) (by decide) run5_node_032 (by decide))).trans
(tm_skip 5 (solveKnightTour 5 18) 1 0 1 2 2 2 8 [(-1, 2), (-2, 1), (-2, -1), (-1, -2), (1, -2), (2, -1)]
  (⟨[[0, 5, -1, -1, -1], [7, -1, -1, 4, -1], [-1, 1, 6, -1, -1], [-1, -1, -1, -1, 3], [-1, -1, 2, -1, -1]], [(1, 0), (2, 2), (0, 1), (1, 3), (3, 4), (4, 2), (2, 1), (0, 0)], (4, 0)⟩ : SearchState) (by decide) (by decide) (by decide))).trans
(tm_fail 5 (solveKnightTour 5 18) 1 0 (-1) 2 0 2 8 [(-2, 1), (-2, -1), (-1, -2), (1, -2), (2, -1)]
  (⟨[[0, 5, -1, -1, -1], [7, -1, -1, 4, -1], [-1, 1, 6, -1, -1], [-1, -1, -1, -1, 3], [-1, -1, 2, -1, -1]], [(1, 0), (2, 2), (0, 1), (1, 3), (3, 4), (4, 2), (2, 1), (0, 0)], (4, 0)⟩ : SearchState) (⟨[[0, 5, 8, -1, -1], [7, -1, -1, 4, -1], [-1, 1, 6, -1, -1], [-1, -1, -1, -1, 3], [-1, -1, 2, -1, -1]], [(0, 2), (1, 0), (2, 2), (0, 1), (1, 3), (3, 4), (4, 2), (2, 1), (0, 0)], (0, 2)⟩ : SearchState) (⟨[[0, 5, 8, -1, -1], [7, -1, -1, 4, -1], [-1, 1, 6, -1, -1], [-1, -1, -1, -1, 3], [-1, -1, 2, -1, -1]], [(0, 2), (1, 0), (2, 2), (0, 1), (1, 3), (3, 4), (4, 2), (2, 1), (0, 0)], (3, 0)⟩ : SearchState) (⟨[[0, 5, -1, -1, -1], [7, -1, -1, 4, -1], [-1, 1, 6, -1, -1], [-1, -1, -1, -1, 3], [-1, -1, 2, -1, -1]], [(1, 0), (2, 2), (0, 1), (1, 3), (3, 4), (4, 2), (2, 1), (0, 0)], (3, 0)⟩ : SearchState)
  (by decide) (by decide) (by decide) (by decide) run5_node_033 (by decide))).trans
(tm_skip 5 (solveKnightTour 5 18) 1 0 (-2) 1 (-1) 1 8 [(-2, -1), (-1, -2), (1, -2), (2, -1)]
  (⟨[[0, 5, -1, -1, -1], [7, -1, -1, 4, -1], [-1, 1, 6, -1, -1], [-1, -1, -1, -1, 3], [-1, -1, 2, -1, -1]], [(1, 0), (2, 2), (0, 1), (1, 3), (3, 4), (4, 2), (2, 1), (0, 0)], (3, 0)⟩ : SearchState) (by decide) (by decide) (by decide))).trans
(tm_skip 5 (solveKnightTour 5 18) 1 0 (-2) (-1) (-1) (-1) 8 [(-1, -2), (1, -2), (2, -1)]
  (⟨[[0, 5, -1, -1, -1], [7, -1, -1, 4, -1], [-1, 1, 6, -1, -1], [-1, -1, -1, -1, 3], [-1, -1, 2, -1, -1]], [(1, 0), (2, 2), (0, 1), (1, 3), (3, 4), (4, 2), (2, 1), (0, 0)], (3, 0)⟩ : SearchState) (by decide) (by decide) (by decide))).trans
(tm_skip 5 (solveKnightTour 5 18) 1 0 (-1) (-2) 0 (-2) 8 [(1, -2), (2, -1)]
  (⟨[[0, 5, -1, -1, -1], [7, -1, -1, 4, -1], [-1, 1, 6, -1, -1], [-1, -1, -1, -1, 3], [-1, -1, 2, -1, -1]], [(1, 0), (2, 2), (0, 1), (1, 3), (3, 4), (4, 2), (2, 1), (0, 0)], (3, 0)⟩ : SearchState) (by decide) (by decide) (by decide))).trans
(tm_skip 5 (solveKnightTour 5 18) 1 0 1 (-2) 2 (-2) 8 [(2, -1)]
  (⟨[[0, 5, -1, -1, -1], [7, -1, -1, 4, -1], [-1, 1, 6, -1, -1], [-1, -1, -1, -1, 3], [-1, -1, 2, -1, -1]], [(1, 0), (2, 2), (0, 1), (1, 3), (3, 4), (4, 2), (2, 1), (0, 0)], (3, 0)⟩ : SearchState) (by decide) (by decide) (by decide))).trans
(tm_skip 5 (solveKnightTour 5 18) 1 0 2 (-1) 3 (-1) 8 []
  (⟨[[0, 5, -1, -1, -1], [7, -1, -1, 4, -1], [-1, 1, 6, -1, -1], [-1, -1, -1, -1, 3], [-1, -1, 2, -1, -1]], [(1, 0), (2, 2), (0, 1), (1, 3), (3, 4), (4, 2), (2, 1), (0, 0)], (3, 0)⟩ : SearchState) (by decide) (by decide) (by decide))).trans
(tm_nil 5 (solveKnightTour 5 18) 1 0 8 (⟨[[0, 5, -1, -1, -1], [7, -1, -1, 4, -1], [-1, 1, 6, -1, -1], [-1, -1, -1, -1, 3], [-1, -1, 2, -1, -1]], [(1, 0), (2, 2), (0, 1), (1, 3), (3, 4), (4, 2), (2, 1), (0, 0)], (3, 0)⟩ : SearchState)))

theorem run5_node_038 :
    solveKnightTour 5 17 3 2 10 (⟨[[0, 5, -1, -1, -1], [-1, 8, -1, 4, -1], [-1, 1, 6, -1, -1], [7, -1, 9, -1, 3], [-1, -1, 2, -1, -1]], [(3, 2), (1, 1), (3, 0), (2, 2), (0, 1), (1, 3), (3, 4), (4, 2), (2, 1), (0, 0)], (3, 2)⟩ : SearchState) = some (false, (⟨[[0, 5, -1, -1, -1], [-1, 8, -1, 4, -1], [-1, 1, 6, -1, -1], [7, -1, 9, -1, 3], [-1, -1, 2, -1, -1]], [(3, 2), (1, 1), (3, 0), (2, 2), (0, 1), (1, 3), (3, 4), (4, 2), (2, 1), (0, 0)], (4, 0)⟩ : SearchState)) := by decide!

theorem run5_node_039 :
    solveKnightTour 5 17 2 3 10 (⟨[[0, 5, -1, -1, -1], [-1, 8, -1, 4, -1], [-1, 1, 6, 9, -1], [7, -1, -1, -1, 3], [-1, -1, 2, -1, -1]], [(2, 3), (1, 1), (3, 0), (2, 2), (0, 1), (1, 3), (3, 4), (4, 2), (2, 1), (0, 0)], (2, 3)⟩ : SearchState) = some (false, (⟨[[0, 5, -1, -1, -1], [-1, 8, -1, 4, -1], [-1, 1, 6, 9, -1], [7, -1, -1, -1, 3], [-1, -1, 2, -1, -1]], [(2, 3), (1, 1), (3, 0), (2, 2), (0, 1), (1, 3), (3, 4), (4, 2), (2, 1), (0, 0)], (0, 4)⟩ : SearchState)) := by decide!

theorem run5_node_040 :
    solveKnightTour 5 17 0 3 10 (⟨[[0, 5, -1, 9, -1], [-1, 8, -1, 4, -1], [-1, 1, 6, -1, -1], [7, -1, -1, -1, 3], [-1, -1, 2, -1, -1]], [(0, 3), (1, 1), (3, 0), (2, 2), (0, 1), (1, 3), (3, 4), (4, 2), (2, 1), (0, 0)], (0, 3)⟩ : SearchState) = some (true, (⟨[[0, 5, 14, 9, 20], [13, 8, 19, 4, 15], [18, 1, 6, 21, 10], [7, 12, 23, 16, 3], [24, 17, 2, 11, 22]], [(4, 0), (3, 2), (4, 4), (2, 3), (0, 4), (1, 2), (2, 0), (4, 1), (3, 3), (1, 4), (0, 2), (1, 0), (3, 1), (4, 3), (2, 4), (0, 3), (1, 1), (3, 0), (2, 2), (0, 1), (1, 3), (3, 4), (4, 2), (2, 1), (0, 0)], (4, 0)⟩ : SearchState)) := by decide!

theorem run5_node_037 :
    solveKnightTour 5 18 1 1 9 (⟨[[0, 5, -1, -1, -1], [-1, 8, -1, 4, -1], [-1, 1, 6, -1, -1], [7, -1, -1, -1, 3], [-1, -1, 2, -1, -1]], [(1, 1), (3, 0), (2, 2), (0, 1), (1, 3), (3, 4), (4, 2), (2, 1), (0, 0)], (1, 1)⟩ : SearchState) = some (true, (⟨[[0, 5, 14, 9, 20], [13, 8, 19, 4, 15], [18, 1, 6, 21, 10], [7, 12, 23, 16, 3], [24, 17, 2, 11, 22]], [(4, 0), (3, 2), (4, 4), (2, 3), (0, 4), (1, 2), (2, 0), (4, 1), (3, 3), (1, 4), (0, 2), (1, 0), (3, 1), (4, 3), (2, 4), (0, 3), (1, 1), (3, 0), (2, 2), (0, 1), (1, 3), (3, 4), (4, 2), (2, 1), (0, 0)], (4, 0)⟩ : SearchState)) :=
((((solve_succ 5 17 1 1 9 (⟨[[0, 5, -1, -1, -1], [-1, 8, -1, 4, -1], [-1, 1, 6, -1, -1], [7, -1, -1, -1, 3], [-1, -1, 2, -1, -1]], [(1, 1), (3, 0), (2, 2), (0, 1), (1, 3), (3, 4), (4, 2), (2, 1), (0, 0)], (1, 1)⟩ : SearchState) (by decide)).trans
(tm_fail 5 (solveKnightTour 5 17) 1 1 2 1 3 2 9 [(1, 2), (-1, 2), (-2, 1), (-2, -1), (-1, -2), (1, -2), (2, -1)]
  (⟨[[0, 5, -1, -1, -1], [-1, 8, -1, 4, -1], [-1, 1, 6, -1, -1], [7, -1, -1, -1, 3], [-1, -1, 2, -1, -1]], [(1, 1), (3, 0), (2, 2), (0, 1), (1, 3), (3, 4), (4, 2), (2, 1), (0, 0)], (1, 1)⟩ : SearchState) (⟨[[0, 5, -1, -1, -1], [-1, 8, -1, 4, -1], [-1, 1, 6, -1, -1], [7, -1, 9, -1, 3], [-1, -1, 2, -1, -1]], [(3, 2), (1, 1), (3, 0), (2, 2), (0, 1), (1, 3), (3, 4), (4, 2), (2, 1), (0, 0)], (3, 2)⟩ : SearchState) (⟨[[0, 5, -1, -1, -1], [-1, 8, -1, 4, -1], [-1, 1, 6, -1, -1], [7, -1, 9, -1, 3], [-1, -1, 2, -1, -1]], [(3, 2), (1, 1), (3, 0), (2, 2), (0, 1), (1, 3), (3, 4), (4, 2), (2, 1), (0, 0)], (4, 0)⟩ : SearchState) (⟨[[0, 5, -1, -1, -1], [-1, 8, -1, 4, -1], [-1, 1, 6, -1, -1], [7, -1, -1, -1, 3], [-1, -1, 2, -1, -1]], [(1, 1), (3, 0), (2, 2), (0, 1), (1, 3), (3, 4), (4, 2), (2, 1), (0, 0)], (4, 0)⟩ : SearchState)
  (by decide) (by decide) (by decide) (by decide) run5_node_038 (by decide))).trans
(tm_fail 5 (solveKnightTour 5 17) 1 1 1 2 2 3 9 [(-1, 2), (-2, 1), (-2, -1), (-1, -2), (1, -2), (2, -1)]
  (⟨[[0, 5, -1, -1, -1], [-1, 8, -1, 4, -1], [-1, 1, 6, -1, -1], [7, -1, -1, -1, 3], [-1, -1, 2, -1, -1]], [(1, 1), (3, 0), (2, 2), (0, 1), (1, 3), (3, 4), (4, 2), (2, 1), (0, 0)], (4, 0)⟩ : SearchState) (⟨[[0, 5, -1, -1, -1], [-1, 8, -1, 4, -1], [-1, 1, 6, 9, -1], [7, -1, -1, -1, 3], [-1, -1, 2, -1, -1]], [(2, 3), (1, 1), (3, 0), (2, 2), (0, 1), (1, 3), (3, 4), (4, 2), (2, 1), (0, 0)], (2, 3)⟩ : SearchState) (⟨[[0, 5, -1, -1, -1], [-1, 8, -1, 4, -1], [-1, 1, 6, 9, -1], [7, -1, -1, -1, 3], [-1, -1, 2, -1, -1]], [(2, 3), (1, 1), (3, 0), (2, 2), (0, 1), (1, 3), (3, 4), (4, 2), (2, 1), (0, 0)], (0, 4)⟩ : SearchState) (⟨[[0, 5, -1, -1, -1], [-1, 8, -1, 4, -1], [-1, 1, 6, -1, -1], [7, -1, -1, -1, 3], [-1, -1, 2, -1, -1]], [(1, 1), (3, 0), (2, 2), (0, 1), (1, 3), (3, 4), (4, 2), (2, 1), (0, 0)], (0, 4)⟩ : SearchState)
  (by decide) (by decide) (by decide) (by decide) run5_node_039 (by decide))).trans
(tm_win 5 (solveKnightTour 5 17) 1 1 (-1) 2 0 3 9 [(-2, 1), (-2, -1), (-1, -2), (1, -2), (2, -1)]
  (⟨[[0, 5, -1, -1, -1], [-1, 8, -1, 4, -1], [-1, 1, 6, -1, -1], [7, -1, -1, -1, 3], [-1, -1, 2, -1, -1]], [(1, 1), (3, 0), (2, 2), (0, 1), (1, 3), (3, 4), (4, 2), (2, 1), (0, 0)], (0, 4)⟩ : SearchState) (⟨[[0, 5, -1, 9, -1], [-1, 8, -1, 4, -1], [-1, 1, 6, -1, -1], [7, -1, -1, -1, 3], [-1, -1, 2, -1, -1]], [(0, 3), (1, 1), (3, 0), (2, 2), (0, 1), (1, 3), (3, 4), (4, 2), (2, 1), (0, 0)], (0, 3)⟩ : SearchState) (⟨[[0, 5, 14, 9, 20], [13, 8, 19, 4, 15], [18, 1, 6, 21, 10], [7, 12, 23, 16, 3], [24, 17, 2, 11, 22]], [(4, 0), (3, 2), (4, 4), (2, 3), (0, 4), (1, 2), (2, 0), (4, 1), (3, 3), (1, 4), (0, 2), (1, 0), (3, 1), (4, 3), (2, 4), (0, 3), (1, 1), (3, 0), (2, 2), (0, 1), (1, 3), (3, 4), (4, 2), (2, 1), (0, 0)], (4, 0)⟩ : SearchState)
  (by decide) (by decide) (by decide) (by decide) run5_node_040))

theorem run5_node_036 :
    solveKnightTour 5 19 3 0 8 (⟨[[0, 5, -1, -1, -1], [-1, -1, -1, 4, -1], [-1, 1, 6, -1, -1], [7, -1, -1, -1, 3], [-1, -1, 2, -1, -1]], [(3, 0), (2, 2), (0, 1), (1, 3), (3, 4), (4, 2), (2, 1), (0, 0)], (3, 0)⟩ : SearchState) = some (true, (⟨[[0, 5, 14, 9, 20], [13, 8, 19, 4, 15], [18, 1, 6, 21, 10], [7, 12, 23, 16, 3], [24, 17, 2, 11, 22]], [(4, 0), (3, 2), (4, 4), (2, 3), (0, 4), (1, 2), (2, 0), (4, 1), (3, 3), (1, 4), (0, 2), (1, 0), (3, 1), (4, 3), (2, 4), (0, 3), (1, 1), (3, 0), (2, 2), (0, 1), (1, 3), (3, 4), (4, 2), (2, 1), (0, 0)], (4, 0)⟩ : SearchState)) :=
(((((solve_succ 5 18 3 0 8 (⟨[[0, 5, -1, -1, -1], [-1, -1, -1, 4, -1], [-1, 1, 6, -1, -1], [7, -1, -1, -1, 3], [-1, -1, 2, -1, -1]], [(3, 0), (2, 2), (0, 1), (1, 3), (3, 4), (4, 2), (2, 1), (0, 0)], (3, 0)⟩ : SearchState) (by decide)).trans
(tm_skip 5 (solveKnightTour 5 18) 3 0 2 1 5 1 8 [(1, 2), (-1, 2), (-2, 1), (-2, -1), (-1, -2), (1, -2), (2, -1)]
  (⟨[[0, 5, -1, -1, -1], [-1, -1, -1, 4, -1], [-1, 1, 6, -1, -1], [7, -1, -1, -1, 3], [-1, -1, 2, -1, -1]], [(3, 0), (2, 2), (0, 1), (1, 3), (3, 4), (4, 2), (2, 1), (0, 0)], (3, 0)⟩ : SearchState) (by decide) (by decide) (by decide))).trans
(tm_skip 5 (solveKnightTour 5 18) 3 0 1 2 4 2 8 [(-1, 2), (-2, 1), (-2, -1), (-1, -2), (1, -2), (2, -1)]
  (⟨[[0, 5, -1, -1, -1], [-1, -1, -1, 4, -1], [-1, 1, 6, -1, -1], [7, -1, -1, -1, 3], [-1, -1, 2, -1, -1]], [(3, 0), (2, 2), (0, 1), (1, 3), (3, 4), (4, 2), (2, 1), (0, 0)], (3, 0)⟩ : SearchState) (by decide) (by decide) (by decide))).trans
(tm_skip 5 (solveKnightTour 5 18) 3 0 (-1) 2 2 2 8 [(-2, 1), (-2, -1), (-1, -2), (1, -2), (2, -1)]
  (⟨[[0, 5, -1, -1, -1], [-1, -1, -1, 4, -1], [-1, 1, 6, -1, -1], [7, -1, -1, -1, 3], [-1, -1, 2, -1, -1]], [(3, 0), (2, 2), (0, 1), (1, 3), (3, 4), (4, 2), (2, 1), (0, 0)], (3, 0)⟩ : SearchState) (by decide) (by decide) (by decide))).trans
(tm_win 5 (solveKnightTour 5 18) 3 0 (-2) 1 1 1 8 [(-2, -1), (-1, -2), (1, -2), (2, -1)]
  (⟨[[0, 5, -1, -1, -1], [-1, -1, -1, 4, -1], [-1, 1, 6, -1, -1], [7, -1, -1, -1, 3], [-1, -1, 2, -1, -1]], [(3, 0), (2, 2), (0, 1), (1, 3), (3, 4), (4, 2), (2, 1), (0, 0)], (3, 0)⟩ : SearchState) (⟨[[0, 5, -1, -1, -1], [-1, 8, -1, 4, -1], [-1, 1, 6, -1, -1], [7, -1, -1, -1, 3], [-1, -1, 2, -1, -1]], [(1, 1), (3, 0), (2, 2), (0, 1), (1, 3), (3, 4), (4, 2), (2, 1), (0, 0)], (1, 1)⟩ : SearchState) (⟨[[0, 5, 14, 9, 20], [13, 8, 19, 4, 15], [18, 1, 6, 21, 10], [7, 12, 23, 16, 3], [24, 17, 2, 11, 22]], [(4, 0), (3, 2), (4, 4), (2, 3), (0, 4), (1, 2), (2, 0), (4, 1), (3, 3), (1, 4), (0, 2), (1, 0), (3, 1), (4, 3), (2, 4), (0, 3), (1, 1), (3, 0), (2, 2), (0, 1), (1, 3), (3, 4), (4, 2), (2, 1), (0, 0)], (4, 0)⟩ : SearchState)
  (by decide) (by decide) (by decide) (by decide) run5_node_037))

theorem run5_node_007 :
    solveKnightTour 5 20 2 2 7 (⟨[[0, 5, -1, -1, -1], [-1, -1, -1, 4, -1], [-1, 1, 6, -1, -1], [-1, -1, -1, -1, 3], [-1, -1, 2, -1, -1]], [(2, 2), (0, 1), (1, 3), (3, 4), (4, 2), (2, 1), (0, 0)], (2, 2)⟩ : SearchState) = some (true, (⟨[[0, 5, 14, 9, 20], [13, 8, 19, 4, 15], [18, 1, 6, 21, 10], [7, 12, 23, 16, 3], [24, 17, 2, 11, 22]], [(4, 0), (3, 2), (4, 4), (2, 3), (0, 4), (1, 2), (2, 0), (4, 1), (3, 3), (1, 4), (0, 2), (1, 0), (3, 1), (4, 3), (2, 4), (0, 3), (1, 1), (3, 0), (2, 2), (0, 1), (1, 3), (3, 4), (4, 2), (2, 1), (0, 0)], (4, 0)⟩ : SearchState)) :=
((((((((solve_succ 5 19 2 2 7 (⟨[[0, 5, -1, -1, -1], [-1, -1, -1, 4, -1], [-1, 1, 6, -1, -1], [-1, -1, -1, -1, 3], [-1, -1, 2, -1, -1]], [(2, 2), (0, 1), (1, 3), (3, 4), (4, 2), (2, 1), (0, 0)], (2, 2)⟩ : SearchState) (by decide)).trans
(tm_fail 5 (solveKnightTour 5 19) 2 2 2 1 4 3 7 [(1, 2), (-1, 2), (-2, 1), (-2, -1), (-1, -2), (1, -2), (2, -1)]
  (⟨[[0, 5, -1, -1, -1], [-1, -1, -1, 4, -1], [-1, 1, 6, -1, -1], [-1, -1, -1, -1, 3], [-1, -1, 2, -1, -1]], [(2, 2), (0, 1), (1, 3), (3, 4), (4, 2), (2, 1), (0, 0)], (2, 2)⟩ : SearchState) (⟨[[0, 5, -1, -1, -1], [-1, -1, -1, 4, -1], [-1, 1, 6, -1, -1], [-1, -1, -1, -1, 3], [-1, -1, 2, 7, -1]], [(4, 3), (2, 2), (0, 1), (1, 3), (3, 4), (4, 2), (2, 1), (0, 0)], (4, 3)⟩ : SearchState) (⟨[[0, 5, -1, -1, -1], [-1, -1, -1, 4, -1], [-1, 1, 6, -1, -1], [-1, -1, -1, -1, 3], [-1, -1, 2, 7, -1]], [(4, 3), (2, 2), (0, 1), (1, 3), (3, 4), (4, 2), (2, 1), (0, 0)], (3, 0)⟩ : SearchState) (⟨[[0, 5, -1, -1, -1], [-1, -1, -1, 4, -1], [-1, 1, 6, -1, -1], [-1, -1, -1, -1, 3], [-1, -1, 2, -1, -1]], [(2, 2), (0, 1), (1, 3), (3, 4), (4, 2), (2, 1), (0, 0)], (3, 0)⟩ : SearchState)
  (by decide) (by decide) (by decide) (by decide) run5_node_008 (by decide))).trans
(tm_skip 5 (solveKnightTour 5 19) 2 2 1 2 3 4 7 [(-1, 2), (-2, 1), (-2, -1), (-1, -2), (1, -2), (2, -1)]
  (⟨[[0, 5, -1, -1, -1], [-1, -1, -1, 4, -1], [-1, 1, 6, -1, -1], [-1, -1, -1, -1, 3], [-1, -1, 2, -1, -1]], [(2, 2), (0, 1), (1, 3), (3, 4), (4, 2), (2, 1), (0, 0)], (3, 0)⟩ : SearchState) (by decide) (by decide) (by decide))).trans
(tm_fail 5 (solveKnightTour 5 19) 2 2 (-1) 2 1 4 7 [(-2, 1), (-2, -1), (-1, -2), (1, -2), (2, -1)]
  (⟨[[0, 5, -1, -1, -1], [-1, -1, -1, 4, -1], [-1, 1, 6, -1, -1], [-1, -1, -1, -1, 3], [-1, -1, 2, -1, -1]], [(2, 2), (0, 1), (1, 3), (3, 4), (4, 2), (2, 1), (0, 0)], (3, 0)⟩ : SearchState) (⟨[[0, 5, -1, -1, -1], [-1, -1, -1, 4, 7], [-1, 1, 6, -1, -1], [-1, -1, -1, -1, 3], [-1, -1, 2, -1, -1]], [(1, 4), (2, 2), (0, 1), (1, 3), (3, 4), (4, 2), (2, 1), (0, 0)], (1, 4)⟩ : SearchState) (⟨[[0, 5, -1, -1, -1], [-1, -1, -1, 4, 7], [-1, 1, 6, -1, -1], [-1, -1, -1, -1, 3], [-1, -1, 2, -1, -1]], [(1, 4), (2, 2), (0, 1), (1, 3), (3, 4), (4, 2), (2, 1), (0, 0)], (3, 0)⟩ : SearchState) (⟨[[0, 5, -1, -1, -1], [-1, -1, -1, 4, -1], [-1, 1, 6, -1, -1], [-1, -1, -1, -1, 3], [-1, -1, 2, -1, -1]], [(2, 2), (0, 1), (1, 3), (3, 4), (4, 2), (2, 1), (0, 0)], (3, 0)⟩ : SearchState)
  (by decide) (by decide) (by decide) (by decide) run5_node_017 (by decide))).trans
(tm_fail 5 (solveKnightTour 5 19) 2 2 (-2) 1 0 3 7 [(-2, -1), (-1, -2), (1, -2), (2, -1)]
  (⟨[[0, 5, -1, -1, -1], [-1, -1, -1, 4, -1], [-1, 1, 6, -1, -1], [-1, -1, -1, -1, 3], [-1, -1, 2, -1, -1]], [(2, 2), (0, 1), (1, 3), (3, 4), (4, 2), (2, 1), (0, 0)], (3, 0)⟩ : SearchState) (⟨[[0, 5, -1, 7, -1], [-1, -1, -1, 4, -1], [-1, 1, 6, -1, -1], [-1, -1, -1, -1, 3], [-1, -1, 2, -1, -1]], [(0, 3), (2, 2), (0, 1), (1, 3), (3, 4), (4, 2), (2, 1), (0, 0)], (0, 3)⟩ : SearchState) (⟨[[0, 5, -1, 7, -1], [-1, -1, -1, 4, -1], [-1, 1, 6, -1, -1], [-1, -1, -1, -1, 3], [-1, -1, 2, -1, -1]], [(0, 3), (2, 2), (0, 1), (1, 3), (3, 4), (4, 2), (2, 1), (0, 0)], (3, 0)⟩ : SearchState) (⟨[[0, 5, -1, -1, -1], [-1, -1, -1, 4, -1], [-1, 1, 6, -1, -1], [-1, -1, -1, -1, 3], [-1, -1, 2, -1, -1]], [(2, 2), (0, 1), (1, 3), (3, 4), (4, 2), (2, 1), (0, 0)], (3, 0)⟩ : SearchState)
  (by decide) (by decide) (by decide) (by decide) run5_node_022 (by decide))).trans
(tm_skip 5 (solveKnightTour 5 19) 2 2 (-2) (-1) 0 1 7 [(-1, -2), (1, -2), (2, -1)]
  (⟨[[0, 5, -1, -1, -1], [-1, -1, -1, 4, -1], [-1, 1, 6, -1, -1], [-1, -1, -1, -1, 3], [-1, -1, 2, -1, -1]], [(2, 2), (0, 1), (1, 3), (3, 4), (4, 2), (2, 1), (0, 0)], (3, 0)⟩ : SearchState) (by decide) (by decide) (by decide))).trans
(tm_fail 5 (solveKnightTour 5 19) 2 2 (-1) (-2) 1 0 7 [(1, -2), (2, -1)]
  (⟨[[0, 5, -1, -1, -1], [-1, -1, -1, 4, -1], [-1, 1, 6, -1, -1], [-1, -1, -1, -1, 3], [-1, -1, 2, -1, -1]], [(2, 2), (0, 1), (1, 3), (3, 4), (4, 2), (2, 1), (0, 0)], (3, 0)⟩ : SearchState) (⟨[[0, 5, -1, -1, -1], [7, -1, -1, 4, -1], [-1, 1, 6, -1, -1], [-1, -1, -1, -1, 3], [-1, -1, 2, -1, -1]], [(1, 0), (2, 2), (0, 1), (1, 3), (3, 4), (4, 2), (2, 1), (0, 0)], (1, 0)⟩ : SearchState) (⟨[[0, 5, -1, -1, -1], [7, -1, -1, 4, -1], [-1, 1, 6, -1, -1], [-1, -1, -1, -1, 3], [-1, -1, 2, -1, -1]], [(1, 0), (2, 2), (0, 1), (1, 3), (3, 4), (4, 2), (2, 1), (0, 0)], (3, 0)⟩ : SearchState) (⟨[[0, 5, -1, -1, -1], [-1, -1, -1, 4, -1], [-1, 1, 6, -1, -1], [-1, -1, -1, -1, 3], [-1, -1, 2, -1, -1]], [(2, 2), (0, 1), (1, 3), (3, 4), (4, 2), (2, 1), (0, 0)], (3, 0)⟩ : SearchState)
  (by decide) (by decide) (by decide) (by decide) run5_node_031 (by decide))).trans
(tm_win 5 (solveKnightTour 5 19) 2 2 1 (-2) 3 0 7 [(2, -1)]
  (⟨[[0, 5, -1, -1, -1], [-1, -1, -1, 4, -1], [-1, 1, 6, -1, -1], [-1, -1, -1, -1, 3], [-1, -1, 2, -1, -1]], [(2, 2), (0, 1), (1, 3), (3, 4), (4, 2), (2, 1), (0, 0)], (3, 0)⟩ : SearchState) (⟨[[0, 5, -1, -1, -1], [-1, -1, -1, 4, -1], [-1, 1, 6, -1, -1], [7, -1, -1, -1, 3], [-1, -1, 2, -1, -1]], [(3, 0), (2, 2), (0, 1), (1, 3), (3, 4), (4, 2), (2, 1), (0, 0)], (3, 0)⟩ : SearchState) (⟨[[0, 5, 14, 9, 20], [13, 8, 19, 4, 15], [18, 1, 6, 21, 10], [7, 12, 23, 16, 3], [24, 17, 2, 11, 22]], [(4, 0), (3, 2), (4, 4), (2, 3), (0, 4), (1, 2), (2, 0), (4, 1), (3, 3), (1, 4), (0, 2), (1, 0), (3, 1), (4, 3), (2, 4), (0, 3), (1, 1), (3, 0), (2, 2), (0, 1), (1, 3), (3, 4), (4, 2), (2, 1), (0, 0)], (4, 0)⟩ : SearchState)
  (by decide) (by decide) (by decide) (by decide) run5_node_036))

theorem run5_node_006 :
    solveKnightTour 5 21 0 1 6 (⟨[[0, 5, -1, -1, -1], [-1, -1, -1, 4, -1], [-1, 1, -1, -1, -1], [-1, -1, -1, -1, 3], [-1, -1, 2, -1, -1]], [(0, 1), (1, 3), (3, 4), (4, 2), (2, 1), (0, 0)], (0, 1)⟩ : SearchState) = some (true, (⟨[[0, 5, 14, 9, 20], [13, 8, 19, 4, 15], [18, 1, 6, 21, 10], [7, 12, 23, 16, 3], [24, 17, 2, 11, 22]], [(4, 0), (3, 2), (4, 4), (2, 3), (0, 4), (1, 2), (2, 0), (4, 1), (3, 3), (1, 4), (0, 2), (1, 0), (3, 1), (4, 3), (2, 4), (0, 3), (1, 1), (3, 0), (2, 2), (0, 1), (1, 3), (3, 4), (4, 2), (2, 1), (0, 0)], (4, 0)⟩ : SearchState)) :=
((solve_succ 5 20 0 1 6 (⟨[[0, 5, -1, -1, -1], [-1, -1, -1, 4, -1], [-1, 1, -1, -1, -1], [-1, -1, -1, -1, 3], [-1, -1, 2, -1, -1]], [(0, 1), (1, 3), (3, 4), (4, 2), (2, 1), (0, 0)], (0, 1)⟩ : SearchState) (by decide)).trans
(tm_win 5 (solveKnightTour 5 20) 0 1 2 1 2 2 6 [(1, 2), (-1, 2), (-2, 1), (-2, -1), (-1, -2), (1, -2), (2, -1)]
  (⟨[[0, 5, -1, -1, -1], [-1, -1, -1, 4, -1], [-1, 1, -1, -1, -1], [-1, -1, -1, -1, 3], [-1, -1, 2, -1, -1]], [(0, 1), (1, 3), (3, 4), (4, 2), (2, 1), (0, 0)], (0, 1)⟩ : SearchState) (⟨[[0, 5, -1, -1, -1], [-1, -1, -1, 4, -1], [-1, 1, 6, -1, -1], [-1, -1, -1, -1, 3], [-1, -1, 2, -1, -1]], [(2, 2), (0, 1), (1, 3), (3, 4), (4, 2), (2, 1), (0, 0)], (2, 2)⟩ : SearchState) (⟨[[0, 5, 14, 9, 20], [13, 8, 19, 4, 15], [18, 1, 6, 21, 10], [7, 12, 23, 16, 3], [24, 17, 2, 11, 22]], [(4, 0), (3, 2), (4, 4), (2, 3), (0, 4), (1, 2), (2, 0), (4, 1), (3, 3), (1, 4), (0, 2), (1, 0), (3, 1), (4, 3), (2, 4), (0, 3), (1, 1), (3, 0), (2, 2), (0, 1), (1, 3), (3, 4), (4, 2), (2, 1), (0, 0)], (4, 0)⟩ : SearchState)
  (by decide) (by decide) (by decide) (by decide) run5_node_007))

theorem run5_node_005 :
    solveKnightTour 5 22 1 3 5 (⟨[[0, -1, -1, -1, -1], [-1, -1, -1, 4, -1], [-1, 1, -1, -1, -1], [-1, -1, -1, -1, 3], [-1, -1, 2, -1, -1]], [(1, 3), (3, 4), (4, 2), (2, 1), (0, 0)], (1, 3)⟩ : SearchState) = some (true, (⟨[[0, 5, 14, 9, 20], [13, 8, 19, 4, 15], [18, 1, 6, 21, 10], [7, 12, 23, 16, 3], [24, 17, 2, 11, 22]], [(4, 0), (3, 2), (4, 4), (2, 3), (0, 4), (1, 2), (2, 0), (4, 1), (3, 3), (1, 4), (0, 2), (1, 0), (3, 1), (4, 3), (2, 4), (0, 3), (1, 1), (3, 0), (2, 2), (0, 1), (1, 3), (3, 4), (4, 2), (2, 1), (0, 0)], (4, 0)⟩ : SearchState)) :=
(((((((solve_succ 5 21 1 3 5 (⟨[[0, -1, -1, -1, -1], [-1, -1, -1, 4, -1], [-1, 1, -1, -1, -1], [-1, -1, -1, -1, 3], [-1, -1, 2, -1, -1]], [(1, 3), (3, 4), (4, 2), (2, 1), (0, 0)], (1, 3)⟩ : SearchState) (by decide)).trans
(tm_skip 5 (solveKnightTour 5 21) 1 3 2 1 3 4 5 [(1, 2), (-1, 2), (-2, 1), (-2, -1), (-1, -2), (1, -2), (2, -1)]
  (⟨[[0, -1, -1, -1, -1], [-1, -1, -1, 4, -1], [-1, 1, -1, -1, -1], [-1, -1, -1, -1, 3], [-1, -1, 2, -1, -1]], [(1, 3), (3, 4), (4, 2), (2, 1), (0, 0)], (1, 3)⟩ : SearchState) (by decide) (by decide) (by decide))).trans
(tm_skip 5 (solveKnightTour 5 21) 1 3 1 2 2 5 5 [(-1, 2), (-2, 1), (-2, -1), (-1, -2), (1, -2), (2, -1)]
  (⟨[[0, -1, -1, -1, -1], [-1, -1, -1, 4, -1], [-1, 1, -1, -1, -1], [-1, -1, -1, -1, 3], [-1, -1, 2, -1, -1]], [(1, 3), (3, 4), (4, 2), (2, 1), (0, 0)], (1, 3)⟩ : SearchState) (by decide) (by decide) (by decide))).trans
(tm_skip 5 (solveKnightTour 5 21) 1 3 (-1) 2 0 5 5 [(-2, 1), (-2, -1), (-1, -2), (1, -2), (2, -1)]
  (⟨[[0, -1, -1, -1, -1], [-1, -1, -1, 4, -1], [-1, 1, -1, -1, -1], [-1, -1, -1, -1, 3], [-1, -1, 2, -1, -1]], [(1, 3), (3, 4), (4, 2), (2, 1), (0, 0)], (1, 3)⟩ : SearchState) (by decide) (by decide) (by decide))).trans
(tm_skip 5 (solveKnightTour 5 21) 1 3 (-2) 1 (-1) 4 5 [(-2, -1), (-1, -2), (1, -2), (2, -1)]
  (⟨[[0, -1, -1, -1, -1], [-1, -1, -1, 4, -1], [-1, 1, -1, -1, -1], [-1, -1, -1, -1, 3], [-1, -1, 2, -1, -1]], [(1, 3), (3, 4), (4, 2), (2, 1), (0, 0)], (1, 3)⟩ : SearchState) (by decide) (by decide) (by decide))).trans
(tm_skip 5 (solveKnightTour 5 21) 1 3 (-2) (-1) (-1) 2 5 [(-1, -2), (1, -2), (2, -1)]
  (⟨[[0, -1, -1, -1, -1], [-1, -1, -1, 4, -1], [-1, 1, -1, -1, -1], [-1, -1, -1, -1, 3], [-1, -1, 2, -1, -1]], [(1, 3), (3, 4), (4, 2), (2, 1), (0, 0)], (1, 3)⟩ : SearchState) (by decide) (by decide) (by decide))).trans
(tm_win 5 (solveKnightTour 5 21) 1 3 (-1) (-2) 0 1 5 [(1, -2), (2, -1)]
  (⟨[[0, -1, -1, -1, -1], [-1, -1, -1, 4, -1], [-1, 1, -1, -1, -1], [-1, -1, -1, -1, 3], [-1, -1, 2, -1, -1]], [(1, 3), (3, 4), (4, 2), (2, 1), (0, 0)], (1, 3)⟩ : SearchState) (⟨[[0, 5, -1, -1, -1], [-1, -1, -1, 4, -1], [-1, 1, -1, -1, -1], [-1, -1, -1, -1, 3], [-1, -1, 2, -1, -1]], [(0, 1), (1, 3), (3, 4), (4, 2), (2, 1), (0, 0)], (0, 1)⟩ : SearchState) (⟨[[0, 5, 14, 9, 20], [13, 8, 19, 4, 15], [18, 1, 6, 21, 10], [7, 12, 23, 16, 3], [24, 17, 2, 11, 22]], [(4, 0), (3, 2), (4, 4), (2, 3), (0, 4), (1, 2), (2, 0), (4, 1), (3, 3), (1, 4), (0, 2), (1, 0), (3, 1), (4, 3), (2, 4), (0, 3), (1, 1), (3, 0), (2, 2), (0, 1), (1, 3), (3, 4), (4, 2), (2, 1), (0, 0)], (4, 0)⟩ : SearchState)
  (by decide) (by decide) (by decide) (by decide) run5_node_006))

theorem run5_node_004 :
    solveKnightTour 5 23 3 4 4 (⟨[[0, -1, -1, -1, -1], [-1, -1, -1, -1, -1], [-1, 1, -1, -1, -1], [-1, -1, -1, -1, 3], [-1, -1, 2, -1, -1]], [(3, 4), (4, 2), (2, 1), (0, 0)], (3, 4)⟩ : SearchState) = some (true, (⟨[[0, 5, 14, 9, 20], [13, 8, 19, 4, 15], [18, 1, 6, 21, 10], [7, 12, 23, 16, 3], [24, 17, 2, 11, 22]], [(4, 0), (3, 2), (4, 4), (2, 3), (0, 4), (1, 2), (2, 0), (4, 1), (3, 3), (1, 4), (0, 2), (1, 0), (3, 1), (4, 3), (2, 4), (0, 3), (1, 1), (3, 0), (2, 2), (0, 1), (1, 3), (3, 4), (4, 2), (2, 1), (0, 0)], (4, 0)⟩ : SearchState)) :=
((((((solve_succ 5 22 3 4 4 (⟨[[0, -1, -1, -1, -1], [-1, -1, -1, -1, -1], [-1, 1, -1, -1, -1], [-1, -1, -1, -1, 3], [-1, -1, 2, -1, -1]], [(3, 4), (4, 2), (2, 1), (0, 0)], (3, 4)⟩ : SearchState) (by decide)).trans
(tm_skip 5 (solveKnightTour 5 22) 3 4 2 1 5 5 4 [(1, 2), (-1, 2), (-2, 1), (-2, -1), (-1, -2), (1, -2), (2, -1)]
  (⟨[[0, -1, -1, -1, -1], [-1, -1, -1, -1, -1], [-1, 1, -1, -1, -1], [-1, -1, -1, -1, 3], [-1, -1, 2, -1, -1]], [(3, 4), (4, 2), (2, 1), (0, 0)], (3, 4)⟩ : SearchState) (by decide) (by decide) (by decide))).trans
(tm_skip 5 (solveKnightTour 5 22) 3 4 1 2 4 6 4 [(-1, 2), (-2, 1), (-2, -1), (-1, -2), (1, -2), (2, -1)]
  (⟨[[0, -1, -1, -1, -1], [-1, -1, -1, -1, -1], [-1, 1, -1, -1, -1], [-1, -1, -1, -1, 3], [-1, -1, 2, -1, -1]], [(3, 4), (4, 2), (2, 1), (0, 0)], (3, 4)⟩ : SearchState) (by decide) (by decide) (by decide))).trans
(tm_skip 5 (solveKnightTour 5 22) 3 4 (-1) 2 2 6 4 [(-2, 1), (-2, -1), (-1, -2), (1, -2), (2, -1)]
  (⟨[[0, -1, -1, -1, -1], [-1, -1, -1, -1, -1], [-1, 1, -1, -1, -1], [-1, -1, -1, -1, 3], [-1, -1, 2, -1, -1]], [(3, 4), (4, 2), (2, 1), (0, 0)], (3, 4)⟩ : SearchState) (by decide) (by decide) (by decide))).trans
(tm_skip 5 (solveKnightTour 5 22) 3 4 (-2) 1 1 5 4 [(-2, -1), (-1, -2), (1, -2), (2, -1)]
  (⟨[[0, -1, -1, -1, -1], [-1, -1, -1, -1, -1], [-1, 1, -1, -1, -1], [-1, -1, -1, -1, 3], [-1, -1, 2, -1, -1]], [(3, 4), (4, 2), (2, 1), (0, 0)], (3, 4)⟩ : SearchState) (by decide) (by decide) (by decide))).trans
(tm_win 5 (solveKnightTour 5 22) 3 4 (-2) (-1) 1 3 4 [(-1, -2), (1, -2), (2, -1)]
  (⟨[[0, -1, -1, -1, -1], [-1, -1, -1, -1, -1], [-1, 1, -1, -1, -1], [-1, -1, -1, -1, 3], [-1, -1, 2, -1, -1]], [(3, 4), (4, 2), (2, 1), (0, 0)], (3, 4)⟩ : SearchState) (⟨[[0, -1, -1, -1, -1], [-1, -1, -1, 4, -1], [-1, 1, -1, -1, -1], [-1, -1, -1, -1, 3], [-1, -1, 2, -1, -1]], [(1, 3), (3, 4), (4, 2), (2, 1), (0, 0)], (1, 3)⟩ : SearchState) (⟨[[0, 5, 14, 9, 20], [13, 8, 19, 4, 15], [18, 1, 6, 21, 10], [7, 12, 23, 16, 3], [24, 17, 2, 11, 22]], [(4, 0), (3, 2), (4, 4), (2, 3), (0, 4), (1, 2), (2, 0), (4, 1), (3, 3), (1, 4), (0, 2), (1, 0), (3, 1), (4, 3), (2, 4), (0, 3), (1, 1), (3, 0), (2, 2), (0, 1), (1, 3), (3, 4), (4, 2), (2, 1), (0, 0)], (4, 0)⟩ : SearchState)
  (by decide) (by decide) (by decide) (by decide) run5_node_005))

theorem run5_node_003 :
    solveKnightTour 5 24 4 2 3 (⟨[[0, -1, -1, -1, -1], [-1, -1, -1, -1, -1], [-1, 1, -1, -1, -1], [-1, -1, -1, -1, -1], [-1, -1, 2, -1, -1]], [(4, 2), (2, 1), (0, 0)], (4, 2)⟩ : SearchState) = some (true, (⟨[[0, 5, 14, 9, 20], [13, 8, 19, 4, 15], [18, 1, 6, 21, 10], [7, 12, 23, 16, 3], [24, 17, 2, 11, 22]], [(4, 0), (3, 2), (4, 4), (2, 3), (0, 4), (1, 2), (2, 0), (4, 1), (3, 3), (1, 4), (0, 2), (1, 0), (3, 1), (4, 3), (2, 4), (0, 3), (1, 1), (3, 0), (2, 2), (0, 1), (1, 3), (3, 4), (4, 2), (2, 1), (0, 0)], (4, 0)⟩ : SearchState)) :=
((((solve_succ 5 23 4 2 3 (⟨[[0, -1, -1, -1, -1], [-1, -1, -1, -1, -1], [-1, 1, -1, -1, -1], [-1, -1, -1, -1, -1], [-1, -1, 2, -1, -1]], [(4, 2), (2, 1), (0, 0)], (4, 2)⟩ : SearchState) (by decide)).trans
(tm_skip 5 (solveKnightTour 5 23) 4 2 2 1 6 3 3 [(1, 2), (-1, 2), (-2, 1), (-2, -1), (-1, -2), (1, -2), (2, -1)]
  (⟨[[0, -1, -1, -1, -1], [-1, -1, -1, -1, -1], [-1, 1, -1, -1, -1], [-1, -1, -1, -1, -1], [-1, -1, 2, -1, -1]], [(4, 2), (2, 1), (0, 0)], (4, 2)⟩ : SearchState) (by decide) (by decide) (by decide))).trans
(tm_skip 5 (solveKnightTour 5 23) 4 2 1 2 5 4 3 [(-1, 2), (-2, 1), (-2, -1), (-1, -2), (1, -2), (2, -1)]
  (⟨[[0, -1, -1, -1, -1], [-1, -1, -1, -1, -1], [-1, 1, -1, -1, -1], [-1, -1, -1, -1, -1], [-1, -1, 2, -1, -1]], [(4, 2), (2, 1), (0, 0)], (4, 2)⟩ : SearchState) (by decide) (by decide) (by decide))).trans
(tm_win 5 (solveKnightTour 5 23) 4 2 (-1) 2 3 4 3 [(-2, 1), (-2, -1), (-1, -2), (1, -2), (2, -1)]
  (⟨[[0, -1, -1, -1, -1], [-1, -1, -1, -1, -1], [-1, 1, -1, -1, -1], [-1, -1, -1, -1, -1], [-1, -1, 2, -1, -1]], [(4, 2), (2, 1), (0, 0)], (4, 2)⟩ : SearchState) (⟨[[0, -1, -1, -1, -1], [-1, -1, -1, -1, -1], [-1, 1, -1, -1, -1], [-1, -1, -1, -1, 3], [-1, -1, 2, -1, -1]], [(3, 4), (4, 2), (2, 1), (0, 0)], (3, 4)⟩ : SearchState) (⟨[[0, 5, 14, 9, 20], [13, 8, 19, 4, 15], [18, 1, 6, 21, 10], [7, 12, 23, 16, 3], [24, 17, 2, 11, 22]], [(4, 0), (3, 2), (4, 4), (2, 3), (0, 4), (1, 2), (2, 0), (4, 1), (3, 3), (1, 4), (0, 2), (1, 0), (3, 1), (4, 3), (2, 4), (0, 3), (1, 1), (3, 0), (2, 2), (0, 1), (1, 3), (3, 4), (4, 2), (2, 1), (0, 0)], (4, 0)⟩ : SearchState)
  (by decide) (by decide) (by decide) (by decide) run5_node_004))

theorem run5_node_002 :
    solveKnightTour 5 25 2 1 2 (⟨[[0, -1, -1, -1, -1], [-1, -1, -1, -1, -1], [-1, 1, -1, -1, -1], [-1, -1, -1, -1, -1], [-1, -1, -1, -1, -1]], [(2, 1), (0, 0)], (2, 1)⟩ : SearchState) = some (true, (⟨[[0, 5, 14, 9, 20], [13, 8, 19, 4, 15], [18, 1, 6, 21, 10], [7, 12, 23, 16, 3], [24, 17, 2, 11, 22]], [(4, 0), (3, 2), (4, 4), (2, 3), (0, 4), (1, 2), (2, 0), (4, 1), (3, 3), (1, 4), (0, 2), (1, 0), (3, 1), (4, 3), (2, 4), (0, 3), (1, 1), (3, 0), (2, 2), (0, 1), (1, 3), (3, 4), (4, 2), (2, 1), (0, 0)], (4, 0)⟩ : SearchState)) :=
((solve_succ 5 24 2 1 2 (⟨[[0, -1, -1, -1, -1], [-1, -1, -1, -1, -1], [-1, 1, -1, -1, -1], [-1, -1, -1, -1, -1], [-1, -1, -1, -1, -1]], [(2, 1), (0, 0)], (2, 1)⟩ : SearchState) (by decide)).trans
(tm_win 5 (solveKnightTour 5 24) 2 1 2 1 4 2 2 [(1, 2), (-1, 2), (-2, 1), (-2, -1), (-1, -2), (1, -2), (2, -1)]
  (⟨[[0, -1, -1, -1, -1], [-1, -1, -1, -1, -1], [-1, 1, -1, -1, -1], [-1, -1, -1, -1, -1], [-1, -1, -1, -1, -1]], [(2, 1), (0, 0)], (2, 1)⟩ : SearchState) (⟨[[0, -1, -1, -1, -1], [-1, -1, -1, -1, -1], [-1, 1, -1, -1, -1], [-1, -1, -1, -1, -1], [-1, -1, 2, -1, -1]], [(4, 2), (2, 1), (0, 0)], (4, 2)⟩ : SearchState) (⟨[[0, 5, 14, 9, 20], [13, 8, 19, 4, 15], [18, 1, 6, 21, 10], [7, 12, 23, 16, 3], [24, 17, 2, 11, 22]], [(4, 0), (3, 2), (4, 4), (2, 3), (0, 4), (1, 2), (2, 0), (4, 1), (3, 3), (1, 4), (0, 2), (1, 0), (3, 1), (4, 3), (2, 4), (0, 3), (1, 1), (3, 0), (2, 2), (0, 1), (1, 3), (3, 4), (4, 2), (2, 1), (0, 0)], (4, 0)⟩ : SearchState)
  (by decide) (by decide) (by decide) (by decide) run5_node_003))

theorem run5_node_001 :
    solveKnightTour 5 26 0 0 1 (⟨[[0, -1, -1, -1, -1], [-1, -1, -1, -1, -1], [-1, -1, -1, -1, -1], [-1, -1, -1, -1, -1], [-1, -1, -1, -1, -1]], [(0, 0)], (0, 0)⟩ : SearchState) = some (true, (⟨[[0, 5, 14, 9, 20], [13, 8, 19, 4, 15], [18, 1, 6, 21, 10], [7, 12, 23, 16, 3], [24, 17, 2, 11, 22]], [(4, 0), (3, 2), (4, 4), (2, 3), (0, 4), (1, 2), (2, 0), (4, 1), (3, 3), (1, 4), (0, 2), (1, 0), (3, 1), (4, 3), (2, 4), (0, 3), (1, 1), (3, 0), (2, 2), (0, 1), (1, 3), (3, 4), (4, 2), (2, 1), (0, 0)], (4, 0)⟩ : SearchState)) :=
((solve_succ 5 25 0 0 1 (⟨[[0, -1, -1, -1, -1], [-1, -1, -1, -1, -1], [-1, -1, -1, -1, -1], [-1, -1, -1, -1, -1], [-1, -1, -1, -1, -1]], [(0, 0)], (0, 0)⟩ : SearchState) (by decide)).trans
(tm_win 5 (solveKnightTour 5 25) 0 0 2 1 2 1 1 [(1, 2), (-1, 2), (-2, 1), (-2, -1), (-1, -2), (1, -2), (2, -1)]
  (⟨[[0, -1, -1, -1, -1], [-1, -1, -1, -1, -1], [-1, -1, -1, -1, -1], [-1, -1, -1, -1, -1], [-1, -1, -1, -1, -1]], [(0, 0)], (0, 0)⟩ : SearchState) (⟨[[0, -1, -1, -1, -1], [-1, -1, -1, -1, -1], [-1, 1, -1, -1, -1], [-1, -1, -1, -1, -1], [-1, -1, -1, -1, -1]], [(2, 1), (0, 0)], (2, 1)⟩ : SearchState) (⟨[[0, 5, 14, 9, 20], [13, 8, 19, 4, 15], [18, 1, 6, 21, 10], [7, 12, 23, 16, 3], [24, 17, 2, 11, 22]], [(4, 0), (3, 2), (4, 4), (2, 3), (0, 4), (1, 2), (2, 0), (4, 1), (3, 3), (1, 4), (0, 2), (1, 0), (3, 1), (4, 3), (2, 4), (0, 3), (1, 1), (3, 0), (2, 2), (0, 1), (1, 3), (3, 4), (4, 2), (2, 1), (0, 0)], (4, 0)⟩ : SearchState)
  (by decide) (by decide) (by decide) (by decide) run5_node_002))

theorem run5_eq : runSolve 5 = some (true, (⟨[[0, 5, 14, 9, 20], [13, 8, 19, 4, 15], [18, 1, 6, 21, 10], [7, 12, 23, 16, 3], [24, 17, 2, 11, 22]], [(4, 0), (3, 2), (4, 4), (2, 3), (0, 4), (1, 2), (2, 0), (4, 1), (3, 3), (1, 4), (0, 2), (1, 0), (3, 1), (4, 3), (2, 4), (0, 3), (1, 1), (3, 0), (2, 2), (0, 1), (1, 3), (3, 4), (4, 2), (2, 1), (0, 0)], (4, 0)⟩ : SearchState)) := run5_node_001

/-! ### Claims -/

/-- C1: whenever the search succeeds, the recorded tour is a permutation of
all n² board squares, and equivalently the final solution grid assigns each
move index 0..n²−1 to exactly one square. -/
theorem claim1 (n : Nat) (s' : SearchState) (hn : 1 ≤ n)
    (h : runSolve n = some (true, s')) :
    List.Perm (tourPath n s'.solution) (allSquares n) ∧
    ∀ i : Nat, i < n * n → ∃ p, inB n p ∧ gridGet s'.solution p.1 p.2 = (i : Int) ∧
      ∀ q, inB n q → gridGet s'.solution q.1 q.2 = (i : Int) → q = p := by
  have h' : solveKnightTour n (n * n + 1) 0 0 1 (initState n) = some (true, s') := h
  obtain ⟨r, c, hfin⟩ := solve_final n (n * n + 1) 0 0 1 (initState n) s' (initInv n hn) h'
  refine ⟨tourPath_perm n s' r c hfin, ?_⟩
  intro i hi
  obtain ⟨hB, hv, huniq⟩ := sqAt_final n s' r c hfin i hi
  exact ⟨sqAt n s'.solution i, hB, hv, huniq⟩

/-- C1 witness: the hypotheses of `claim1` hold at n = 1 (`runSolve 1`
succeeds immediately), and the recorded tour is a permutation of the board. -/
theorem claim1_witness : List.Perm (tourPath 1 (initState 1).solution) (allSquares 1) :=
  (claim1 1 (initState 1) (by decide) rfl).1

/-- C2: whenever the search succeeds, the recorded tour has length n² and each
pair of consecutive squares differs by one of the 8 knight offsets. -/
theorem claim2 (n : Nat) (s' : SearchState) (hn : 1 ≤ n)
    (h : runSolve n = some (true, s')) :
    (tourPath n s'.solution).length = n * n ∧
    ∀ i : Nat, i + 1 < n * n →
      (((tourPath n s'.solution).getD (i + 1) ((0 : Int), (0 : Int))).1
          - ((tourPath n s'.solution).getD i ((0 : Int), (0 : Int))).1,
        ((tourPath n s'.solution).getD (i + 1) ((0 : Int), (0 : Int))).2
          - ((tourPath n s'.solution).getD i ((0 : Int), (0 : Int))).2) ∈ offsets := by
  have h' : solveKnightTour n (n * n + 1) 0 0 1 (initState n) = some (true, s') := h
  obtain ⟨r, c, hfin⟩ := solve_final n (n * n + 1) 0 0 1 (initState n) s' (initInv n hn) h'
  refine ⟨length_tourPath n s'.solution, ?_⟩
  intro i hi
  rw [tourPath_getD n s'.solution (i + 1) ((0 : Int), (0 : Int)) hi,
    tourPath_getD n s'.solution i ((0 : Int), (0 : Int)) (by omega)]
  obtain ⟨hB1, hv1, _⟩ := sqAt_final n s' r c hfin i (by omega)
  obtain ⟨hB2, hv2, _⟩ := sqAt_final n s' r c hfin (i + 1) hi
  exact hfin.chain i hi _ _ hB1 hB2 hv1 hv2

/-- C2 witness: the hypotheses of `claim2` discharged at n = 5 via `run5_eq`,
instantiated at i = 0: the first two squares of the recorded tour differ by a
knight offset. -/
theorem claim2_witness :
    (((tourPath 5 [[0, 5, 14, 9, 20], [13, 8, 19, 4, 15], [18, 1, 6, 21, 10], [7, 12, 23, 16, 3], [24, 17, 2, 11, 22]]).getD 1 ((0 : Int), (0 : Int))).1
        - ((tourPath 5 [[0, 5, 14, 9, 20], [13, 8, 19, 4, 15], [18, 1, 6, 21, 10], [7, 12, 23, 16, 3], [24, 17, 2, 11, 22]]).getD 0 ((0 : Int), (0 : Int))).1,
      ((tourPath 5 [[0, 5, 14, 9, 20], [13, 8, 19, 4, 15], [18, 1, 6, 21, 10], [7, 12, 23, 16, 3], [24, 17, 2, 11, 22]]).getD 1 ((0 : Int), (0 : Int))).2
        - ((tourPath 5 [[0, 5, 14, 9, 20], [13, 8, 19, 4, 15], [18, 1, 6, 21, 10], [7, 12, 23, 16, 3], [24, 17, 2, 11, 22]]).getD 0 ((0 : Int), (0 : Int))).2) ∈ offsets :=
  (claim2 5 (⟨[[0, 5, 14, 9, 20], [13, 8, 19, 4, 15], [18, 1, 6, 21, 10], [7, 12, 23, 16, 3], [24, 17, 2, 11, 22]], [(4, 0), (3, 2), (4, 4), (2, 3), (0, 4), (1, 2), (2, 0), (4, 1), (3, 3), (1, 4), (0, 2), (1, 0), (3, 1), (4, 3), (2, 4), (0, 3), (1, 1), (3, 0), (2, 2), (0, 1), (1, 3), (3, 4), (4, 2), (2, 1), (0, 0)], (4, 0)⟩ : SearchState)
    (by decide) run5_eq).2 0 (by decide)

/-- C3: on the 5×5 board from start (0, 0) the solver succeeds, and the
recorded tour has length 25 with square (0, 0) at move index 0. -/
theorem claim3 :
    (runSolve 5).map Prod.fst = some true ∧
    ((runSolve 5).map fun r => (tourPath 5 r.2.solution).length) = some 25 ∧
    ((runSolve 5).map fun r => (tourPath 5 r.2.solution).getD 0 ((1 : Int), (1 : Int)))
      = some ((0 : Int), (0 : Int)) := by
  rw [run5_eq]
  refine ⟨rfl, by decide!, by decide!⟩

/-- C4 counterexample: a step of the actual 5×5 search (the state after the
first move, current square (2, 1), `move_count` 2) where the engine does not
try the strictly smallest-degree candidate first.  The in-bounds unvisited
candidates in the engine's order are (4,2), (3,3), (1,3), (0,2), (4,0); the
onward-degree of (4,0) is 1, strictly smaller than every other candidate's 3.
Had the engine tried (4,0) first it would have succeeded (its branch returns
True), so the result would assign move index 2 to (4,0); instead the engine's
result assigns index 2 to (4,2) — the first candidate in offset order — and
index 24 to (4,0), refuting the claimed smallest-degree-first ordering. -/
theorem claim4_cex :
    candidateList 5 [[0, -1, -1, -1, -1], [-1, -1, -1, -1, -1], [-1, 1, -1, -1, -1], [-1, -1, -1, -1, -1], [-1, -1, -1, -1, -1]] 2 1
      = [(4, 2), (3, 3), (1, 3), (0, 2), (4, 0)] ∧
    degree 5 [[0, -1, -1, -1, -1], [-1, -1, -1, -1, -1], [-1, 1, -1, -1, -1], [-1, -1, -1, -1, -1], [-1, -1, -1, -1, -1]] ((4 : Int), (0 : Int)) = 1 ∧
    degree 5 [[0, -1, -1, -1, -1], [-1, -1, -1, -1, -1], [-1, 1, -1, -1, -1], [-1, -1, -1, -1, -1], [-1, -1, -1, -1, -1]] ((4 : Int), (2 : Int)) = 3 ∧
    degree 5 [[0, -1, -1, -1, -1], [-1, -1, -1, -1, -1], [-1, 1, -1, -1, -1], [-1, -1, -1, -1, -1], [-1, -1, -1, -1, -1]] ((3 : Int), (3 : Int)) = 3 ∧
    degree 5 [[0, -1, -1, -1, -1], [-1, -1, -1, -1, -1], [-1, 1, -1, -1, -1], [-1, -1, -1, -1, -1], [-1, -1, -1, -1, -1]] ((1 : Int), (3 : Int)) = 3 ∧
    degree 5 [[0, -1, -1, -1, -1], [-1, -1, -1, -1, -1], [-1, 1, -1, -1, -1], [-1, -1, -1, -1, -1], [-1, -1, -1, -1, -1]] ((0 : Int), (2 : Int)) = 3 ∧
    (solveKnightTour 5 24 4 0 3
        (markState (⟨[[0, -1, -1, -1, -1], [-1, -1, -1, -1, -1], [-1, 1, -1, -1, -1], [-1, -1, -1, -1, -1], [-1, -1, -1, -1, -1]], [(2, 1), (0, 0)], (2, 1)⟩ : SearchState) 4 0 2)).map
      Prod.fst = some true ∧
    (solveKnightTour 5 25 2 1 2
        (⟨[[0, -1, -1, -1, -1], [-1, -1, -1, -1, -1], [-1, 1, -1, -1, -1], [-1, -1, -1, -1, -1], [-1, -1, -1, -1, -1]], [(2, 1), (0, 0)], (2, 1)⟩ : SearchState)).map
      (fun r => (r.1, gridGet r.2.solution 4 0, gridGet r.2.solution 4 2))
      = some (true, 24, 2) := by
  refine ⟨by decide, by decide, by decide, by decide, by decide, by decide, by decide!, ?_⟩
  rw [run5_node_002]
  decide

/-- C4 (amended): at every step the engine tries the in-bounds unvisited
candidate squares in the fixed offset order — the first-listed valid offset
first, retrying with the next on failure — with no degree ranking at all: one
engine step is exactly the candidate-list loop over `candidateList`, a
computation that never consults `degree`. -/
theorem claim4 (n fuel : Nat) (row col : Int) (mc : Nat) (s : SearchState)
    (hInv : GInv n mc row col s) (hlt : mc < n * n) :
    solveKnightTour n (fuel + 1) row col mc s
      = tryCandidates n (solveKnightTour n fuel) mc (candidateList n s.solution row col) s :=
  engine_candidate_order n fuel row col mc s hInv hlt

/-- C4 witness: `claim4` at the initial state of the 5×5 board. -/
theorem claim4_witness :
    solveKnightTour 5 4 0 0 1 (initState 5)
      = tryCandidates 5 (solveKnightTour 5 3) 1 (candidateList 5 (initState 5).solution 0 0)
          (initState 5) :=
  claim4 5 3 0 0 1 (initState 5) (initInv 5 (by decide)) (by decide)

/-- C5: on the 3×3 board the solver returns False — reported as an ordinary
`ok false` call result with the board state restored (knight left on the last
attempted square), not as an exception. -/
theorem claim5 :
    callSolve 3 ((0 : Int), (0 : Int))
      = some (CallResult.ok false
          (⟨[[0, -1, -1], [-1, -1, -1], [-1, -1, -1]], [(0, 0)], (2, 1)⟩ : SearchState)) ∧
    (runSolve 3).map Prod.fst = some false := by
  constructor
  · decide!
  · decide!

/-- C6: on the 1×1 board the solver succeeds immediately (move count already
equals n² = 1) with the board untouched, and the recorded tour is `[(0, 0)]`. -/
theorem claim6 :
    runSolve 1 = some (true, initState 1) ∧
    tourPath 1 (initState 1).solution = [((0 : Int), (0 : Int))] := by
  constructor
  · rfl
  · decide

/-- C7 counterexample: the claim "n < 1 or an out-of-range start produces
`InvalidArgument`" is false on the code.  For n = 0 construction fails with an
uncaught `IndexError` (not a distinguished `InvalidArgument`), and for n = 8
with start (8, 0) no `InvalidArgument` can be produced — the constructor
overwrites the knight's position with (0, 0) and performs no validation. -/
theorem claim7_cex :
    callSolve 0 ((0 : Int), (0 : Int)) = some CallResult.indexError ∧
    callSolve 8 ((8 : Int), (0 : Int)) ≠ some CallResult.invalidArgument :=
  ⟨rfl, callSolve_no_invalidArgument 8 (8, 0)⟩

/-- C7 (amended): the code performs no argument validation.  A board size
n < 1 fails at construction with an uncaught `IndexError`, distinct from the
ordinary `False`/`NotFound` return; no call ever produces the spec's
`InvalidArgument`; and the supplied start square is irrelevant because
`Board.__init__` overwrites the knight's position with (0, 0). -/
theorem claim7 (n : Nat) (start : Int × Int) :
    (n = 0 → callSolve n start = some CallResult.indexError) ∧
    callSolve n start ≠ some CallResult.invalidArgument ∧
    callSolve n start = callSolve n ((0 : Int), (0 : Int)) :=
  ⟨fun h => by subst h; rfl, callSolve_no_invalidArgument n start,
    callSolve_start_irrelevant n start ((0 : Int), (0 : Int))⟩

/-- C7 witness: `claim7` instantiated at n = 0 with start (7, 7), and at
n = 9 with start (2, 3). -/
theorem claim7_witness :
    callSolve 0 ((7 : Int), (7 : Int)) = some CallResult.indexError ∧
    callSolve 9 ((2 : Int), (3 : Int)) = callSolve 9 ((0 : Int), (0 : Int)) :=
  ⟨(claim7 0 ((7 : Int), (7 : Int))).1 rfl, (claim7 9 ((2 : Int), (3 : Int))).2.2⟩

/-- C8 counterexample: the first candidate attempt of the 3×3 search.  From the
initial state (knight at (0, 0)) the engine marks (2, 1) and recurses
(`move_count` 2, fuel 9); the attempt fails, and after the unmark the knight's
recorded position is (1, 2) — not restored to its value (0, 0) before the
attempt, refuting "the entire program state ... and the knight's recorded
position is restored exactly". -/
theorem claim8_cex :
    solveKnightTour 3 9 2 1 2
        (⟨[[0, -1, -1], [-1, -1, -1], [-1, 1, -1]], [(2, 1), (0, 0)], (2, 1)⟩ : SearchState)
      = some (false,
        (⟨[[0, -1, -1], [-1, -1, -1], [-1, 1, -1]], [(2, 1), (0, 0)], (1, 2)⟩ : SearchState)) ∧
    (unmarkState
        (⟨[[0, -1, -1], [-1, -1, -1], [-1, 1, -1]], [(2, 1), (0, 0)], (1, 2)⟩ : SearchState)
        2 1).knightPos ≠ (initState 3).knightPos := by
  constructor
  · decide!
  · decide

/-- C8 (amended): when the recursive attempt at a valid candidate fails,
unmarking the candidate restores the solution grid and the visited set exactly
to their values before the attempt; the knight's recorded position is not part
of this restoration (the source never resets `knight.position`). -/
theorem claim8 (n fuel : Nat) (row col nr nc : Int) (mc : Nat) (s s2 : SearchState)
    (hInv : GInv n mc row col s)
    (hoff : (nr - row, nc - col) ∈ offsets)
    (hmc : mc < n * n)
    (hval : isValid n s.solution nr nc = true)
    (h : solveKnightTour n fuel nr nc (mc + 1) (markState s nr nc mc) = some (false, s2)) :
    (unmarkState s2 nr nc).solution = s.solution ∧
    (unmarkState s2 nr nc).visits = s.visits := by
  obtain ⟨hinB, hempty⟩ := (isValid_iff n s.solution nr nc).1 hval
  have hInv2 := markGInv n mc row col nr nc s hInv hoff hmc hval
  have hrest := solve_restore n fuel nr nc (mc + 1) (markState s nr nc mc) s2 hInv2 h
  constructor
  · rw [unmarkState_solution, hrest.1, markState_solution]
    exact gridSet_unmark_mark n s.solution nr nc (mc : Int) hInv.shape hinB hempty
  · rw [unmarkState_visits, hrest.2, markState_visits]
    have hnotmem : (nr, nc) ∉ s.visits := by
      intro hmem
      obtain ⟨_, hne'⟩ := (hInv.visits_iff (nr, nc)).1 hmem
      exact hne' hempty
    rw [List.insert_of_not_mem hnotmem, List.erase_cons_head]

/-- C8 witness: `claim8` at the failed (2, 1) attempt of the 3×3 search. -/
theorem claim8_witness :
    (unmarkState
        (⟨[[0, -1, -1], [-1, -1, -1], [-1, 1, -1]], [(2, 1), (0, 0)], (1, 2)⟩ : SearchState)
        2 1).solution = (initState 3).solution ∧
    (unmarkState
        (⟨[[0, -1, -1], [-1, -1, -1], [-1, 1, -1]], [(2, 1), (0, 0)], (1, 2)⟩ : SearchState)
        2 1).visits = (initState 3).visits :=
  claim8 3 9 0 0 2 1 1 (initState 3) _ (initInv 3 (by decide)) (by decide) (by decide)
    (by decide) (by decide!)

/-- C9: at every reachable search state the visited set is exactly the set of
squares whose solution entry is not −1, and square (0, 0) holds move index 0
and is the unique square holding it.  (States after an unmark coincide with
earlier reachable states by `solve_restore`.) -/
theorem claim9 (n : Nat) (s : SearchState) (mc : Nat) (row col : Int)
    (h : Reach n s mc row col) :
    (∀ p, p ∈ s.visits ↔ (inB n p ∧ gridGet s.solution p.1 p.2 ≠ -1)) ∧
    gridGet s.solution 0 0 = 0 ∧
    ∀ p, inB n p → gridGet s.solution p.1 p.2 = 0 → p = ((0 : Int), (0 : Int)) := by
  have hInv := reach_inv n s mc row col h
  have hn1 := hInv.hn
  refine ⟨hInv.visits_iff, hInv.start0, ?_⟩
  intro p hp hv
  have h00 : inB n ((0 : Int), (0 : Int)) := ⟨by omega, by omega, by omega, by omega⟩
  exact hInv.uniq 0 hInv.mc_lb p ((0 : Int), (0 : Int)) hp h00 (by simpa using hv)
    (by simpa using hInv.start0)

/-- C9 witness: `claim9` at the initial state of the 2×2 board. -/
theorem claim9_witness :
    (((0 : Int), (0 : Int)) ∈ (initState 2).visits ↔
      (inB 2 ((0 : Int), (0 : Int)) ∧ gridGet (initState 2).solution 0 0 ≠ -1)) ∧
    gridGet (initState 2).solution 0 0 = 0 := by
  have h := claim9 2 (initState 2) 1 0 0 (Reach.init (by decide))
  exact ⟨h.1 ((0 : Int), (0 : Int)), h.2.1⟩

/-- C10: the recursive search always terminates: with `move_count ≤ n²` and
fuel at least `n² + 1 − move_count` (one unit per remaining depth level), the
engine returns an answer rather than running out of fuel — in particular the
fuel `n² + 1` supplied by `runSolve` always suffices. -/
theorem claim10 (n fuel : Nat) (row col : Int) (mc : Nat) (s : SearchState)
    (hmc : mc ≤ n * n) (hf : n * n + 1 - mc ≤ fuel) :
    (solveKnightTour n fuel row col mc s).isSome = true :=
  solveFuelSufficient n fuel row col mc s hmc hf

/-- C10 witness: `claim10` at n = 2 from the initial call. -/
theorem claim10_witness : (solveKnightTour 2 4 0 0 1 (initState 2)).isSome = true :=
  claim10 2 4 0 0 1 (initState 2) (by decide) (by decide)

end KnightsTour
